import Mathlib

/-!
# Upskilling API: enrollment workflow and CRUD services

A shallow embedding of the Go packages `model`, `dao` and `service`.

* Go's `(T, error)` results are read as `Except GoError T`: the data-access
  functions return exactly one of the two, and the services never look at the
  value when the error is set.
* `int64` / `int` fields are `Int`; no arithmetic is performed on them.
* `time.Time` values are instants on a linear scale (`Time`).
* The database behind `db.GetDB()` is the state `World`: the three tables, the
  id sequences, the wall clock and a schedule of driver failures.  Every SQL
  statement of the data-access layer is one function on `World`.
* `log.Printf` calls write to the process log only and are left out.
-/

namespace Upskilling

/-! ## package model -/

/-- Instants of `time.Time`, as a count of ticks of the store's resolution. -/
abbrev Time := Int

/-- The `model.Usuario` entity. -/
structure Usuario where
  ID : Int
  Nome : String
  Email : String
  AreaAtuacao : String
  NivelCarreira : String
  DataCadastro : Time
deriving DecidableEq, Repr

/-- The `model.Trilha` entity. -/
structure Trilha where
  ID : Int
  Nome : String
  Descricao : String
  Nivel : String
  CargaHoraria : Int
  FocoPrincipal : String
deriving DecidableEq, Repr

/-- The `model.Matricula` entity. -/
structure Matricula where
  ID : Int
  UsuarioID : Int
  TrilhaID : Int
  DataInscricao : Time
  Status : String
deriving DecidableEq, Repr

/-- The `model.CreateUsuarioRequest` DTO. -/
structure CreateUsuarioRequest where
  Nome : String
  Email : String
  AreaAtuacao : String
  NivelCarreira : String
deriving DecidableEq, Repr

/-- The `model.UpdateUsuarioRequest` DTO. -/
structure UpdateUsuarioRequest where
  Nome : String
  AreaAtuacao : String
  NivelCarreira : String
deriving DecidableEq, Repr

/-- The `model.CreateTrilhaRequest` DTO. -/
structure CreateTrilhaRequest where
  Nome : String
  Descricao : String
  Nivel : String
  CargaHoraria : Int
  FocoPrincipal : String
deriving DecidableEq, Repr

/-- The `model.UpdateTrilhaRequest` DTO. -/
structure UpdateTrilhaRequest where
  Nome : String
  Descricao : String
  Nivel : String
  CargaHoraria : Int
  FocoPrincipal : String
deriving DecidableEq, Repr

/-- The `model.UsuarioResponse` DTO. -/
structure UsuarioResponse where
  ID : Int
  Nome : String
  Email : String
  AreaAtuacao : String
  NivelCarreira : String
  DataCadastro : Time
deriving DecidableEq, Repr

/-- The `model.TrilhaResponse` DTO. -/
structure TrilhaResponse where
  ID : Int
  Nome : String
  Descricao : String
  Nivel : String
  CargaHoraria : Int
  FocoPrincipal : String
deriving DecidableEq, Repr

/-- The `model.ErrorResponse` DTO. -/
structure ErrorResponse where
  Message : String
  Details : String
deriving DecidableEq, Repr

/-- Go `error` values that occur in the program: the three typed errors of
`model`, `sql.ErrNoRows`, errors raised by the database driver, and
`fmt.Errorf("<text>: %w", inner)` wrappers. -/
inductive GoError where
  | ResourceNotFoundError (Resource : String) (ID : Int)
  | ConflictError (Msg : String)
  | BusinessRuleError (Msg : String)
  | ErrNoRows
  | driver (text : String)
  | wrapped (text : String) (inner : GoError)
deriving DecidableEq, Repr

/-- The verb `%d` of `fmt.Sprintf` applied to an integer. -/
def fmtD (n : Int) : String := toString n

/-- The method `Error()` of every error value. -/
def GoError.Error : GoError → String
  | .ResourceNotFoundError r id => r ++ " não encontrado(a) com ID: " ++ fmtD id
  | .ConflictError m => m
  | .BusinessRuleError m => m
  | .ErrNoRows => "sql: no rows in result set"
  | .driver t => t
  | .wrapped t inner => t ++ ": " ++ inner.Error

/-- The method `StatusCode()` of the `CustomError` interface; `none` for error
values that do not implement the interface. -/
def GoError.StatusCode : GoError → Option Int
  | .ResourceNotFoundError _ _ => some 404
  | .ConflictError _ => some 409
  | .BusinessRuleError _ => some 422
  | _ => none

/-- The method `Message()` of the `CustomError` interface; `none` for error
values that do not implement the interface. -/
def GoError.Message : GoError → Option String
  | .ResourceNotFoundError r _ => some (r ++ " não encontrado(a).")
  | .ConflictError m => some m
  | .BusinessRuleError m => some m
  | _ => none

/-- The type assertion `err.(*model.ResourceNotFoundError)`: it looks at the
dynamic type of the value only, never inside a wrapper. -/
def GoError.isResourceNotFound : GoError → Bool
  | .ResourceNotFoundError _ _ => true
  | _ => false

/-- The dynamic type of the value is `*model.BusinessRuleError`. -/
def GoError.isBusinessRule : GoError → Bool
  | .BusinessRuleError _ => true
  | _ => false

/-- The dynamic type of the value is `*model.ConflictError`. -/
def GoError.isConflict : GoError → Bool
  | .ConflictError _ => true
  | _ => false

/-! ## The database behind `db.GetDB()` -/

/-- What goes wrong on one round trip to the database. -/
inductive Fault where
  /-- The round trip works. -/
  | none
  /-- The statement fails and has no effect. -/
  | stmt (text : String)
  /-- In a multi-row query, `rows.Scan` fails on row number `row`. -/
  | scan (row : Nat) (text : String)
  /-- In a multi-row query, `rows.Next` stops after `row` rows and `rows.Err()`
  reports the error. -/
  | iter (row : Nat) (text : String)
  /-- After an `Exec` that took effect, `result.RowsAffected()` fails. -/
  | affected (text : String)
deriving DecidableEq, Repr

/-- The text of the driver error of a fault. -/
def Fault.text : Fault → String
  | .none => ""
  | .stmt t => t
  | .scan _ t => t
  | .iter _ t => t
  | .affected t => t

/-- The process and its database: table contents, the last value handed out by
each id sequence, and the environment (driver failures and clock readings,
indexed by how many have been consumed). -/
structure World where
  usuarios : List Usuario
  trilhas : List Trilha
  matriculas : List Matricula
  usuariosSeq : Nat
  trilhasSeq : Nat
  matriculasSeq : Nat
  faults : Nat → Fault
  calls : Nat
  clock : Nat → Time
  ticks : Nat

/-- The fault of the next round trip. -/
def World.nextFault (w : World) : Fault × World :=
  (w.faults w.calls, { w with calls := w.calls + 1 })

/-- The call `time.Now()`. -/
def World.timeNow (w : World) : Time × World :=
  (w.clock w.ticks, { w with ticks := w.ticks + 1 })

/-- What a `*sql.Rows` delivers: one entry per `rows.Next()` step, holding what
`rows.Scan` yields there, and the value of `rows.Err()` after the last step. -/
structure Rows (α : Type) where
  scans : List (Except GoError α)
  err : Option GoError

/-- `QueryRow(..).Scan(..)` on the result set of a SELECT: the first row, or
`sql.ErrNoRows` when there is none. -/
def scanFirst {α : Type} : List α → Except GoError α
  | [] => .error .ErrNoRows
  | r :: _ => .ok r

/-- A single-row SELECT through `QueryRow(..).Scan(..)`. -/
def World.queryRow {α : Type} (w : World) (result : World → List α) :
    Except GoError α × World :=
  match w.nextFault with
  | (.none, w1) => (scanFirst (result w1), w1)
  | (f, w1) => (.error (.driver f.text), w1)

/-- A multi-row SELECT through `Query(..)`. -/
def World.query {α : Type} (w : World) (result : World → List α) :
    Except GoError (Rows α) × World :=
  match w.nextFault with
  | (.none, w1) => (.ok ⟨(result w1).map .ok, Option.none⟩, w1)
  | (.scan i t, w1) =>
    if i < (result w1).length then
      (.ok ⟨((result w1).take i).map .ok ++ [.error (.driver t)], Option.none⟩, w1)
    else
      (.ok ⟨(result w1).map .ok, Option.none⟩, w1)
  | (.iter i t, w1) => (.ok ⟨((result w1).take i).map .ok, some (.driver t)⟩, w1)
  | (f, w1) => (.error (.driver f.text), w1)

/-- An UPDATE or DELETE through `Exec(..)`: `effect` gives the new state and the
number of rows affected; the inner result is that of `result.RowsAffected()`. -/
def World.exec (w : World) (effect : World → World × Nat) :
    Except GoError (Except GoError Nat) × World :=
  match w.nextFault with
  | (.none, w1) => (.ok (.ok (effect w1).2), (effect w1).1)
  | (.affected t, w1) => (.ok (.error (.driver t)), (effect w1).1)
  | (f, w1) => (.error (.driver f.text), w1)

/-- The text with which the driver rejects a second row with the same email. -/
def usuariosEmailKey : String :=
  "pq: duplicate key value violates unique constraint \"usuarios_email_key\""

/-- Modelled from the spec: the table definitions (`/db/schema.sql`) are not
part of the sources.  Insert into `matriculas` with
`RETURNING id, data_inscricao`: the store assigns the next value of the id
sequence and keeps the timestamp it is given. -/
def World.insertMatricula (w : World) (usuarioID trilhaID : Int) (dataInscricao : Time)
    (status : String) : Except GoError (Int × Time) × World :=
  match w.nextFault with
  | (.none, w1) =>
    (.ok ((w1.matriculasSeq : Int) + 1, dataInscricao),
      { w1 with
        matriculas := w1.matriculas ++
          [{ ID := (w1.matriculasSeq : Int) + 1, UsuarioID := usuarioID, TrilhaID := trilhaID,
             DataInscricao := dataInscricao, Status := status }]
        matriculasSeq := w1.matriculasSeq + 1 })
  | (f, w1) => (.error (.driver f.text), w1)

/-- Modelled from the spec: the table definitions (`/db/schema.sql`) are not
part of the sources.  Insert into `trilhas` with `RETURNING id`: the store
assigns the next value of the id sequence. -/
def World.insertTrilha (w : World) (nome descricao nivel : String) (cargaHoraria : Int)
    (focoPrincipal : String) : Except GoError Int × World :=
  match w.nextFault with
  | (.none, w1) =>
    (.ok ((w1.trilhasSeq : Int) + 1),
      { w1 with
        trilhas := w1.trilhas ++
          [{ ID := (w1.trilhasSeq : Int) + 1, Nome := nome, Descricao := descricao,
             Nivel := nivel, CargaHoraria := cargaHoraria, FocoPrincipal := focoPrincipal }]
        trilhasSeq := w1.trilhasSeq + 1 })
  | (f, w1) => (.error (.driver f.text), w1)

/-- Modelled from the spec: the table definitions (`/db/schema.sql`) are not
part of the sources.  Insert into `usuarios` with `RETURNING id, data_cadastro`:
email is unique across all users, so a row whose email is already stored is
rejected with the driver error that `usuarioDAOImpl.Create` looks for; otherwise
the store assigns the next value of the id sequence and keeps the timestamp it
is given. -/
def World.insertUsuario (w : World) (nome email areaAtuacao nivelCarreira : String)
    (dataCadastro : Time) : Except GoError (Int × Time) × World :=
  match w.nextFault with
  | (.none, w1) =>
    if w1.usuarios.any (fun u => u.Email == email) then
      (.error (.driver usuariosEmailKey), w1)
    else
      (.ok ((w1.usuariosSeq : Int) + 1, dataCadastro),
        { w1 with
          usuarios := w1.usuarios ++
            [{ ID := (w1.usuariosSeq : Int) + 1, Nome := nome, Email := email,
               AreaAtuacao := areaAtuacao, NivelCarreira := nivelCarreira,
               DataCadastro := dataCadastro }]
          usuariosSeq := w1.usuariosSeq + 1 })
  | (f, w1) => (.error (.driver f.text), w1)

/-- The rows of `SELECT .. FROM usuarios WHERE id = $1`. -/
def World.selectUsuarioByID (id : Int) (w : World) : List Usuario :=
  w.usuarios.filter (fun u => u.ID == id)

/-- The rows of `SELECT .. FROM usuarios WHERE email = $1`. -/
def World.selectUsuarioByEmail (email : String) (w : World) : List Usuario :=
  w.usuarios.filter (fun u => u.Email == email)

/-- The rows of `SELECT .. FROM usuarios ORDER BY id`. -/
def World.selectUsuarios (w : World) : List Usuario :=
  w.usuarios.insertionSort (fun a b => a.ID ≤ b.ID)

/-- The rows of `SELECT .. FROM trilhas WHERE id = $1`. -/
def World.selectTrilhaByID (id : Int) (w : World) : List Trilha :=
  w.trilhas.filter (fun t => t.ID == id)

/-- The rows of `SELECT .. FROM trilhas ORDER BY id`. -/
def World.selectTrilhas (w : World) : List Trilha :=
  w.trilhas.insertionSort (fun a b => a.ID ≤ b.ID)

/-- The rows of
`SELECT .. FROM matriculas WHERE usuario_id = $1 ORDER BY data_inscricao DESC`. -/
def World.selectMatriculasByUsuario (usuarioID : Int) (w : World) : List Matricula :=
  (w.matriculas.filter (fun m => m.UsuarioID == usuarioID)).insertionSort
    (fun a b => b.DataInscricao ≤ a.DataInscricao)

/-- The statement
`UPDATE usuarios SET nome = $2, area_atuacao = $3, nivel_carreira = $4 WHERE id = $1`. -/
def World.updateUsuario (id : Int) (nome areaAtuacao nivelCarreira : String) (w : World) :
    World × Nat :=
  ({ w with
     usuarios := w.usuarios.map (fun u =>
       if u.ID = id then
         { u with Nome := nome, AreaAtuacao := areaAtuacao, NivelCarreira := nivelCarreira }
       else u) },
   w.usuarios.countP (fun u => u.ID == id))

/-- The statement `UPDATE trilhas SET nome = $2, descricao = $3, nivel = $4,
carga_horaria = $5, foco_principal = $6 WHERE id = $1`. -/
def World.updateTrilha (id : Int) (nome descricao nivel : String) (cargaHoraria : Int)
    (focoPrincipal : String) (w : World) : World × Nat :=
  ({ w with
     trilhas := w.trilhas.map (fun t =>
       if t.ID = id then
         { t with Nome := nome, Descricao := descricao, Nivel := nivel,
                  CargaHoraria := cargaHoraria, FocoPrincipal := focoPrincipal }
       else t) },
   w.trilhas.countP (fun t => t.ID == id))

/-- The statement `DELETE FROM usuarios WHERE id = $1`. -/
def World.deleteUsuario (id : Int) (w : World) : World × Nat :=
  ({ w with usuarios := w.usuarios.filter (fun u => !(u.ID == id)) },
   w.usuarios.countP (fun u => u.ID == id))

/-- The statement `DELETE FROM trilhas WHERE id = $1`. -/
def World.deleteTrilha (id : Int) (w : World) : World × Nat :=
  ({ w with trilhas := w.trilhas.filter (fun t => !(t.ID == id)) },
   w.trilhas.countP (fun t => t.ID == id))

/-! ## package dao -/

/-- The interface `dao.UsuarioDAO`, over any state `σ` the implementation acts on.
`Create` yields the record as the call leaves it behind its pointer argument. -/
structure UsuarioDAO (σ : Type) where
  Create : Usuario → σ → Except GoError Usuario × σ
  FindByID : Int → σ → Except GoError Usuario × σ
  FindAll : σ → Except GoError (List Usuario) × σ
  Update : Usuario → σ → Option GoError × σ
  Delete : Int → σ → Option GoError × σ
  FindByEmail : String → σ → Except GoError (Option Usuario) × σ

/-- The interface `dao.TrilhaDAO`. -/
structure TrilhaDAO (σ : Type) where
  Create : Trilha → σ → Except GoError Trilha × σ
  FindByID : Int → σ → Except GoError Trilha × σ
  FindAll : σ → Except GoError (List Trilha) × σ
  Update : Trilha → σ → Option GoError × σ
  Delete : Int → σ → Option GoError × σ

/-- The interface `dao.MatriculaDAO`. -/
structure MatriculaDAO (σ : Type) where
  Create : Matricula → σ → Except GoError Matricula × σ
  FindByUsuarioID : Int → σ → Except GoError (List Matricula) × σ

/-- The loop `for rows.Next() { .. rows.Scan(..) .. append .. }` of every
multi-row finder: it stops at the first row whose `Scan` fails, with the error
wrapped under `scanText`. -/
def scanRows {α : Type} (scanText : String) :
    List (Except GoError α) → List α → Except GoError (List α)
  | [], acc => .ok acc
  | .error err :: _, _ => .error (.wrapped scanText err)
  | .ok r :: rest, acc => scanRows scanText rest (acc ++ [r])

/-- The body of every multi-row finder after `Query` has returned: the slice
starts as `make([]T, 0)`, the loop fills it, then `rows.Err()` is checked. -/
def collectRows {α : Type} (scanText iterText : String) (rows : Rows α) :
    Except GoError (List α) :=
  match scanRows scanText rows.scans [] with
  | .error err => .error err
  | .ok acc =>
    match rows.err with
    | some err => .error (.wrapped iterText err)
    | Option.none => .ok acc

/-- The body shared by the multi-row finders: the error of `Query` comes back
wrapped under `queryText`; otherwise the rows are collected. -/
def World.findRows {α : Type} (w : World) (result : World → List α)
    (queryText scanText iterText : String) : Except GoError (List α) × World :=
  match w.query result with
  | (.error err, w1) => (.error (.wrapped queryText err), w1)
  | (.ok rows, w1) => (collectRows scanText iterText rows, w1)

/-- The tail of `Update` and `Delete`: the error of `Exec`, then the error of
`RowsAffected`, then not-found when no row was affected. -/
def execOutcome (execText : String) (notFound : GoError)
    (r : Except GoError (Except GoError Nat)) : Option GoError :=
  match r with
  | .error err => some (.wrapped execText err)
  | .ok (.error err) => some (.wrapped "erro ao verificar linhas afetadas" err)
  | .ok (.ok rowsAffected) => if rowsAffected = 0 then some notFound else Option.none

/-- The method `usuarioDAOImpl.Create`. -/
def usuarioDAOImpl.Create (usuario : Usuario) (w : World) : Except GoError Usuario × World :=
  match w.timeNow with
  | (now, w1) =>
    match w1.insertUsuario usuario.Nome usuario.Email usuario.AreaAtuacao
        usuario.NivelCarreira now with
    | (.error err, w2) =>
      if err.Error = usuariosEmailKey then
        (.error (.ConflictError "Email já cadastrado."), w2)
      else
        (.error (.wrapped "erro ao criar usuário" err), w2)
    | (.ok (id, dataCadastro), w2) =>
      (.ok { usuario with ID := id, DataCadastro := dataCadastro }, w2)

/-- The method `usuarioDAOImpl.FindByID`. -/
def usuarioDAOImpl.FindByID (id : Int) (w : World) : Except GoError Usuario × World :=
  match w.queryRow (World.selectUsuarioByID id) with
  | (.error err, w1) =>
    if err = .ErrNoRows then
      (.error (.ResourceNotFoundError "Usuário" id), w1)
    else
      (.error (.wrapped "erro ao buscar usuário por ID" err), w1)
  | (.ok usuario, w1) => (.ok usuario, w1)

/-- The method `usuarioDAOImpl.FindByEmail`. -/
def usuarioDAOImpl.FindByEmail (email : String) (w : World) :
    Except GoError (Option Usuario) × World :=
  match w.queryRow (World.selectUsuarioByEmail email) with
  | (.error err, w1) =>
    if err = .ErrNoRows then
      (.ok Option.none, w1)
    else
      (.error (.wrapped "erro ao buscar usuário por email" err), w1)
  | (.ok usuario, w1) => (.ok (some usuario), w1)

/-- The method `usuarioDAOImpl.FindAll`. -/
def usuarioDAOImpl.FindAll (w : World) : Except GoError (List Usuario) × World :=
  w.findRows World.selectUsuarios "erro ao buscar todos os usuários"
    "erro ao escanear linha de usuário" "erro após iteração de linhas"

/-- The method `usuarioDAOImpl.Update`. -/
def usuarioDAOImpl.Update (usuario : Usuario) (w : World) : Option GoError × World :=
  match w.exec (World.updateUsuario usuario.ID usuario.Nome usuario.AreaAtuacao
      usuario.NivelCarreira) with
  | (r, w1) =>
    (execOutcome "erro ao atualizar usuário" (.ResourceNotFoundError "Usuário" usuario.ID) r, w1)

/-- The method `usuarioDAOImpl.Delete`. -/
def usuarioDAOImpl.Delete (id : Int) (w : World) : Option GoError × World :=
  match w.exec (World.deleteUsuario id) with
  | (r, w1) =>
    (execOutcome "erro ao deletar usuário" (.ResourceNotFoundError "Usuário" id) r, w1)

/-- The constructor `dao.NewUsuarioDAO`. -/
def NewUsuarioDAO : UsuarioDAO World where
  Create := usuarioDAOImpl.Create
  FindByID := usuarioDAOImpl.FindByID
  FindAll := usuarioDAOImpl.FindAll
  Update := usuarioDAOImpl.Update
  Delete := usuarioDAOImpl.Delete
  FindByEmail := usuarioDAOImpl.FindByEmail

/-- The method `trilhaDAOImpl.Create`. -/
def trilhaDAOImpl.Create (trilha : Trilha) (w : World) : Except GoError Trilha × World :=
  match w.insertTrilha trilha.Nome trilha.Descricao trilha.Nivel trilha.CargaHoraria
      trilha.FocoPrincipal with
  | (.error err, w1) => (.error (.wrapped "erro ao criar trilha" err), w1)
  | (.ok id, w1) => (.ok { trilha with ID := id }, w1)

/-- The method `trilhaDAOImpl.FindByID`. -/
def trilhaDAOImpl.FindByID (id : Int) (w : World) : Except GoError Trilha × World :=
  match w.queryRow (World.selectTrilhaByID id) with
  | (.error err, w1) =>
    if err = .ErrNoRows then
      (.error (.ResourceNotFoundError "Trilha" id), w1)
    else
      (.error (.wrapped "erro ao buscar trilha por ID" err), w1)
  | (.ok trilha, w1) => (.ok trilha, w1)

/-- The method `trilhaDAOImpl.FindAll`. -/
def trilhaDAOImpl.FindAll (w : World) : Except GoError (List Trilha) × World :=
  w.findRows World.selectTrilhas "erro ao buscar todas as trilhas"
    "erro ao escanear linha de trilha" "erro após iteração de linhas"

/-- The method `trilhaDAOImpl.Update`. -/
def trilhaDAOImpl.Update (trilha : Trilha) (w : World) : Option GoError × World :=
  match w.exec (World.updateTrilha trilha.ID trilha.Nome trilha.Descricao trilha.Nivel
      trilha.CargaHoraria trilha.FocoPrincipal) with
  | (r, w1) =>
    (execOutcome "erro ao atualizar trilha" (.ResourceNotFoundError "Trilha" trilha.ID) r, w1)

/-- The method `trilhaDAOImpl.Delete`. -/
def trilhaDAOImpl.Delete (id : Int) (w : World) : Option GoError × World :=
  match w.exec (World.deleteTrilha id) with
  | (r, w1) =>
    (execOutcome "erro ao deletar trilha" (.ResourceNotFoundError "Trilha" id) r, w1)

/-- The constructor `dao.NewTrilhaDAO`. -/
def NewTrilhaDAO : TrilhaDAO World where
  Create := trilhaDAOImpl.Create
  FindByID := trilhaDAOImpl.FindByID
  FindAll := trilhaDAOImpl.FindAll
  Update := trilhaDAOImpl.Update
  Delete := trilhaDAOImpl.Delete

/-- The method `matriculaDAOImpl.Create`: the status written is the literal
`"ATIVA"`, whatever the record holds; of the record only `ID` and
`DataInscricao` are assigned. -/
def matriculaDAOImpl.Create (matricula : Matricula) (w : World) :
    Except GoError Matricula × World :=
  match w.timeNow with
  | (now, w1) =>
    match w1.insertMatricula matricula.UsuarioID matricula.TrilhaID now "ATIVA" with
    | (.error err, w2) => (.error (.wrapped "erro ao criar matrícula" err), w2)
    | (.ok (id, dataInscricao), w2) =>
      (.ok { matricula with ID := id, DataInscricao := dataInscricao }, w2)

/-- The method `matriculaDAOImpl.FindByUsuarioID`. -/
def matriculaDAOImpl.FindByUsuarioID (usuarioID : Int) (w : World) :
    Except GoError (List Matricula) × World :=
  w.findRows (World.selectMatriculasByUsuario usuarioID) "erro ao buscar matrículas por usuário"
    "erro ao escanear linha de matrícula" "erro após iteração de linhas"

/-- The constructor `dao.NewMatriculaDAO`. -/
def NewMatriculaDAO : MatriculaDAO World where
  Create := matriculaDAOImpl.Create
  FindByUsuarioID := matriculaDAOImpl.FindByUsuarioID

/-! ## package service -/

/-- The struct `service.matriculaServiceImpl`. -/
structure matriculaServiceImpl (σ : Type) where
  matriculaDAO : MatriculaDAO σ
  usuarioDAO : UsuarioDAO σ
  trilhaDAO : TrilhaDAO σ

/-- The constructor `service.NewMatriculaService`. -/
def NewMatriculaService : matriculaServiceImpl World where
  matriculaDAO := NewMatriculaDAO
  usuarioDAO := NewUsuarioDAO
  trilhaDAO := NewTrilhaDAO

/-- The method `matriculaServiceImpl.Matricular`. -/
def matriculaServiceImpl.Matricular {σ : Type} (s : matriculaServiceImpl σ)
    (usuarioID trilhaID : Int) (w : σ) : Except GoError Matricula × σ :=
  match s.usuarioDAO.FindByID usuarioID w with
  | (.error err, w1) =>
    if err.isResourceNotFound then
      (.error (.BusinessRuleError
        ("Usuário com ID " ++ fmtD usuarioID ++ " não encontrado.")), w1)
    else
      (.error err, w1)
  | (.ok _, w1) =>
    match s.trilhaDAO.FindByID trilhaID w1 with
    | (.error err, w2) =>
      if err.isResourceNotFound then
        (.error (.BusinessRuleError
          ("Trilha com ID " ++ fmtD trilhaID ++ " não encontrada.")), w2)
      else
        (.error err, w2)
    | (.ok _, w2) =>
      match s.matriculaDAO.Create
          { ID := 0, UsuarioID := usuarioID, TrilhaID := trilhaID, DataInscricao := 0,
            Status := "ATIVA" } w2 with
      | (.error err, w3) => (.error err, w3)
      | (.ok matricula, w3) => (.ok matricula, w3)

/-- The method `matriculaServiceImpl.GetMatriculasByUsuario`. -/
def matriculaServiceImpl.GetMatriculasByUsuario {σ : Type} (s : matriculaServiceImpl σ)
    (usuarioID : Int) (w : σ) : Except GoError (List Matricula) × σ :=
  match s.usuarioDAO.FindByID usuarioID w with
  | (.error err, w1) =>
    if err.isResourceNotFound then
      (.error (.BusinessRuleError
        ("Usuário com ID " ++ fmtD usuarioID ++ " não encontrado.")), w1)
    else
      (.error err, w1)
  | (.ok _, w1) => s.matriculaDAO.FindByUsuarioID usuarioID w1

/-- The struct `service.usuarioServiceImpl`; `timeNow` is the `time.Now` the
service calls. -/
structure usuarioServiceImpl (σ : Type) where
  dao : UsuarioDAO σ
  timeNow : σ → Time × σ

/-- The constructor `service.NewUsuarioService`. -/
def NewUsuarioService : usuarioServiceImpl World where
  dao := NewUsuarioDAO
  timeNow := World.timeNow

/-- The mapping from entity to response DTO that closes every method of the
user service. -/
def Usuario.toResponse (u : Usuario) : UsuarioResponse :=
  { ID := u.ID, Nome := u.Nome, Email := u.Email, AreaAtuacao := u.AreaAtuacao,
    NivelCarreira := u.NivelCarreira, DataCadastro := u.DataCadastro }

/-- The method `usuarioServiceImpl.Create`. -/
def usuarioServiceImpl.Create {σ : Type} (s : usuarioServiceImpl σ)
    (req : CreateUsuarioRequest) (w : σ) : Except GoError UsuarioResponse × σ :=
  match s.dao.FindByEmail req.Email w with
  | (.error err, w1) => (.error err, w1)
  | (.ok (some _), w1) =>
    (.error (.ConflictError ("O email \x27" ++ req.Email ++ "\x27 já está cadastrado.")), w1)
  | (.ok Option.none, w1) =>
    match s.timeNow w1 with
    | (now, w2) =>
      match s.dao.Create
          { ID := 0, Nome := req.Nome, Email := req.Email, AreaAtuacao := req.AreaAtuacao,
            NivelCarreira := req.NivelCarreira, DataCadastro := now } w2 with
      | (.error err, w3) => (.error err, w3)
      | (.ok usuario, w3) => (.ok usuario.toResponse, w3)

/-- The method `usuarioServiceImpl.FindByID`. -/
def usuarioServiceImpl.FindByID {σ : Type} (s : usuarioServiceImpl σ) (id : Int) (w : σ) :
    Except GoError UsuarioResponse × σ :=
  match s.dao.FindByID id w with
  | (.error err, w1) => (.error err, w1)
  | (.ok usuario, w1) => (.ok usuario.toResponse, w1)

/-- The method `usuarioServiceImpl.FindAll`. -/
def usuarioServiceImpl.FindAll {σ : Type} (s : usuarioServiceImpl σ) (w : σ) :
    Except GoError (List UsuarioResponse) × σ :=
  match s.dao.FindAll w with
  | (.error err, w1) => (.error err, w1)
  | (.ok usuarios, w1) => (.ok (usuarios.map Usuario.toResponse), w1)

/-- The method `usuarioServiceImpl.Update`: a field of the request overwrites
the stored one only when it is not the empty string. -/
def usuarioServiceImpl.Update {σ : Type} (s : usuarioServiceImpl σ) (id : Int)
    (req : UpdateUsuarioRequest) (w : σ) : Except GoError UsuarioResponse × σ :=
  match s.dao.FindByID id w with
  | (.error err, w1) => (.error err, w1)
  | (.ok usuario, w1) =>
    let usuario1 := if req.Nome ≠ "" then { usuario with Nome := req.Nome } else usuario
    let usuario2 :=
      if req.AreaAtuacao ≠ "" then { usuario1 with AreaAtuacao := req.AreaAtuacao } else usuario1
    let usuario3 :=
      if req.NivelCarreira ≠ "" then { usuario2 with NivelCarreira := req.NivelCarreira }
      else usuario2
    match s.dao.Update usuario3 w1 with
    | (some err, w2) => (.error err, w2)
    | (Option.none, w2) => (.ok usuario3.toResponse, w2)

/-- The method `usuarioServiceImpl.Delete`. -/
def usuarioServiceImpl.Delete {σ : Type} (s : usuarioServiceImpl σ) (id : Int) (w : σ) :
    Option GoError × σ :=
  s.dao.Delete id w

/-- The struct `service.trilhaServiceImpl`. -/
structure trilhaServiceImpl (σ : Type) where
  dao : TrilhaDAO σ

/-- The constructor `service.NewTrilhaService`. -/
def NewTrilhaService : trilhaServiceImpl World where
  dao := NewTrilhaDAO

/-- The mapping from entity to response DTO that closes every method of the
track service. -/
def Trilha.toResponse (t : Trilha) : TrilhaResponse :=
  { ID := t.ID, Nome := t.Nome, Descricao := t.Descricao, Nivel := t.Nivel,
    CargaHoraria := t.CargaHoraria, FocoPrincipal := t.FocoPrincipal }

/-- The method `trilhaServiceImpl.Create`. -/
def trilhaServiceImpl.Create {σ : Type} (s : trilhaServiceImpl σ)
    (req : CreateTrilhaRequest) (w : σ) : Except GoError TrilhaResponse × σ :=
  match s.dao.Create
      { ID := 0, Nome := req.Nome, Descricao := req.Descricao, Nivel := req.Nivel,
        CargaHoraria := req.CargaHoraria, FocoPrincipal := req.FocoPrincipal } w with
  | (.error err, w1) => (.error err, w1)
  | (.ok trilha, w1) => (.ok trilha.toResponse, w1)

/-- The method `trilhaServiceImpl.FindByID`. -/
def trilhaServiceImpl.FindByID {σ : Type} (s : trilhaServiceImpl σ) (id : Int) (w : σ) :
    Except GoError TrilhaResponse × σ :=
  match s.dao.FindByID id w with
  | (.error err, w1) => (.error err, w1)
  | (.ok trilha, w1) => (.ok trilha.toResponse, w1)

/-- The method `trilhaServiceImpl.FindAll`. -/
def trilhaServiceImpl.FindAll {σ : Type} (s : trilhaServiceImpl σ) (w : σ) :
    Except GoError (List TrilhaResponse) × σ :=
  match s.dao.FindAll w with
  | (.error err, w1) => (.error err, w1)
  | (.ok trilhas, w1) => (.ok (trilhas.map Trilha.toResponse), w1)

/-- The method `trilhaServiceImpl.Update`: a field of the request overwrites the
stored one only when it is not the empty string, for the workload not 0. -/
def trilhaServiceImpl.Update {σ : Type} (s : trilhaServiceImpl σ) (id : Int)
    (req : UpdateTrilhaRequest) (w : σ) : Except GoError TrilhaResponse × σ :=
  match s.dao.FindByID id w with
  | (.error err, w1) => (.error err, w1)
  | (.ok trilha, w1) =>
    let trilha1 := if req.Nome ≠ "" then { trilha with Nome := req.Nome } else trilha
    let trilha2 :=
      if req.Descricao ≠ "" then { trilha1 with Descricao := req.Descricao } else trilha1
    let trilha3 := if req.Nivel ≠ "" then { trilha2 with Nivel := req.Nivel } else trilha2
    let trilha4 :=
      if req.CargaHoraria ≠ 0 then { trilha3 with CargaHoraria := req.CargaHoraria } else trilha3
    let trilha5 :=
      if req.FocoPrincipal ≠ "" then { trilha4 with FocoPrincipal := req.FocoPrincipal }
      else trilha4
    match s.dao.Update trilha5 w1 with
    | (some err, w2) => (.error err, w2)
    | (Option.none, w2) => (.ok trilha5.toResponse, w2)

/-- The method `trilhaServiceImpl.Delete`. -/
def trilhaServiceImpl.Delete {σ : Type} (s : trilhaServiceImpl σ) (id : Int) (w : σ) :
    Option GoError × σ :=
  s.dao.Delete id w

/-- Step 2 of `usuarioServiceImpl.Update` on its own: the record after the
fields of the request have been applied to the record fetched. -/
def UpdateUsuarioRequest.applyTo (req : UpdateUsuarioRequest) (usuario : Usuario) : Usuario :=
  let usuario1 := if req.Nome ≠ "" then { usuario with Nome := req.Nome } else usuario
  let usuario2 :=
    if req.AreaAtuacao ≠ "" then { usuario1 with AreaAtuacao := req.AreaAtuacao } else usuario1
  if req.NivelCarreira ≠ "" then { usuario2 with NivelCarreira := req.NivelCarreira }
  else usuario2

/-- Step 2 of `trilhaServiceImpl.Update` on its own: the record after the fields
of the request have been applied to the record fetched. -/
def UpdateTrilhaRequest.applyTo (req : UpdateTrilhaRequest) (trilha : Trilha) : Trilha :=
  let trilha1 := if req.Nome ≠ "" then { trilha with Nome := req.Nome } else trilha
  let trilha2 :=
    if req.Descricao ≠ "" then { trilha1 with Descricao := req.Descricao } else trilha1
  let trilha3 := if req.Nivel ≠ "" then { trilha2 with Nivel := req.Nivel } else trilha2
  let trilha4 :=
    if req.CargaHoraria ≠ 0 then { trilha3 with CargaHoraria := req.CargaHoraria } else trilha3
  if req.FocoPrincipal ≠ "" then { trilha4 with FocoPrincipal := req.FocoPrincipal }
  else trilha4

/-! ## package controller -/

/-- What the enrollment handler and the error middleware render with `c.JSON`. -/
inductive Body where
  | errorResponse (r : ErrorResponse)
  | matricula (m : Matricula)
deriving DecidableEq, Repr

/-- The part of `gin.Context` the handlers and the middleware use: the errors
recorded with `c.Error` (`c.Errors`), what `c.JSON` has written, in order, and
whether `c.Abort()` has been called. -/
structure Context where
  Errors : List GoError
  written : List (Int × Body)
  aborted : Bool
deriving DecidableEq, Repr

/-- A fresh context, as a handler chain receives it. -/
def Context.new : Context :=
  { Errors := [], written := [], aborted := false }

/-- The call `c.Writer.Status()`: 200 until something is written, then the status
of the first write. -/
def Context.Status (c : Context) : Int :=
  match c.written with
  | [] => 200
  | (code, _) :: _ => code

/-- The call `c.JSON(code, obj)`. -/
def Context.JSON (c : Context) (code : Int) (obj : Body) : Context :=
  { c with written := c.written ++ [(code, obj)] }

/-- The call `c.Error(err)`. -/
def Context.Error (c : Context) (err : GoError) : Context :=
  { c with Errors := c.Errors ++ [err] }

/-- The call `c.Abort()`. -/
def Context.Abort (c : Context) : Context :=
  { c with aborted := true }

/-- The function `handleError`. -/
def handleError (c : Context) (err : Option GoError) : Context :=
  match err with
  | Option.none => c
  | some e => (c.Error e).Abort

/-- The handler returned by `ErrorHandlerMiddleware`; `next` is the rest of the
chain, run by `c.Next()`.  The assertion `err.(model.CustomError)` holds for the
error values that have `StatusCode` and `Message`. -/
def ErrorHandlerMiddleware {σ : Type} (next : Context → σ → Context × σ) (c : Context)
    (w : σ) : Context × σ :=
  match next c w with
  | (c1, w1) =>
    match c1.Errors with
    | [] => (c1, w1)
    | err :: _ =>
      match err.StatusCode, err.Message with
      | some code, some message =>
        (c1.JSON code (.errorResponse { Message := message, Details := err.Error }), w1)
      | _, _ =>
        if c1.Status = 400 then
          (c1.JSON 400 (.errorResponse
            { Message := "Dados de entrada inválidos.", Details := err.Error }), w1)
        else
          (c1.JSON 500 (.errorResponse
            { Message := "Ocorreu um erro interno no servidor.", Details := err.Error }), w1)

/-- The struct `controller.MatricularRequest`. -/
structure MatricularRequest where
  UsuarioID : Int
  TrilhaID : Int
deriving DecidableEq, Repr

/-- The body of `POST /matriculas` as a JSON document: the integer under each of
the two keys, `none` for a key that is absent or null. -/
structure MatricularJSON where
  usuario_id : Option Int
  trilha_id : Option Int
deriving DecidableEq, Repr

/-- Decoding one JSON integer into an `int64` field: an absent key leaves the
zero value, a number outside the range of `int64` is a decoding error, whose
text names the number (here in decimal digits) and the field. -/
def decodeInt64 (field : String) (v : Option Int) : Except String Int :=
  match v with
  | Option.none => .ok 0
  | some n =>
    if -(2 : Int) ^ 63 ≤ n ∧ n < (2 : Int) ^ 63 then .ok n
    else .error ("json: cannot unmarshal number " ++ toString n ++
      " into Go struct field MatricularRequest." ++ field ++ " of type int64")

/-- The text of one failed field validation. -/
def fieldError (field tag : String) : String :=
  "Key: \x27MatricularRequest." ++ field ++ "\x27 Error:Field validation for \x27" ++ field ++
    "\x27 failed on the \x27" ++ tag ++ "\x27 tag"

/-- The tags `binding:"required,gt=0"` on an `int64` field: `required` rejects the
zero value, `gt=0` rejects what is not above 0; the first tag that fails is the
one reported. -/
def validateID (field : String) (v : Int) : List String :=
  if v = 0 then [fieldError field "required"]
  else if ¬ (0 < v) then [fieldError field "gt"]
  else []

/-- The call `c.ShouldBindJSON(&req)` for a `MatricularRequest`; the error is
given by its text.  `body` is the text of the decoding error when the request
body is not a JSON object with integers under the two keys. -/
def ShouldBindJSON (body : Except String MatricularJSON) : Except String MatricularRequest :=
  match body with
  | .error text => .error text
  | .ok json =>
    match decodeInt64 "usuario_id" json.usuario_id with
    | .error text => .error text
    | .ok usuarioID =>
      match decodeInt64 "trilha_id" json.trilha_id with
      | .error text => .error text
      | .ok trilhaID =>
        match validateID "UsuarioID" usuarioID ++ validateID "TrilhaID" trilhaID with
        | [] => .ok { UsuarioID := usuarioID, TrilhaID := trilhaID }
        | errs => .error ("\n".intercalate errs)

/-- The handler `MatricularUsuario`; `matriculaService` is the package variable
of that name. -/
def MatricularUsuario {σ : Type} (matriculaService : matriculaServiceImpl σ)
    (body : Except String MatricularJSON) (c : Context) (w : σ) : Context × σ :=
  match ShouldBindJSON body with
  | .error text =>
    (c.JSON 400 (.errorResponse
      { Message := "Dados de entrada inválidos.", Details := text }), w)
  | .ok req =>
    match matriculaService.Matricular req.UsuarioID req.TrilhaID w with
    | (.error err, w1) => (handleError c (some err), w1)
    | (.ok res, w1) => (c.JSON 201 (.matricula res), w1)

/-- The route `POST /api/v1/matriculas` as `main` registers it: the error
middleware around the handler, on the wired service. -/
def postMatriculas (body : Except String MatricularJSON) (w : World) : Context × World :=
  ErrorHandlerMiddleware (MatricularUsuario NewMatriculaService body) Context.new w

/-- What the error middleware makes of a service error: the handler has passed
`err` to `handleError` and written nothing, as every handler of the package does
with the error of its service call. -/
def serviceErrorResponse (err : GoError) : Context :=
  (ErrorHandlerMiddleware (fun c (w : Unit) => (handleError c (some err), w)) Context.new ()).1

/-! ## Binding rules of the track requests -/

/-- The tag `oneof=INICIANTE INTERMEDIARIO AVANCADO`. -/
def nivelOneOf (nivel : String) : Prop :=
  nivel = "INICIANTE" ∨ nivel = "INTERMEDIARIO" ∨ nivel = "AVANCADO"

/-- The `binding` tags of `model.CreateTrilhaRequest`: `Nome` required with 5 to
150 characters, `Nivel` required and one of the three levels, `CargaHoraria`
required and above 0, `FocoPrincipal` of at most 100 characters. -/
def CreateTrilhaRequest.valid (req : CreateTrilhaRequest) : Prop :=
  (req.Nome ≠ "" ∧ 5 ≤ req.Nome.length ∧ req.Nome.length ≤ 150) ∧
  (req.Nivel ≠ "" ∧ nivelOneOf req.Nivel) ∧
  (req.CargaHoraria ≠ 0 ∧ 0 < req.CargaHoraria) ∧
  req.FocoPrincipal.length ≤ 100

/-- The `binding` tags of `model.UpdateTrilhaRequest`: with `omitempty` a field
left at its zero value is not checked; otherwise `Nome` has 5 to 150
characters, `Nivel` is one of the three levels and `CargaHoraria` is above 0;
`FocoPrincipal` has at most 100 characters. -/
def UpdateTrilhaRequest.valid (req : UpdateTrilhaRequest) : Prop :=
  (req.Nome = "" ∨ (5 ≤ req.Nome.length ∧ req.Nome.length ≤ 150)) ∧
  (req.Nivel = "" ∨ nivelOneOf req.Nivel) ∧
  (req.CargaHoraria = 0 ∨ 0 < req.CargaHoraria) ∧
  req.FocoPrincipal.length ≤ 100

/-! ## Predicates on states -/

/-- The next `n` round trips to the database work. -/
def World.healthy (w : World) (n : Nat) : Prop :=
  ∀ i, i < n → w.faults (w.calls + i) = Fault.none

/-- A row with this id is stored in `usuarios`. -/
def World.hasUsuario (w : World) (id : Int) : Prop :=
  ∃ u ∈ w.usuarios, u.ID = id

/-- A row with this id is stored in `trilhas`. -/
def World.hasTrilha (w : World) (id : Int) : Prop :=
  ∃ t ∈ w.trilhas, t.ID = id

/-- Every stored track id has been handed out by the id sequence of `trilhas`. -/
def World.trilhaIDsIssued (w : World) : Prop :=
  ∀ t ∈ w.trilhas, t.ID ≤ (w.trilhasSeq : Int)

/-- Every stored user id has been handed out by the id sequence of `usuarios`. -/
def World.usuarioIDsIssued (w : World) : Prop :=
  ∀ u ∈ w.usuarios, u.ID ≤ (w.usuariosSeq : Int)

/-- No two stored users share an email. -/
def World.emailsUnique (w : World) : Prop :=
  (w.usuarios.map (fun u => u.Email)).Nodup

/-- The level of the track is one of the three levels and its workload is
above 0. -/
def Trilha.wellFormed (t : Trilha) : Prop :=
  nivelOneOf t.Nivel ∧ 0 < t.CargaHoraria

/-- Every stored track is well formed. -/
def World.trilhasWellFormed (w : World) : Prop :=
  ∀ t ∈ w.trilhas, t.wellFormed

/-! ## Sample states -/

/-- A database that never fails, with one user, one track and no enrollment;
the clock reads 100, 101, 102, .. -/
def sampleWorld : World where
  usuarios := [{ ID := 1, Nome := "Ana", Email := "ana@x.com", AreaAtuacao := "TI",
                 NivelCarreira := "Pleno", DataCadastro := 10 }]
  trilhas := [{ ID := 1, Nome := "Dados 101", Descricao := "", Nivel := "INICIANTE",
                CargaHoraria := 10, FocoPrincipal := "Dados" }]
  matriculas := []
  usuariosSeq := 1
  trilhasSeq := 1
  matriculasSeq := 0
  faults := fun _ => .none
  calls := 0
  clock := fun n => 100 + n
  ticks := 0

/-- The sample database when round trip number `k` fails with a driver error. -/
def faultyWorld (k : Nat) : World :=
  { sampleWorld with faults := fun n => if n = k then .stmt "pq: connection lost" else .none }

/-- The sample database with a second user and three enrollments, stored in
the order of their ids: user 1 at time 50, user 2 at time 60, user 1 at time 70. -/
def enrolledWorld : World :=
  { sampleWorld with
    usuarios := sampleWorld.usuarios ++
      [{ ID := 2, Nome := "Bruno", Email := "bruno@x.com", AreaAtuacao := "",
         NivelCarreira := "", DataCadastro := 20 }]
    usuariosSeq := 2
    matriculas :=
      [{ ID := 1, UsuarioID := 1, TrilhaID := 1, DataInscricao := 50, Status := "ATIVA" },
       { ID := 2, UsuarioID := 2, TrilhaID := 1, DataInscricao := 60, Status := "ATIVA" },
       { ID := 3, UsuarioID := 1, TrilhaID := 1, DataInscricao := 70, Status := "ATIVA" }]
    matriculasSeq := 3 }

/-! ## Enrollment workflow: failures -/

/-- C1: when the user lookup reports not-found, `Matricular` returns no
enrollment and fails with a `BusinessRuleError` (status 422) carrying the user
message, whatever the track id and whatever the track store would answer; the
error is not the store's `ResourceNotFoundError`. -/
theorem Matricular_usuario_not_found {σ : Type} (s : matriculaServiceImpl σ)
    (usuarioID trilhaID : Int) (w w1 : σ) (resource : String) (id : Int)
    (h : s.usuarioDAO.FindByID usuarioID w = (.error (.ResourceNotFoundError resource id), w1)) :
    ∃ e, s.Matricular usuarioID trilhaID w = (.error e, w1) ∧
      e = .BusinessRuleError ("Usuário com ID " ++ fmtD usuarioID ++ " não encontrado.") ∧
      e.StatusCode = some 422 ∧ e.isResourceNotFound = false := by
  refine ⟨_, ?_, rfl, rfl, rfl⟩
  simp [matriculaServiceImpl.Matricular, h, GoError.isResourceNotFound]

/-- Witness for C1 on the wired service: user 7 is not stored. -/
theorem Matricular_usuario_not_found_witness :
    ∃ e, NewMatriculaService.Matricular 7 9 sampleWorld
        = (.error e, { sampleWorld with calls := 1 }) ∧
      e = .BusinessRuleError ("Usuário com ID " ++ fmtD 7 ++ " não encontrado.") ∧
      e.StatusCode = some 422 ∧ e.isResourceNotFound = false :=
  Matricular_usuario_not_found NewMatriculaService 7 9 sampleWorld
    { sampleWorld with calls := 1 } "Usuário" 7 rfl

/-- The two messages of `Matricular` differ, whatever the ids: one starts with
`T`, the other with `U`. -/
theorem trilha_message_ne_usuario_message (a b : String) :
    "Trilha com ID " ++ a ++ " não encontrada." ≠ "Usuário com ID " ++ b ++ " não encontrado." := by
  intro h
  have h2 := congrArg (fun x => x.data.head?) h
  simp [String.data_append] at h2

/-- C2: when the user lookup succeeds and the track lookup reports not-found,
`Matricular` returns no enrollment and fails with a `BusinessRuleError` (status
422) whose message is the track message, which differs from the user message. -/
theorem Matricular_trilha_not_found {σ : Type} (s : matriculaServiceImpl σ)
    (usuarioID trilhaID : Int) (w w1 w2 : σ) (usuario : Usuario) (resource : String) (id : Int)
    (hu : s.usuarioDAO.FindByID usuarioID w = (.ok usuario, w1))
    (ht : s.trilhaDAO.FindByID trilhaID w1 = (.error (.ResourceNotFoundError resource id), w2)) :
    ∃ msg, s.Matricular usuarioID trilhaID w = (.error (.BusinessRuleError msg), w2) ∧
      msg = "Trilha com ID " ++ fmtD trilhaID ++ " não encontrada." ∧
      msg ≠ "Usuário com ID " ++ fmtD usuarioID ++ " não encontrado." ∧
      (GoError.BusinessRuleError msg).StatusCode = some 422 := by
  refine ⟨_, ?_, rfl, trilha_message_ne_usuario_message _ _, rfl⟩
  simp [matriculaServiceImpl.Matricular, hu, ht, GoError.isResourceNotFound]

/-- Witness for C2 on the wired service: user 1 is stored, track 9 is not. -/
theorem Matricular_trilha_not_found_witness :
    ∃ msg, NewMatriculaService.Matricular 1 9 sampleWorld
        = (.error (.BusinessRuleError msg), { sampleWorld with calls := 2 }) ∧
      msg = "Trilha com ID " ++ fmtD 9 ++ " não encontrada." ∧
      msg ≠ "Usuário com ID " ++ fmtD 1 ++ " não encontrado." ∧
      (GoError.BusinessRuleError msg).StatusCode = some 422 :=
  Matricular_trilha_not_found NewMatriculaService 1 9 sampleWorld
    { sampleWorld with calls := 1 } { sampleWorld with calls := 2 }
    { ID := 1, Nome := "Ana", Email := "ana@x.com", AreaAtuacao := "TI",
      NivelCarreira := "Pleno", DataCadastro := 10 } "Trilha" 9 rfl rfl

/-- C4: an error that is not a `ResourceNotFoundError`, returned by the user
lookup, by the track lookup or by the enrollment insert, is the error of
`Matricular`, as the very same value. -/
theorem Matricular_propagates_other_errors {σ : Type} (s : matriculaServiceImpl σ)
    (usuarioID trilhaID : Int) (w : σ) (e : GoError) (hne : e.isResourceNotFound = false) :
    (∀ w1, s.usuarioDAO.FindByID usuarioID w = (.error e, w1) →
        s.Matricular usuarioID trilhaID w = (.error e, w1)) ∧
    (∀ usuario w1 w2, s.usuarioDAO.FindByID usuarioID w = (.ok usuario, w1) →
        s.trilhaDAO.FindByID trilhaID w1 = (.error e, w2) →
        s.Matricular usuarioID trilhaID w = (.error e, w2)) ∧
    (∀ usuario trilha w1 w2 w3, s.usuarioDAO.FindByID usuarioID w = (.ok usuario, w1) →
        s.trilhaDAO.FindByID trilhaID w1 = (.ok trilha, w2) →
        s.matriculaDAO.Create
          { ID := 0, UsuarioID := usuarioID, TrilhaID := trilhaID, DataInscricao := 0,
            Status := "ATIVA" } w2 = (.error e, w3) →
        s.Matricular usuarioID trilhaID w = (.error e, w3)) := by
  refine ⟨?_, ?_, ?_⟩
  · intro w1 h
    simp [matriculaServiceImpl.Matricular, h, hne]
  · intro usuario w1 w2 hu ht
    simp [matriculaServiceImpl.Matricular, hu, ht, hne]
  · intro usuario trilha w1 w2 w3 hu ht hc
    simp [matriculaServiceImpl.Matricular, hu, ht, hc]

/-- Witness for C4 on the wired service: a driver failure on the first, the
second or the third round trip comes out of `Matricular` exactly as the
data-access layer built it. -/
theorem Matricular_propagates_other_errors_witness :
    (NewMatriculaService.Matricular 1 1 (faultyWorld 0)).1
        = .error (.wrapped "erro ao buscar usuário por ID" (.driver "pq: connection lost")) ∧
    (NewMatriculaService.Matricular 1 1 (faultyWorld 1)).1
        = .error (.wrapped "erro ao buscar trilha por ID" (.driver "pq: connection lost")) ∧
    (NewMatriculaService.Matricular 1 1 (faultyWorld 2)).1
        = .error (.wrapped "erro ao criar matrícula" (.driver "pq: connection lost")) :=
  ⟨congrArg Prod.fst
      ((Matricular_propagates_other_errors NewMatriculaService 1 1 (faultyWorld 0)
        (.wrapped "erro ao buscar usuário por ID" (.driver "pq: connection lost")) rfl).1
        { faultyWorld 0 with calls := 1 } rfl),
   congrArg Prod.fst
      ((Matricular_propagates_other_errors NewMatriculaService 1 1 (faultyWorld 1)
        (.wrapped "erro ao buscar trilha por ID" (.driver "pq: connection lost")) rfl).2.1
        { ID := 1, Nome := "Ana", Email := "ana@x.com", AreaAtuacao := "TI",
          NivelCarreira := "Pleno", DataCadastro := 10 }
        { faultyWorld 1 with calls := 1 } { faultyWorld 1 with calls := 2 } rfl rfl),
   congrArg Prod.fst
      ((Matricular_propagates_other_errors NewMatriculaService 1 1 (faultyWorld 2)
        (.wrapped "erro ao criar matrícula" (.driver "pq: connection lost")) rfl).2.2
        { ID := 1, Nome := "Ana", Email := "ana@x.com", AreaAtuacao := "TI",
          NivelCarreira := "Pleno", DataCadastro := 10 }
        { ID := 1, Nome := "Dados 101", Descricao := "", Nivel := "INICIANTE",
          CargaHoraria := 10, FocoPrincipal := "Dados" }
        { faultyWorld 2 with calls := 1 } { faultyWorld 2 with calls := 2 }
        { faultyWorld 2 with calls := 3, ticks := 1 } rfl rfl rfl)⟩

/-- C5: when the user lookup reports not-found, `GetMatriculasByUsuario`
returns no list and fails with a `BusinessRuleError` (status 422) carrying the
user message; the error is not the store's `ResourceNotFoundError` (404). -/
theorem GetMatriculasByUsuario_usuario_not_found {σ : Type} (s : matriculaServiceImpl σ)
    (usuarioID : Int) (w w1 : σ) (resource : String) (id : Int)
    (h : s.usuarioDAO.FindByID usuarioID w = (.error (.ResourceNotFoundError resource id), w1)) :
    ∃ e, s.GetMatriculasByUsuario usuarioID w = (.error e, w1) ∧
      e = .BusinessRuleError ("Usuário com ID " ++ fmtD usuarioID ++ " não encontrado.") ∧
      e.StatusCode = some 422 ∧ e.StatusCode ≠ some 404 ∧ e.isResourceNotFound = false := by
  refine ⟨_, ?_, rfl, rfl, by simp [GoError.StatusCode], rfl⟩
  simp [matriculaServiceImpl.GetMatriculasByUsuario, h, GoError.isResourceNotFound]

/-- Witness for C5 on the wired service: user 7 is not stored. -/
theorem GetMatriculasByUsuario_usuario_not_found_witness :
    ∃ e, NewMatriculaService.GetMatriculasByUsuario 7 sampleWorld
        = (.error e, { sampleWorld with calls := 1 }) ∧
      e = .BusinessRuleError ("Usuário com ID " ++ fmtD 7 ++ " não encontrado.") ∧
      e.StatusCode = some 422 ∧ e.StatusCode ≠ some 404 ∧ e.isResourceNotFound = false :=
  GetMatriculasByUsuario_usuario_not_found NewMatriculaService 7 sampleWorld
    { sampleWorld with calls := 1 } "Usuário" 7 rfl

/-! ## Enrollment workflow: the record written and returned -/

/-- What a successful `matriculaDAOImpl.Create` does: one clock reading, one
round trip, one new row at the end of `matriculas` that carries the next id of
the sequence, the clock reading and the status `"ATIVA"`; the record returned
is the record passed in with the id and timestamp of that row. -/
theorem matriculaDAO_Create_ok (m0 m : Matricula) (w w3 : World)
    (h : matriculaDAOImpl.Create m0 w = (.ok m, w3)) :
    m = { m0 with ID := (w.matriculasSeq : Int) + 1, DataInscricao := w.clock w.ticks } ∧
    w3 = { w with
      matriculas := w.matriculas ++
        [{ ID := (w.matriculasSeq : Int) + 1, UsuarioID := m0.UsuarioID,
           TrilhaID := m0.TrilhaID, DataInscricao := w.clock w.ticks, Status := "ATIVA" }]
      matriculasSeq := w.matriculasSeq + 1
      calls := w.calls + 1
      ticks := w.ticks + 1 } := by
  unfold matriculaDAOImpl.Create World.timeNow World.insertMatricula World.nextFault at h
  cases hf : w.faults w.calls <;> simp [hf] at h
  obtain ⟨h1, h2⟩ := h
  exact ⟨h1.symm, h2.symm⟩

/-- C3: with the user and the track found and the insert successful,
`Matricular` returns the record of the new row: `UsuarioID` and `TrilhaID` are
the arguments, `Status` is `"ATIVA"`, and `ID` and `DataInscricao` are those of
the row the store appended (the next id of the sequence and the timestamp the
store kept). -/
theorem Matricular_returns_stored_record (usuarioID trilhaID : Int) (w w1 w2 w3 : World)
    (usuario : Usuario) (trilha : Trilha) (m : Matricula)
    (hu : NewUsuarioDAO.FindByID usuarioID w = (.ok usuario, w1))
    (ht : NewTrilhaDAO.FindByID trilhaID w1 = (.ok trilha, w2))
    (hc : NewMatriculaDAO.Create
      { ID := 0, UsuarioID := usuarioID, TrilhaID := trilhaID, DataInscricao := 0,
        Status := "ATIVA" } w2 = (.ok m, w3)) :
    NewMatriculaService.Matricular usuarioID trilhaID w = (.ok m, w3) ∧
    m.UsuarioID = usuarioID ∧ m.TrilhaID = trilhaID ∧ m.Status = "ATIVA" ∧
    w3.matriculas = w2.matriculas ++ [m] ∧
    m.ID = (w2.matriculasSeq : Int) + 1 ∧ m.DataInscricao = w2.clock w2.ticks := by
  have hs : NewMatriculaService.Matricular usuarioID trilhaID w = (.ok m, w3) := by
    have hu2 : NewMatriculaService.usuarioDAO.FindByID usuarioID w = (.ok usuario, w1) := hu
    have ht2 : NewMatriculaService.trilhaDAO.FindByID trilhaID w1 = (.ok trilha, w2) := ht
    have hc2 : NewMatriculaService.matriculaDAO.Create
        { ID := 0, UsuarioID := usuarioID, TrilhaID := trilhaID, DataInscricao := 0,
          Status := "ATIVA" } w2 = (.ok m, w3) := hc
    simp [matriculaServiceImpl.Matricular, hu2, ht2, hc2]
  obtain ⟨hm, hw⟩ := matriculaDAO_Create_ok _ m w2 w3 hc
  subst hm hw
  exact ⟨hs, rfl, rfl, rfl, rfl, rfl, rfl⟩

/-- Witness for C3: user 1 enrolls in track 1 on the sample database. -/
theorem Matricular_returns_stored_record_witness :
    NewMatriculaService.Matricular 1 1 sampleWorld
      = (.ok { ID := 1, UsuarioID := 1, TrilhaID := 1, DataInscricao := 100, Status := "ATIVA" },
         { sampleWorld with
           matriculas := [{ ID := 1, UsuarioID := 1, TrilhaID := 1, DataInscricao := 100,
                            Status := "ATIVA" }]
           matriculasSeq := 1, calls := 3, ticks := 1 }) :=
  (Matricular_returns_stored_record 1 1 sampleWorld { sampleWorld with calls := 1 }
    { sampleWorld with calls := 2 }
    { sampleWorld with
      matriculas := [{ ID := 1, UsuarioID := 1, TrilhaID := 1, DataInscricao := 100,
                       Status := "ATIVA" }]
      matriculasSeq := 1, calls := 3, ticks := 1 }
    { ID := 1, Nome := "Ana", Email := "ana@x.com", AreaAtuacao := "TI",
      NivelCarreira := "Pleno", DataCadastro := 10 }
    { ID := 1, Nome := "Dados 101", Descricao := "", Nivel := "INICIANTE",
      CargaHoraria := 10, FocoPrincipal := "Dados" }
    { ID := 1, UsuarioID := 1, TrilhaID := 1, DataInscricao := 100, Status := "ATIVA" }
    rfl rfl rfl).1

/-! ## Facts about the data-access layer -/

theorem healthy_head (w : World) (n : Nat) (h : w.healthy (n + 1)) :
    w.faults w.calls = Fault.none := by
  simpa using h 0 (Nat.succ_pos n)

theorem healthy_tail (w w1 : World) (n : Nat) (h : w.healthy (n + 1))
    (hf : w1.faults = w.faults) (hc : w1.calls = w.calls + 1) : w1.healthy n := by
  intro i hi
  have := h (i + 1) (Nat.succ_lt_succ hi)
  rw [hf, hc]
  rw [← this]
  congr 1
  omega

theorem scanFirst_ok {α : Type} (l : List α) (a : α) (h : scanFirst l = .ok a) :
    l.head? = some a := by
  cases l with
  | nil => simp [scanFirst] at h
  | cons x xs =>
    simp only [scanFirst, Except.ok.injEq] at h
    simp [h]

theorem scanFirst_of_ne_nil {α : Type} (l : List α) (h : l ≠ []) :
    ∃ a, scanFirst l = .ok a ∧ l.head? = some a := by
  cases l with
  | nil => exact absurd rfl h
  | cons x xs => exact ⟨x, rfl, rfl⟩

/-- A successful single-row SELECT took one working round trip and returned the
first row of the result set. -/
theorem queryRow_ok {α : Type} (w w1 : World) (result : World → List α) (a : α)
    (h : w.queryRow result = (.ok a, w1)) :
    w1 = { w with calls := w.calls + 1 } ∧ (result w1).head? = some a := by
  unfold World.queryRow World.nextFault at h
  cases hf : w.faults w.calls <;> simp [hf] at h
  obtain ⟨h1, h2⟩ := h
  subst h2
  exact ⟨rfl, scanFirst_ok _ _ h1⟩

/-- On a working round trip a single-row SELECT is `scanFirst` of its result set. -/
theorem queryRow_healthy {α : Type} (w : World) (result : World → List α)
    (hf : w.faults w.calls = Fault.none) :
    w.queryRow result
      = (scanFirst (result { w with calls := w.calls + 1 }), { w with calls := w.calls + 1 }) := by
  simp [World.queryRow, World.nextFault, hf]

theorem scanRows_ok {α : Type} (t : String) (l acc : List α) :
    scanRows t (l.map .ok) acc = .ok (acc ++ l) := by
  induction l generalizing acc with
  | nil => simp [scanRows]
  | cons x xs ih => simp [scanRows, ih]

theorem scanRows_error {α : Type} (t : String) (l acc : List α) (e : GoError)
    (rest : List (Except GoError α)) :
    scanRows t (l.map .ok ++ .error e :: rest) acc = .error (.wrapped t e) := by
  induction l generalizing acc with
  | nil => simp [scanRows]
  | cons x xs ih => simp [scanRows, ih]

/-- A multi-row finder that returns a list returns the whole result set, in the
order of the result set, after one round trip. -/
theorem findRows_ok {α : Type} (w w1 : World) (result : World → List α)
    (t1 t2 t3 : String) (l : List α) (h : w.findRows result t1 t2 t3 = (.ok l, w1)) :
    w1 = { w with calls := w.calls + 1 } ∧ l = result w1 := by
  unfold World.findRows World.query World.nextFault at h
  cases hf : w.faults w.calls with
  | none =>
    simp [hf, collectRows, scanRows_ok] at h
    exact ⟨h.2.symm, by rw [← h.2]; exact h.1.symm⟩
  | stmt t => simp [hf] at h
  | affected t => simp [hf] at h
  | iter i t =>
    simp only [hf, collectRows, scanRows_ok] at h
    simp at h
  | scan i t =>
    by_cases hi : i < (result { w with calls := w.calls + 1 }).length
    · simp only [hf, hi, ↓reduceIte, collectRows, scanRows_error] at h
      simp at h
    · simp [hf, hi, collectRows, scanRows_ok] at h
      exact ⟨h.2.symm, by rw [← h.2]; exact h.1.symm⟩

/-- On a working round trip a multi-row finder returns the whole result set. -/
theorem findRows_healthy {α : Type} (w : World) (result : World → List α)
    (t1 t2 t3 : String) (hf : w.faults w.calls = Fault.none) :
    w.findRows result t1 t2 t3
      = (.ok (result { w with calls := w.calls + 1 }), { w with calls := w.calls + 1 }) := by
  simp [World.findRows, World.query, World.nextFault, hf, collectRows, scanRows_ok]

/-- A successful `usuarioDAOImpl.FindByID` took one round trip, changed nothing
else, and returned a stored row with the requested id. -/
theorem usuarioDAO_FindByID_ok (id : Int) (w w1 : World) (u : Usuario)
    (h : usuarioDAOImpl.FindByID id w = (.ok u, w1)) :
    w1 = { w with calls := w.calls + 1 } ∧ u ∈ w.usuarios ∧ u.ID = id := by
  unfold usuarioDAOImpl.FindByID at h
  cases hq : w.queryRow (World.selectUsuarioByID id) with
  | mk r w2 =>
    rw [hq] at h
    cases r with
    | error e =>
      simp only at h
      split at h <;> simp at h
    | ok a =>
      simp only [Prod.mk.injEq, Except.ok.injEq] at h
      obtain ⟨h1, h2⟩ := h
      subst h1 h2
      obtain ⟨hw, hh⟩ := queryRow_ok _ _ _ _ hq
      refine ⟨hw, ?_⟩
      have hm := List.mem_of_mem_head? hh
      simp only [World.selectUsuarioByID, List.mem_filter, beq_iff_eq] at hm
      subst hw
      exact hm

/-- On a working round trip `usuarioDAOImpl.FindByID` finds a stored user. -/
theorem usuarioDAO_FindByID_found (id : Int) (w : World) (hu : w.hasUsuario id)
    (hf : w.faults w.calls = Fault.none) :
    ∃ u, usuarioDAOImpl.FindByID id w = (.ok u, { w with calls := w.calls + 1 }) := by
  obtain ⟨u0, hmem, hid⟩ := hu
  have hne : World.selectUsuarioByID id { w with calls := w.calls + 1 } ≠ [] := by
    intro h0
    have : u0 ∈ World.selectUsuarioByID id { w with calls := w.calls + 1 } := by
      simp [World.selectUsuarioByID, List.mem_filter, hmem, hid]
    rw [h0] at this
    exact absurd this (List.not_mem_nil _)
  obtain ⟨a, ha, _⟩ := scanFirst_of_ne_nil _ hne
  exact ⟨a, by simp [usuarioDAOImpl.FindByID, queryRow_healthy _ _ hf, ha]⟩

/-- A successful `trilhaDAOImpl.FindByID` took one round trip, changed nothing
else, and returned a stored row with the requested id. -/
theorem trilhaDAO_FindByID_ok (id : Int) (w w1 : World) (t : Trilha)
    (h : trilhaDAOImpl.FindByID id w = (.ok t, w1)) :
    w1 = { w with calls := w.calls + 1 } ∧ t ∈ w.trilhas ∧ t.ID = id := by
  unfold trilhaDAOImpl.FindByID at h
  cases hq : w.queryRow (World.selectTrilhaByID id) with
  | mk r w2 =>
    rw [hq] at h
    cases r with
    | error e =>
      simp only at h
      split at h <;> simp at h
    | ok a =>
      simp only [Prod.mk.injEq, Except.ok.injEq] at h
      obtain ⟨h1, h2⟩ := h
      subst h1 h2
      obtain ⟨hw, hh⟩ := queryRow_ok _ _ _ _ hq
      refine ⟨hw, ?_⟩
      have hm := List.mem_of_mem_head? hh
      simp only [World.selectTrilhaByID, List.mem_filter, beq_iff_eq] at hm
      subst hw
      exact hm

/-- A list returned by `matriculaDAOImpl.FindByUsuarioID` is the result set of
its SELECT, delivered in one round trip. -/
theorem matriculaDAO_FindByUsuarioID_ok (usuarioID : Int) (w w1 : World)
    (l : List Matricula) (h : matriculaDAOImpl.FindByUsuarioID usuarioID w = (.ok l, w1)) :
    w1 = { w with calls := w.calls + 1 } ∧ l = w.selectMatriculasByUsuario usuarioID := by
  obtain ⟨h1, h2⟩ := findRows_ok w w1 _ _ _ _ l h
  subst h1
  exact ⟨rfl, h2⟩

/-- With a stored user and two working round trips, `GetMatriculasByUsuario`
returns the result set of the SELECT on `matriculas`. -/
theorem GetMatriculasByUsuario_healthy (usuarioID : Int) (w : World)
    (hu : w.hasUsuario usuarioID) (hh : w.healthy 2) :
    NewMatriculaService.GetMatriculasByUsuario usuarioID w
      = (.ok (w.selectMatriculasByUsuario usuarioID), { w with calls := w.calls + 2 }) := by
  obtain ⟨u, hfind⟩ := usuarioDAO_FindByID_found usuarioID w hu (healthy_head w 1 hh)
  have hfind2 : NewMatriculaService.usuarioDAO.FindByID usuarioID w
      = (.ok u, { w with calls := w.calls + 1 }) := hfind
  have h1 : ({ w with calls := w.calls + 1 } : World).healthy 1 :=
    healthy_tail w _ 1 hh rfl rfl
  have hq := findRows_healthy { w with calls := w.calls + 1 }
    (World.selectMatriculasByUsuario usuarioID) "erro ao buscar matrículas por usuário"
    "erro ao escanear linha de matrícula" "erro após iteração de linhas"
    (healthy_head _ 0 h1)
  have hq2 : NewMatriculaService.matriculaDAO.FindByUsuarioID usuarioID
      { w with calls := w.calls + 1 }
      = (.ok (w.selectMatriculasByUsuario usuarioID), { w with calls := w.calls + 2 }) := hq
  simp [matriculaServiceImpl.GetMatriculasByUsuario, hfind2, hq2]

/-- The rows of the SELECT behind `FindByUsuarioID` come newest first. -/
theorem selectMatriculasByUsuario_sorted (usuarioID : Int) (w : World) :
    (w.selectMatriculasByUsuario usuarioID).Sorted
      (fun a b => b.DataInscricao ≤ a.DataInscricao) :=
  @List.sorted_insertionSort Matricula (fun a b => b.DataInscricao ≤ a.DataInscricao) _
    ⟨fun a b => le_total b.DataInscricao a.DataInscricao⟩
    ⟨fun _ _ _ hab hbc => le_trans hbc hab⟩ _

/-- The rows of the SELECT behind `FindByUsuarioID` are the stored rows of the
user, each as often as it is stored. -/
theorem selectMatriculasByUsuario_perm (usuarioID : Int) (w : World) :
    (w.selectMatriculasByUsuario usuarioID).Perm
      (w.matriculas.filter (fun m => m.UsuarioID == usuarioID)) :=
  List.perm_insertionSort _ _

theorem mem_selectMatriculasByUsuario (usuarioID : Int) (w : World) (m : Matricula) :
    m ∈ w.selectMatriculasByUsuario usuarioID ↔ m ∈ w.matriculas ∧ m.UsuarioID = usuarioID := by
  rw [(selectMatriculasByUsuario_perm usuarioID w).mem_iff]
  simp [List.mem_filter]

/-- In a list sorted newest first, an entry with a later timestamp stands at a
smaller index. -/
theorem newest_first_index (l : List Matricula)
    (hs : l.Sorted (fun a b => b.DataInscricao ≤ a.DataInscricao)) (i j : Fin l.length)
    (hlt : (l.get i).DataInscricao < (l.get j).DataInscricao) : j < i := by
  by_contra hji
  rcases lt_or_eq_of_le (not_lt.mp hji) with hij | hij
  · have := hs.rel_get_of_lt hij
    exact absurd hlt (not_lt.mpr this)
  · subst hij
    exact lt_irrefl _ hlt

/-- A successful `Matricular` made its three calls in order, each with success. -/
theorem Matricular_ok (usuarioID trilhaID : Int) (w w3 : World) (m : Matricula)
    (h : NewMatriculaService.Matricular usuarioID trilhaID w = (.ok m, w3)) :
    ∃ usuario trilha,
      usuarioDAOImpl.FindByID usuarioID w = (.ok usuario, { w with calls := w.calls + 1 }) ∧
      trilhaDAOImpl.FindByID trilhaID { w with calls := w.calls + 1 }
        = (.ok trilha, { w with calls := w.calls + 2 }) ∧
      matriculaDAOImpl.Create
        { ID := 0, UsuarioID := usuarioID, TrilhaID := trilhaID, DataInscricao := 0,
          Status := "ATIVA" } { w with calls := w.calls + 2 } = (.ok m, w3) := by
  simp only [matriculaServiceImpl.Matricular, NewMatriculaService, NewUsuarioDAO, NewTrilhaDAO,
    NewMatriculaDAO] at h
  cases hu : usuarioDAOImpl.FindByID usuarioID w with
  | mk r1 w1 =>
    rw [hu] at h
    cases r1 with
    | error e =>
      simp only at h
      split at h <;> simp at h
    | ok usuario =>
      simp only at h
      obtain ⟨hw1, -, -⟩ := usuarioDAO_FindByID_ok _ _ _ _ hu
      subst hw1
      cases ht : trilhaDAOImpl.FindByID trilhaID { w with calls := w.calls + 1 } with
      | mk r2 w2 =>
        rw [ht] at h
        cases r2 with
        | error e =>
          simp only at h
          split at h <;> simp at h
        | ok trilha =>
          simp only at h
          obtain ⟨hw2, -, -⟩ := trilhaDAO_FindByID_ok _ _ _ _ ht
          subst hw2
          cases hc : matriculaDAOImpl.Create
              { ID := 0, UsuarioID := usuarioID, TrilhaID := trilhaID, DataInscricao := 0,
                Status := "ATIVA" } { w with calls := w.calls + 1 + 1 } with
          | mk r3 w4 =>
            rw [hc] at h
            cases r3 with
            | error e => simp at h
            | ok m2 =>
              simp only [Prod.mk.injEq, Except.ok.injEq] at h
              obtain ⟨h1, h2⟩ := h
              subst h1 h2
              exact ⟨usuario, trilha, rfl, rfl, rfl⟩

/-! ## Enrollment workflow: listing -/

/-- C6: for a stored user and a database that answers, `GetMatriculasByUsuario`
returns a list sorted by `DataInscricao` descending; an entry with a later
timestamp stands at a smaller index; and of two stored enrollments of the user
with timestamps t1 < t2, the one of t2 stands before the one of t1. -/
theorem GetMatriculasByUsuario_newest_first (usuarioID : Int) (w : World)
    (hu : w.hasUsuario usuarioID) (hh : w.healthy 2) :
    ∃ l w1, NewMatriculaService.GetMatriculasByUsuario usuarioID w = (.ok l, w1) ∧
      l.Sorted (fun a b => b.DataInscricao ≤ a.DataInscricao) ∧
      (∀ i j : Fin l.length, (l.get i).DataInscricao < (l.get j).DataInscricao → j < i) ∧
      (∀ a ∈ w.matriculas, ∀ b ∈ w.matriculas,
        a.UsuarioID = usuarioID → b.UsuarioID = usuarioID →
        a.DataInscricao < b.DataInscricao →
        ∃ i j : Fin l.length, i < j ∧ l.get i = b ∧ l.get j = a) := by
  refine ⟨_, _, GetMatriculasByUsuario_healthy usuarioID w hu hh,
    selectMatriculasByUsuario_sorted usuarioID w,
    newest_first_index _ (selectMatriculasByUsuario_sorted usuarioID w), ?_⟩
  intro a ha b hb hau hbu hlt
  obtain ⟨ia, hia⟩ := List.mem_iff_get.mp
    ((mem_selectMatriculasByUsuario usuarioID w a).mpr ⟨ha, hau⟩)
  obtain ⟨ib, hib⟩ := List.mem_iff_get.mp
    ((mem_selectMatriculasByUsuario usuarioID w b).mpr ⟨hb, hbu⟩)
  refine ⟨ib, ia, ?_, hib, hia⟩
  apply newest_first_index _ (selectMatriculasByUsuario_sorted usuarioID w)
  rw [hia, hib]
  exact hlt

/-- C7: for a stored user and a database that answers, `GetMatriculasByUsuario`
returns exactly the stored enrollments of that user: the list is a permutation
of the stored rows with that `UsuarioID` (so each appears as often as it is
stored and no row of another user appears), it is the empty list, not an error,
when the user has no enrollment, and the tables are left as they were. -/
theorem GetMatriculasByUsuario_exact (usuarioID : Int) (w : World)
    (hu : w.hasUsuario usuarioID) (hh : w.healthy 2) :
    ∃ l w1, NewMatriculaService.GetMatriculasByUsuario usuarioID w = (.ok l, w1) ∧
      l.Perm (w.matriculas.filter (fun m => m.UsuarioID == usuarioID)) ∧
      (∀ m, l.count m = if m.UsuarioID = usuarioID then w.matriculas.count m else 0) ∧
      (∀ m ∈ l, m.UsuarioID = usuarioID) ∧
      ((∀ m ∈ w.matriculas, m.UsuarioID ≠ usuarioID) → l = []) ∧
      w1.matriculas = w.matriculas ∧ w1.usuarios = w.usuarios ∧ w1.trilhas = w.trilhas := by
  refine ⟨_, _, GetMatriculasByUsuario_healthy usuarioID w hu hh,
    selectMatriculasByUsuario_perm usuarioID w, ?_, ?_, ?_, rfl, rfl, rfl⟩
  · intro m
    rw [(selectMatriculasByUsuario_perm usuarioID w).count_eq m]
    by_cases hm : m.UsuarioID = usuarioID
    · simp [hm, List.count_filter]
    · rw [if_neg hm]
      apply List.count_eq_zero_of_not_mem
      simp [List.mem_filter, hm]
  · intro m hm
    exact ((mem_selectMatriculasByUsuario usuarioID w m).mp hm).2
  · intro hnone
    apply List.eq_nil_iff_forall_not_mem.mpr
    intro m hm
    obtain ⟨h1, h2⟩ := (mem_selectMatriculasByUsuario usuarioID w m).mp hm
    exact hnone m h1 h2

/-- C8: after a successful `Matricular`, `GetMatriculasByUsuario` for the same
user on a database that answers returns a list that contains the record
`Matricular` returned; that record has status `"ATIVA"` and an id other than 0. -/
theorem Matricular_then_GetMatriculasByUsuario (usuarioID trilhaID : Int) (w w1 : World)
    (m : Matricula)
    (hm : NewMatriculaService.Matricular usuarioID trilhaID w = (.ok m, w1))
    (hh : w1.healthy 2) :
    ∃ l w2, NewMatriculaService.GetMatriculasByUsuario usuarioID w1 = (.ok l, w2) ∧
      m ∈ l ∧ m.Status = "ATIVA" ∧ m.ID ≠ 0 := by
  obtain ⟨usuario, trilha, hu, -, hc⟩ := Matricular_ok usuarioID trilhaID w w1 m hm
  obtain ⟨-, hmem, hid⟩ := usuarioDAO_FindByID_ok _ _ _ _ hu
  obtain ⟨hmr, hw⟩ := matriculaDAO_Create_ok _ _ _ _ hc
  have hu1 : w1.hasUsuario usuarioID := by
    subst hw
    exact ⟨usuario, hmem, hid⟩
  refine ⟨_, _, GetMatriculasByUsuario_healthy usuarioID w1 hu1 hh, ?_, ?_, ?_⟩
  · rw [mem_selectMatriculasByUsuario]
    subst hw hmr
    simp
  · subst hmr
    rfl
  · subst hmr
    show ((w.matriculasSeq : Int) + 1) ≠ 0
    omega

/-- Witness for C6: user 1 of `enrolledWorld` gets the enrollment of time 70
before the one of time 50. -/
theorem GetMatriculasByUsuario_newest_first_witness :
    (NewMatriculaService.GetMatriculasByUsuario 1 enrolledWorld).1
      = .ok [{ ID := 3, UsuarioID := 1, TrilhaID := 1, DataInscricao := 70, Status := "ATIVA" },
             { ID := 1, UsuarioID := 1, TrilhaID := 1, DataInscricao := 50, Status := "ATIVA" }] ∧
    ∃ l w1, NewMatriculaService.GetMatriculasByUsuario 1 enrolledWorld = (.ok l, w1) ∧
      l.Sorted (fun a b => b.DataInscricao ≤ a.DataInscricao) ∧
      (∀ i j : Fin l.length, (l.get i).DataInscricao < (l.get j).DataInscricao → j < i) ∧
      (∀ a ∈ enrolledWorld.matriculas, ∀ b ∈ enrolledWorld.matriculas,
        a.UsuarioID = 1 → b.UsuarioID = 1 → a.DataInscricao < b.DataInscricao →
        ∃ i j : Fin l.length, i < j ∧ l.get i = b ∧ l.get j = a) :=
  ⟨rfl, GetMatriculasByUsuario_newest_first 1 enrolledWorld
    ⟨{ ID := 1, Nome := "Ana", Email := "ana@x.com", AreaAtuacao := "TI",
       NivelCarreira := "Pleno", DataCadastro := 10 }, List.mem_cons_self _ _, rfl⟩
    (fun _ _ => rfl)⟩

/-- Witness for C7: user 2 of `enrolledWorld` has one enrollment. -/
theorem GetMatriculasByUsuario_exact_witness :
    (NewMatriculaService.GetMatriculasByUsuario 2 enrolledWorld).1
      = .ok [{ ID := 2, UsuarioID := 2, TrilhaID := 1, DataInscricao := 60, Status := "ATIVA" }] ∧
    ∃ l w1, NewMatriculaService.GetMatriculasByUsuario 2 enrolledWorld = (.ok l, w1) ∧
      l.Perm (enrolledWorld.matriculas.filter (fun m => m.UsuarioID == 2)) ∧
      (∀ m, l.count m = if m.UsuarioID = 2 then enrolledWorld.matriculas.count m else 0) ∧
      (∀ m ∈ l, m.UsuarioID = 2) ∧
      ((∀ m ∈ enrolledWorld.matriculas, m.UsuarioID ≠ 2) → l = []) ∧
      w1.matriculas = enrolledWorld.matriculas ∧ w1.usuarios = enrolledWorld.usuarios ∧
      w1.trilhas = enrolledWorld.trilhas :=
  ⟨rfl, GetMatriculasByUsuario_exact 2 enrolledWorld
    ⟨{ ID := 2, Nome := "Bruno", Email := "bruno@x.com", AreaAtuacao := "",
       NivelCarreira := "", DataCadastro := 20 },
      List.mem_cons_of_mem _ (List.mem_cons_self _ _), rfl⟩
    (fun _ _ => rfl)⟩

/-- Witness for C8: user 2 enrolls in track 1 on `enrolledWorld` and lists. -/
theorem Matricular_then_GetMatriculasByUsuario_witness :
    ∃ l w2, NewMatriculaService.GetMatriculasByUsuario 2
        (NewMatriculaService.Matricular 2 1 enrolledWorld).2 = (.ok l, w2) ∧
      ({ ID := 4, UsuarioID := 2, TrilhaID := 1, DataInscricao := 100, Status := "ATIVA" }
        : Matricula) ∈ l ∧
      ({ ID := 4, UsuarioID := 2, TrilhaID := 1, DataInscricao := 100, Status := "ATIVA" }
        : Matricula).Status = "ATIVA" ∧
      ({ ID := 4, UsuarioID := 2, TrilhaID := 1, DataInscricao := 100, Status := "ATIVA" }
        : Matricula).ID ≠ 0 :=
  Matricular_then_GetMatriculasByUsuario 2 1 enrolledWorld
    (NewMatriculaService.Matricular 2 1 enrolledWorld).2
    { ID := 4, UsuarioID := 2, TrilhaID := 1, DataInscricao := 100, Status := "ATIVA" }
    rfl (fun _ _ => rfl)

/-! ## User service: duplicate email -/

/-- On a working round trip `usuarioDAOImpl.FindByEmail` reports a stored user
when one holds the email. -/
theorem usuarioDAO_FindByEmail_found (email : String) (w : World)
    (hdup : ∃ u ∈ w.usuarios, u.Email = email) (hf : w.faults w.calls = Fault.none) :
    ∃ u, usuarioDAOImpl.FindByEmail email w = (.ok (some u), { w with calls := w.calls + 1 }) := by
  obtain ⟨u0, hmem, hid⟩ := hdup
  have hne : World.selectUsuarioByEmail email { w with calls := w.calls + 1 } ≠ [] := by
    intro h0
    have : u0 ∈ World.selectUsuarioByEmail email { w with calls := w.calls + 1 } := by
      simp [World.selectUsuarioByEmail, List.mem_filter, hmem, hid]
    rw [h0] at this
    exact absurd this (List.not_mem_nil _)
  obtain ⟨a, ha, _⟩ := scanFirst_of_ne_nil _ hne
  exact ⟨a, by simp [usuarioDAOImpl.FindByEmail, queryRow_healthy _ _ hf, ha]⟩

/-- C9: when a stored user holds the email of the request and the lookup round
trip works, `Create` of the user service fails with a `ConflictError` (status
409).  This holds whatever `Create` function and clock the service is wired
with, so neither is invoked; the state afterwards is the state before with one
more round trip counted: same users, same id sequence, same clock position. -/
theorem UsuarioService_Create_duplicate_email (s : usuarioServiceImpl World)
    (hs : s.dao.FindByEmail = usuarioDAOImpl.FindByEmail) (req : CreateUsuarioRequest)
    (w : World) (hdup : ∃ u ∈ w.usuarios, u.Email = req.Email) (hh : w.healthy 1) :
    ∃ e w1, s.Create req w = (.error e, w1) ∧
      e = .ConflictError ("O email \x27" ++ req.Email ++ "\x27 já está cadastrado.") ∧
      e.StatusCode = some 409 ∧
      w1 = { w with calls := w.calls + 1 } ∧
      w1.usuarios = w.usuarios ∧ w1.usuariosSeq = w.usuariosSeq ∧ w1.ticks = w.ticks := by
  obtain ⟨u, hfind⟩ := usuarioDAO_FindByEmail_found req.Email w hdup (healthy_head w 0 hh)
  refine ⟨_, _, ?_, rfl, rfl, rfl, rfl, rfl, rfl⟩
  simp [usuarioServiceImpl.Create, hs, hfind]

/-- Witness for C9: a second request with the email of the stored user. -/
theorem UsuarioService_Create_duplicate_email_witness :
    ∃ e w1, NewUsuarioService.Create
        { Nome := "Ana Maria", Email := "ana@x.com", AreaAtuacao := "", NivelCarreira := "" }
        sampleWorld = (.error e, w1) ∧
      e = .ConflictError ("O email \x27" ++ "ana@x.com" ++ "\x27 já está cadastrado.") ∧
      e.StatusCode = some 409 ∧
      w1 = { sampleWorld with calls := sampleWorld.calls + 1 } ∧
      w1.usuarios = sampleWorld.usuarios ∧ w1.usuariosSeq = sampleWorld.usuariosSeq ∧
      w1.ticks = sampleWorld.ticks :=
  UsuarioService_Create_duplicate_email NewUsuarioService rfl
    { Nome := "Ana Maria", Email := "ana@x.com", AreaAtuacao := "", NivelCarreira := "" }
    sampleWorld
    ⟨{ ID := 1, Nome := "Ana", Email := "ana@x.com", AreaAtuacao := "TI",
       NivelCarreira := "Pleno", DataCadastro := 10 }, List.mem_cons_self _ _, rfl⟩
    (fun _ _ => rfl)

/-! ## Track service: create, then fetch -/

/-- On a working round trip `trilhaDAOImpl.Create` appends one row that carries
the next id of the sequence and the fields of the record, and returns the
record with that id. -/
theorem trilhaDAO_Create_healthy (t0 : Trilha) (w : World)
    (hf : w.faults w.calls = Fault.none) :
    trilhaDAOImpl.Create t0 w
      = (.ok { t0 with ID := (w.trilhasSeq : Int) + 1 },
         { w with
           trilhas := w.trilhas ++ [{ t0 with ID := (w.trilhasSeq : Int) + 1 }]
           trilhasSeq := w.trilhasSeq + 1
           calls := w.calls + 1 }) := by
  simp [trilhaDAOImpl.Create, World.insertTrilha, World.nextFault, hf]

/-- The insert of `trilhaDAOImpl.Create` keeps every stored id issued. -/
theorem trilhaDAO_Create_issued (t0 : Trilha) (w : World) (hw : w.trilhaIDsIssued) :
    (trilhaDAOImpl.Create t0 w).2.trilhaIDsIssued := by
  unfold trilhaDAOImpl.Create World.insertTrilha World.nextFault
  cases hf : w.faults w.calls <;> simp only [hf] <;> intro t ht
  · simp only [List.mem_append, List.mem_singleton] at ht
    rcases ht with ht | ht
    · have := hw t ht
      simp only [Nat.cast_add, Nat.cast_one]
      omega
    · subst ht
      simp
  all_goals exact hw t ht

/-- Among rows whose ids are at most `n`, followed by one row of id `n + 1`,
the SELECT by id `n + 1` yields that row alone. -/
theorem filter_fresh_id (l : List Trilha) (n : Int) (row : Trilha) (hl : ∀ t ∈ l, t.ID ≤ n)
    (hrow : row.ID = n + 1) :
    (l ++ [row]).filter (fun t => t.ID == n + 1) = [row] := by
  rw [List.filter_append]
  have h1 : l.filter (fun t => t.ID == n + 1) = [] := by
    apply List.filter_eq_nil_iff.mpr
    intro t ht
    have := hl t ht
    simp only [beq_iff_eq]
    omega
  rw [h1]
  simp [hrow]

/-- C10: in a state whose stored track ids were all issued by the sequence, and
with the insert and the fetch round trips working, `Create` of the track service
returns a representation whose five data fields are those of the request and
whose id is the one the store assigned to the new row, and `FindByID` on that
id, run next, returns the same representation. -/
theorem TrilhaService_Create_then_FindByID (req : CreateTrilhaRequest) (w : World)
    (hw : w.trilhaIDsIssued) (hh : w.healthy 2) :
    ∃ resp w1 w2, NewTrilhaService.Create req w = (.ok resp, w1) ∧
      resp.Nome = req.Nome ∧ resp.Descricao = req.Descricao ∧ resp.Nivel = req.Nivel ∧
      resp.CargaHoraria = req.CargaHoraria ∧ resp.FocoPrincipal = req.FocoPrincipal ∧
      resp.ID = (w.trilhasSeq : Int) + 1 ∧
      w1.trilhas = w.trilhas ++
        [{ ID := resp.ID, Nome := req.Nome, Descricao := req.Descricao, Nivel := req.Nivel,
           CargaHoraria := req.CargaHoraria, FocoPrincipal := req.FocoPrincipal }] ∧
      NewTrilhaService.FindByID resp.ID w1 = (.ok resp, w2) := by
  have hc := trilhaDAO_Create_healthy
    { ID := 0, Nome := req.Nome, Descricao := req.Descricao, Nivel := req.Nivel,
      CargaHoraria := req.CargaHoraria, FocoPrincipal := req.FocoPrincipal } w
    (healthy_head w 1 hh)
  have hcreate : NewTrilhaService.Create req w
      = (.ok { ID := (w.trilhasSeq : Int) + 1, Nome := req.Nome, Descricao := req.Descricao,
               Nivel := req.Nivel, CargaHoraria := req.CargaHoraria,
               FocoPrincipal := req.FocoPrincipal },
         { w with
           trilhas := w.trilhas ++
             [{ ID := (w.trilhasSeq : Int) + 1, Nome := req.Nome, Descricao := req.Descricao,
                Nivel := req.Nivel, CargaHoraria := req.CargaHoraria,
                FocoPrincipal := req.FocoPrincipal }]
           trilhasSeq := w.trilhasSeq + 1
           calls := w.calls + 1 }) := by
    simp only [trilhaServiceImpl.Create, NewTrilhaService, NewTrilhaDAO, hc, Trilha.toResponse]
  refine ⟨_, _, { w with
      trilhas := w.trilhas ++
        [{ ID := (w.trilhasSeq : Int) + 1, Nome := req.Nome, Descricao := req.Descricao,
           Nivel := req.Nivel, CargaHoraria := req.CargaHoraria,
           FocoPrincipal := req.FocoPrincipal }]
      trilhasSeq := w.trilhasSeq + 1
      calls := w.calls + 2 }, hcreate, rfl, rfl, rfl, rfl, rfl, rfl, rfl, ?_⟩
  have h1 := healthy_tail w
    { w with
      trilhas := w.trilhas ++
        [{ ID := (w.trilhasSeq : Int) + 1, Nome := req.Nome, Descricao := req.Descricao,
           Nivel := req.Nivel, CargaHoraria := req.CargaHoraria,
           FocoPrincipal := req.FocoPrincipal }]
      trilhasSeq := w.trilhasSeq + 1
      calls := w.calls + 1 } 1 hh rfl rfl
  have hq := queryRow_healthy _ (World.selectTrilhaByID ((w.trilhasSeq : Int) + 1))
    (healthy_head _ 0 h1)
  have hsel := filter_fresh_id w.trilhas (w.trilhasSeq : Int)
    { ID := (w.trilhasSeq : Int) + 1, Nome := req.Nome, Descricao := req.Descricao,
      Nivel := req.Nivel, CargaHoraria := req.CargaHoraria,
      FocoPrincipal := req.FocoPrincipal } hw rfl
  simp only [trilhaServiceImpl.FindByID, NewTrilhaService, NewTrilhaDAO, trilhaDAOImpl.FindByID,
    Trilha.toResponse]
  rw [hq]
  simp only [World.selectTrilhaByID, hsel, scanFirst]

/-- Witness for C10: a second track is created on the sample database and
fetched by its id, 2. -/
theorem TrilhaService_Create_then_FindByID_witness :
    (NewTrilhaService.Create
      { Nome := "Python", Descricao := "Bases", Nivel := "AVANCADO", CargaHoraria := 60,
        FocoPrincipal := "Dados" } sampleWorld).1
      = .ok { ID := 2, Nome := "Python", Descricao := "Bases", Nivel := "AVANCADO",
              CargaHoraria := 60, FocoPrincipal := "Dados" } ∧
    ∃ resp w1 w2, NewTrilhaService.Create
        { Nome := "Python", Descricao := "Bases", Nivel := "AVANCADO", CargaHoraria := 60,
          FocoPrincipal := "Dados" } sampleWorld = (.ok resp, w1) ∧
      resp.Nome = "Python" ∧ resp.Descricao = "Bases" ∧ resp.Nivel = "AVANCADO" ∧
      resp.CargaHoraria = 60 ∧ resp.FocoPrincipal = "Dados" ∧
      resp.ID = (sampleWorld.trilhasSeq : Int) + 1 ∧
      w1.trilhas = sampleWorld.trilhas ++
        [{ ID := resp.ID, Nome := "Python", Descricao := "Bases", Nivel := "AVANCADO",
           CargaHoraria := 60, FocoPrincipal := "Dados" }] ∧
      NewTrilhaService.FindByID resp.ID w1 = (.ok resp, w2) :=
  ⟨rfl, TrilhaService_Create_then_FindByID
    { Nome := "Python", Descricao := "Bases", Nivel := "AVANCADO", CargaHoraria := 60,
      FocoPrincipal := "Dados" } sampleWorld
    (by intro t ht
        simp only [sampleWorld, List.mem_singleton] at ht
        subst ht
        decide)
    (fun _ _ => rfl)⟩

/-! ## More facts about the data-access layer -/

theorem healthy_at (w : World) (n i : Nat) (h : w.healthy n) (hi : i < n) :
    w.faults (w.calls + i) = Fault.none :=
  h i hi

theorem healthy_shift (w w1 : World) (k n : Nat) (h : w.healthy (k + n))
    (hf : w1.faults = w.faults) (hc : w1.calls = w.calls + k) : w1.healthy n := by
  intro i hi
  have := h (k + i) (by omega)
  rw [hf, hc, ← this]
  congr 1
  omega

/-- On a working round trip `usuarioDAOImpl.FindByID` returns the first stored
row with the id. -/
theorem usuarioDAO_FindByID_first (id : Int) (w : World) (u : Usuario) (rest : List Usuario)
    (hsel : w.usuarios.filter (fun x => x.ID == id) = u :: rest)
    (hf : w.faults w.calls = Fault.none) :
    usuarioDAOImpl.FindByID id w = (.ok u, { w with calls := w.calls + 1 }) := by
  simp [usuarioDAOImpl.FindByID, queryRow_healthy _ _ hf, World.selectUsuarioByID, hsel, scanFirst]

/-- On a working round trip `usuarioDAOImpl.FindByID` reports not-found, with
the entity name and the id, when no stored row has the id. -/
theorem usuarioDAO_FindByID_absent (id : Int) (w : World) (hno : ¬ w.hasUsuario id)
    (hf : w.faults w.calls = Fault.none) :
    usuarioDAOImpl.FindByID id w
      = (.error (.ResourceNotFoundError "Usuário" id), { w with calls := w.calls + 1 }) := by
  have hsel : w.usuarios.filter (fun x => x.ID == id) = [] := by
    apply List.filter_eq_nil_iff.mpr
    intro u hu hid
    exact hno ⟨u, hu, by simpa using hid⟩
  simp [usuarioDAOImpl.FindByID, queryRow_healthy _ _ hf, World.selectUsuarioByID, hsel, scanFirst]

/-- On a working round trip `trilhaDAOImpl.FindByID` returns the first stored
row with the id. -/
theorem trilhaDAO_FindByID_first (id : Int) (w : World) (t : Trilha) (rest : List Trilha)
    (hsel : w.trilhas.filter (fun x => x.ID == id) = t :: rest)
    (hf : w.faults w.calls = Fault.none) :
    trilhaDAOImpl.FindByID id w = (.ok t, { w with calls := w.calls + 1 }) := by
  simp [trilhaDAOImpl.FindByID, queryRow_healthy _ _ hf, World.selectTrilhaByID, hsel, scanFirst]

/-- On a working round trip `trilhaDAOImpl.FindByID` reports not-found, with the
entity name and the id, when no stored row has the id. -/
theorem trilhaDAO_FindByID_absent (id : Int) (w : World) (hno : ¬ w.hasTrilha id)
    (hf : w.faults w.calls = Fault.none) :
    trilhaDAOImpl.FindByID id w
      = (.error (.ResourceNotFoundError "Trilha" id), { w with calls := w.calls + 1 }) := by
  have hsel : w.trilhas.filter (fun x => x.ID == id) = [] := by
    apply List.filter_eq_nil_iff.mpr
    intro t ht hid
    exact hno ⟨t, ht, by simpa using hid⟩
  simp [trilhaDAOImpl.FindByID, queryRow_healthy _ _ hf, World.selectTrilhaByID, hsel, scanFirst]

/-- A stored row with the id makes the SELECT by id non-empty; its first row is
stored and has the id. -/
theorem usuario_filter_of_has (id : Int) (w : World) (hu : w.hasUsuario id) :
    ∃ u rest, w.usuarios.filter (fun x => x.ID == id) = u :: rest ∧ u ∈ w.usuarios ∧ u.ID = id := by
  obtain ⟨u0, hmem, hid⟩ := hu
  cases hsel : w.usuarios.filter (fun x => x.ID == id) with
  | nil =>
    have : u0 ∈ w.usuarios.filter (fun x => x.ID == id) := by
      simp [List.mem_filter, hmem, hid]
    rw [hsel] at this
    exact absurd this (List.not_mem_nil _)
  | cons u rest =>
    have : u ∈ w.usuarios.filter (fun x => x.ID == id) := by
      rw [hsel]
      exact List.mem_cons_self _ _
    simp only [List.mem_filter, beq_iff_eq] at this
    exact ⟨u, rest, rfl, this.1, this.2⟩

/-- A stored row with the id makes the SELECT by id non-empty; its first row is
stored and has the id. -/
theorem trilha_filter_of_has (id : Int) (w : World) (ht : w.hasTrilha id) :
    ∃ t rest, w.trilhas.filter (fun x => x.ID == id) = t :: rest ∧ t ∈ w.trilhas ∧ t.ID = id := by
  obtain ⟨t0, hmem, hid⟩ := ht
  cases hsel : w.trilhas.filter (fun x => x.ID == id) with
  | nil =>
    have : t0 ∈ w.trilhas.filter (fun x => x.ID == id) := by
      simp [List.mem_filter, hmem, hid]
    rw [hsel] at this
    exact absurd this (List.not_mem_nil _)
  | cons t rest =>
    have : t ∈ w.trilhas.filter (fun x => x.ID == id) := by
      rw [hsel]
      exact List.mem_cons_self _ _
    simp only [List.mem_filter, beq_iff_eq] at this
    exact ⟨t, rest, rfl, this.1, this.2⟩

/-- On a working round trip `usuarioDAOImpl.FindByEmail` reports absence, not an
error, when no stored user holds the email. -/
theorem usuarioDAO_FindByEmail_absent (email : String) (w : World)
    (hnew : ∀ u ∈ w.usuarios, u.Email ≠ email) (hf : w.faults w.calls = Fault.none) :
    usuarioDAOImpl.FindByEmail email w = (.ok Option.none, { w with calls := w.calls + 1 }) := by
  have hsel : w.usuarios.filter (fun x => x.Email == email) = [] := by
    apply List.filter_eq_nil_iff.mpr
    intro u hu hid
    exact hnew u hu (by simpa using hid)
  simp [usuarioDAOImpl.FindByEmail, queryRow_healthy _ _ hf, World.selectUsuarioByEmail, hsel,
    scanFirst]

/-- Among rows whose ids are at most `n`, followed by one row of id `n + 1`,
the SELECT by id `n + 1` yields that row alone. -/
theorem usuario_filter_fresh_id (l : List Usuario) (n : Int) (row : Usuario)
    (hl : ∀ u ∈ l, u.ID ≤ n) (hrow : row.ID = n + 1) :
    (l ++ [row]).filter (fun u => u.ID == n + 1) = [row] := by
  rw [List.filter_append]
  have h1 : l.filter (fun u => u.ID == n + 1) = [] := by
    apply List.filter_eq_nil_iff.mpr
    intro u hu
    have := hl u hu
    simp only [beq_iff_eq]
    omega
  rw [h1]
  simp [hrow]

/-! ## User service: create, then fetch -/

/-- C11: in a state whose stored user ids were all issued by the sequence and
in which no stored user holds the email of the request, with the lookup, the
insert and the fetch round trips working, `Create` of the user service returns
a representation whose `Nome`, `Email`, `AreaAtuacao` and `NivelCarreira` are
those of the request and whose `ID` and `DataCadastro` are those of the row the
store appended (the next id of the sequence, the timestamp the store kept);
`FindByID` on that id, run next, returns the same representation. -/
theorem UsuarioService_Create_then_FindByID (req : CreateUsuarioRequest) (w : World)
    (hw : w.usuarioIDsIssued) (hnew : ∀ u ∈ w.usuarios, u.Email ≠ req.Email)
    (hh : w.healthy 3) :
    ∃ resp w1 w2, NewUsuarioService.Create req w = (.ok resp, w1) ∧
      resp.Nome = req.Nome ∧ resp.Email = req.Email ∧ resp.AreaAtuacao = req.AreaAtuacao ∧
      resp.NivelCarreira = req.NivelCarreira ∧
      resp.ID = (w.usuariosSeq : Int) + 1 ∧ resp.DataCadastro = w.clock (w.ticks + 1) ∧
      w1.usuarios = w.usuarios ++
        [{ ID := resp.ID, Nome := req.Nome, Email := req.Email, AreaAtuacao := req.AreaAtuacao,
           NivelCarreira := req.NivelCarreira, DataCadastro := resp.DataCadastro }] ∧
      NewUsuarioService.FindByID resp.ID w1 = (.ok resp, w2) := by
  have hf0 : w.faults w.calls = Fault.none := by simpa using healthy_at w 3 0 hh (by omega)
  have hf1 := healthy_at w 3 1 hh (by omega)
  have hf2 := healthy_at w 3 2 hh (by omega)
  have hemail := usuarioDAO_FindByEmail_absent req.Email w hnew hf0
  have hany : (w.usuarios.any (fun u => u.Email == req.Email)) = false := by
    rw [List.any_eq_false]
    intro u hu
    simpa using hnew u hu
  have hcreate : NewUsuarioService.Create req w
      = (.ok { ID := (w.usuariosSeq : Int) + 1, Nome := req.Nome, Email := req.Email,
               AreaAtuacao := req.AreaAtuacao, NivelCarreira := req.NivelCarreira,
               DataCadastro := w.clock (w.ticks + 1) },
         { w with
           usuarios := w.usuarios ++
             [{ ID := (w.usuariosSeq : Int) + 1, Nome := req.Nome, Email := req.Email,
                AreaAtuacao := req.AreaAtuacao, NivelCarreira := req.NivelCarreira,
                DataCadastro := w.clock (w.ticks + 1) }]
           usuariosSeq := w.usuariosSeq + 1
           calls := w.calls + 2
           ticks := w.ticks + 2 }) := by
    simp [usuarioServiceImpl.Create, NewUsuarioService, NewUsuarioDAO, hemail, World.timeNow,
      usuarioDAOImpl.Create, World.insertUsuario, World.nextFault, hf1, hany, Usuario.toResponse]
  refine ⟨_, _, { w with
      usuarios := w.usuarios ++
        [{ ID := (w.usuariosSeq : Int) + 1, Nome := req.Nome, Email := req.Email,
           AreaAtuacao := req.AreaAtuacao, NivelCarreira := req.NivelCarreira,
           DataCadastro := w.clock (w.ticks + 1) }]
      usuariosSeq := w.usuariosSeq + 1
      calls := w.calls + 3
      ticks := w.ticks + 2 }, hcreate, rfl, rfl, rfl, rfl, rfl, rfl, rfl, ?_⟩
  have hsel := usuario_filter_fresh_id w.usuarios (w.usuariosSeq : Int)
    { ID := (w.usuariosSeq : Int) + 1, Nome := req.Nome, Email := req.Email,
      AreaAtuacao := req.AreaAtuacao, NivelCarreira := req.NivelCarreira,
      DataCadastro := w.clock (w.ticks + 1) } hw rfl
  have hfind := usuarioDAO_FindByID_first ((w.usuariosSeq : Int) + 1)
    { w with
      usuarios := w.usuarios ++
        [{ ID := (w.usuariosSeq : Int) + 1, Nome := req.Nome, Email := req.Email,
           AreaAtuacao := req.AreaAtuacao, NivelCarreira := req.NivelCarreira,
           DataCadastro := w.clock (w.ticks + 1) }]
      usuariosSeq := w.usuariosSeq + 1
      calls := w.calls + 2
      ticks := w.ticks + 2 } _ [] hsel hf2
  simp only [usuarioServiceImpl.FindByID, NewUsuarioService, NewUsuarioDAO, hfind,
    Usuario.toResponse]

/-- Witness for C11: a second user is created on the sample database and
fetched by the id, 2; the timestamp is the second clock reading of the call. -/
theorem UsuarioService_Create_then_FindByID_witness :
    (NewUsuarioService.Create
      { Nome := "Bia", Email := "bia@x.com", AreaAtuacao := "RH", NivelCarreira := "Junior" }
      sampleWorld).1
      = .ok { ID := 2, Nome := "Bia", Email := "bia@x.com", AreaAtuacao := "RH",
              NivelCarreira := "Junior", DataCadastro := 101 } ∧
    ∃ resp w1 w2, NewUsuarioService.Create
        { Nome := "Bia", Email := "bia@x.com", AreaAtuacao := "RH", NivelCarreira := "Junior" }
        sampleWorld = (.ok resp, w1) ∧
      resp.Nome = "Bia" ∧ resp.Email = "bia@x.com" ∧ resp.AreaAtuacao = "RH" ∧
      resp.NivelCarreira = "Junior" ∧
      resp.ID = (sampleWorld.usuariosSeq : Int) + 1 ∧
      resp.DataCadastro = sampleWorld.clock (sampleWorld.ticks + 1) ∧
      w1.usuarios = sampleWorld.usuarios ++
        [{ ID := resp.ID, Nome := "Bia", Email := "bia@x.com", AreaAtuacao := "RH",
           NivelCarreira := "Junior", DataCadastro := resp.DataCadastro }] ∧
      NewUsuarioService.FindByID resp.ID w1 = (.ok resp, w2) :=
  ⟨rfl, UsuarioService_Create_then_FindByID
    { Nome := "Bia", Email := "bia@x.com", AreaAtuacao := "RH", NivelCarreira := "Junior" }
    sampleWorld
    (by intro u hu
        simp only [sampleWorld, List.mem_singleton] at hu
        subst hu
        decide)
    (by intro u hu
        simp only [sampleWorld, List.mem_singleton] at hu
        subst hu
        decide)
    (fun _ _ => rfl)⟩

/-! ## Fetch, update and delete of an id that is not stored -/

theorem usuario_countP_absent (id : Int) (w : World) (hno : ¬ w.hasUsuario id) :
    w.usuarios.countP (fun u => u.ID == id) = 0 := by
  rw [List.countP_eq_zero]
  intro u hu hid
  exact hno ⟨u, hu, by simpa using hid⟩

theorem trilha_countP_absent (id : Int) (w : World) (hno : ¬ w.hasTrilha id) :
    w.trilhas.countP (fun t => t.ID == id) = 0 := by
  rw [List.countP_eq_zero]
  intro t ht hid
  exact hno ⟨t, ht, by simpa using hid⟩

/-- On a working round trip `usuarioDAOImpl.Delete` of an id that is not stored
reports not-found and leaves the state as it was. -/
theorem usuarioDAO_Delete_absent (id : Int) (w : World) (hno : ¬ w.hasUsuario id)
    (hf : w.faults w.calls = Fault.none) :
    usuarioDAOImpl.Delete id w
      = (some (.ResourceNotFoundError "Usuário" id), { w with calls := w.calls + 1 }) := by
  have hfl : w.usuarios.filter (fun u => !(u.ID == id)) = w.usuarios := by
    rw [List.filter_eq_self]
    intro u hu
    have : u.ID ≠ id := fun hid => hno ⟨u, hu, hid⟩
    simpa using this
  simp [usuarioDAOImpl.Delete, World.exec, World.nextFault, hf, World.deleteUsuario,
    usuario_countP_absent id w hno, hfl, execOutcome]

/-- On a working round trip `trilhaDAOImpl.Delete` of an id that is not stored
reports not-found and leaves the state as it was. -/
theorem trilhaDAO_Delete_absent (id : Int) (w : World) (hno : ¬ w.hasTrilha id)
    (hf : w.faults w.calls = Fault.none) :
    trilhaDAOImpl.Delete id w
      = (some (.ResourceNotFoundError "Trilha" id), { w with calls := w.calls + 1 }) := by
  have hfl : w.trilhas.filter (fun t => !(t.ID == id)) = w.trilhas := by
    rw [List.filter_eq_self]
    intro t ht
    have : t.ID ≠ id := fun hid => hno ⟨t, ht, hid⟩
    simpa using this
  simp [trilhaDAOImpl.Delete, World.exec, World.nextFault, hf, World.deleteTrilha,
    trilha_countP_absent id w hno, hfl, execOutcome]

/-- On a working round trip `usuarioDAOImpl.Update` of a record whose id is not
stored reports not-found and leaves the state as it was. -/
theorem usuarioDAO_Update_absent (usuario : Usuario) (w : World)
    (hno : ¬ w.hasUsuario usuario.ID) (hf : w.faults w.calls = Fault.none) :
    usuarioDAOImpl.Update usuario w
      = (some (.ResourceNotFoundError "Usuário" usuario.ID), { w with calls := w.calls + 1 }) := by
  have hmap : w.usuarios.map (fun u =>
      if u.ID = usuario.ID then
        { u with Nome := usuario.Nome, AreaAtuacao := usuario.AreaAtuacao,
                 NivelCarreira := usuario.NivelCarreira }
      else u) = w.usuarios := by
    conv_rhs => rw [← List.map_id w.usuarios]
    apply List.map_congr_left
    intro u hu
    have : u.ID ≠ usuario.ID := fun hid => hno ⟨u, hu, hid⟩
    simp [this]
  simp [usuarioDAOImpl.Update, World.exec, World.nextFault, hf, World.updateUsuario,
    usuario_countP_absent usuario.ID w hno, hmap, execOutcome]

/-- On a working round trip `trilhaDAOImpl.Update` of a record whose id is not
stored reports not-found and leaves the state as it was. -/
theorem trilhaDAO_Update_absent (trilha : Trilha) (w : World)
    (hno : ¬ w.hasTrilha trilha.ID) (hf : w.faults w.calls = Fault.none) :
    trilhaDAOImpl.Update trilha w
      = (some (.ResourceNotFoundError "Trilha" trilha.ID), { w with calls := w.calls + 1 }) := by
  have hmap : w.trilhas.map (fun t =>
      if t.ID = trilha.ID then
        { t with Nome := trilha.Nome, Descricao := trilha.Descricao, Nivel := trilha.Nivel,
                 CargaHoraria := trilha.CargaHoraria, FocoPrincipal := trilha.FocoPrincipal }
      else t) = w.trilhas := by
    conv_rhs => rw [← List.map_id w.trilhas]
    apply List.map_congr_left
    intro t ht
    have : t.ID ≠ trilha.ID := fun hid => hno ⟨t, ht, hid⟩
    simp [this]
  simp [trilhaDAOImpl.Update, World.exec, World.nextFault, hf, World.updateTrilha,
    trilha_countP_absent trilha.ID w hno, hmap, execOutcome]

/-- C12: on a database that answers, for an id with no stored user (resp. no
stored track), `FindByID`, `Update` with any request and `Delete` of the user
(resp. track) service, and `Update` of the data-access layer with any record of
that id, each fail with a `ResourceNotFoundError` whose `Resource` is
`"Usuário"` (resp. `"Trilha"`) and whose `ID` is the requested id; the state
afterwards is the state before with one round trip counted, so every table and
sequence is unchanged. -/
theorem not_found_for_absent_id (id : Int) (w : World) (hh : w.healthy 1) :
    (¬ w.hasUsuario id →
      NewUsuarioService.FindByID id w
        = (.error (.ResourceNotFoundError "Usuário" id), { w with calls := w.calls + 1 }) ∧
      (∀ req, NewUsuarioService.Update id req w
        = (.error (.ResourceNotFoundError "Usuário" id), { w with calls := w.calls + 1 })) ∧
      NewUsuarioService.Delete id w
        = (some (.ResourceNotFoundError "Usuário" id), { w with calls := w.calls + 1 }) ∧
      (∀ usuario : Usuario, usuario.ID = id → NewUsuarioDAO.Update usuario w
        = (some (.ResourceNotFoundError "Usuário" id), { w with calls := w.calls + 1 }))) ∧
    (¬ w.hasTrilha id →
      NewTrilhaService.FindByID id w
        = (.error (.ResourceNotFoundError "Trilha" id), { w with calls := w.calls + 1 }) ∧
      (∀ req, NewTrilhaService.Update id req w
        = (.error (.ResourceNotFoundError "Trilha" id), { w with calls := w.calls + 1 })) ∧
      NewTrilhaService.Delete id w
        = (some (.ResourceNotFoundError "Trilha" id), { w with calls := w.calls + 1 }) ∧
      (∀ trilha : Trilha, trilha.ID = id → NewTrilhaDAO.Update trilha w
        = (some (.ResourceNotFoundError "Trilha" id), { w with calls := w.calls + 1 }))) := by
  have hf : w.faults w.calls = Fault.none := healthy_head w 0 hh
  constructor
  · intro hno
    have hfind := usuarioDAO_FindByID_absent id w hno hf
    refine ⟨?_, ?_, ?_, ?_⟩
    · simp only [usuarioServiceImpl.FindByID, NewUsuarioService, NewUsuarioDAO, hfind]
    · intro req
      simp only [usuarioServiceImpl.Update, NewUsuarioService, NewUsuarioDAO, hfind]
    · exact usuarioDAO_Delete_absent id w hno hf
    · intro usuario hid
      subst hid
      exact usuarioDAO_Update_absent usuario w hno hf
  · intro hno
    have hfind := trilhaDAO_FindByID_absent id w hno hf
    refine ⟨?_, ?_, ?_, ?_⟩
    · simp only [trilhaServiceImpl.FindByID, NewTrilhaService, NewTrilhaDAO, hfind]
    · intro req
      simp only [trilhaServiceImpl.Update, NewTrilhaService, NewTrilhaDAO, hfind]
    · exact trilhaDAO_Delete_absent id w hno hf
    · intro trilha hid
      subst hid
      exact trilhaDAO_Update_absent trilha w hno hf

/-- Witness for C12: id 7 is stored neither as a user nor as a track of the
sample database. -/
theorem not_found_for_absent_id_witness :
    (NewUsuarioService.FindByID 7 sampleWorld).1 = .error (.ResourceNotFoundError "Usuário" 7) ∧
    (NewUsuarioService.Update 7 { Nome := "Ana B", AreaAtuacao := "", NivelCarreira := "" }
      sampleWorld).1 = .error (.ResourceNotFoundError "Usuário" 7) ∧
    (NewUsuarioService.Delete 7 sampleWorld).1 = some (.ResourceNotFoundError "Usuário" 7) ∧
    (NewUsuarioService.Delete 7 sampleWorld).2.usuarios = sampleWorld.usuarios ∧
    (NewTrilhaService.FindByID 7 sampleWorld).1 = .error (.ResourceNotFoundError "Trilha" 7) ∧
    (NewTrilhaService.Update 7
      { Nome := "", Descricao := "", Nivel := "", CargaHoraria := 100, FocoPrincipal := "" }
      sampleWorld).1 = .error (.ResourceNotFoundError "Trilha" 7) ∧
    (NewTrilhaService.Delete 7 sampleWorld).1 = some (.ResourceNotFoundError "Trilha" 7) ∧
    (NewTrilhaService.Delete 7 sampleWorld).2.trilhas = sampleWorld.trilhas :=
  have h := not_found_for_absent_id 7 sampleWorld (fun _ _ => rfl)
  have hu : ¬ sampleWorld.hasUsuario 7 := by
    rintro ⟨u, hu, hid⟩
    simp only [sampleWorld, List.mem_singleton] at hu
    subst hu
    exact absurd hid (by decide)
  have ht : ¬ sampleWorld.hasTrilha 7 := by
    rintro ⟨t, ht, hid⟩
    simp only [sampleWorld, List.mem_singleton] at ht
    subst ht
    exact absurd hid (by decide)
  ⟨congrArg Prod.fst (h.1 hu).1, congrArg Prod.fst ((h.1 hu).2.1 _),
   congrArg Prod.fst (h.1 hu).2.2.1, congrArg (fun x => x.2.usuarios) (h.1 hu).2.2.1,
   congrArg Prod.fst (h.2 ht).1, congrArg Prod.fst ((h.2 ht).2.1 _),
   congrArg Prod.fst (h.2 ht).2.2.1, congrArg (fun x => x.2.trilhas) (h.2 ht).2.2.1⟩

/-! ## Update of a stored record -/

/-- The method `trilhaServiceImpl.Update` is: fetch, apply the request, store. -/
theorem trilhaService_Update_eq {σ : Type} (s : trilhaServiceImpl σ) (id : Int)
    (req : UpdateTrilhaRequest) (w : σ) :
    s.Update id req w
      = (match s.dao.FindByID id w with
         | (.error err, w1) => (.error err, w1)
         | (.ok trilha, w1) =>
           match s.dao.Update (req.applyTo trilha) w1 with
           | (some err, w2) => (.error err, w2)
           | (Option.none, w2) => (.ok (req.applyTo trilha).toResponse, w2)) :=
  rfl

/-- The method `usuarioServiceImpl.Update` is: fetch, apply the request, store. -/
theorem usuarioService_Update_eq {σ : Type} (s : usuarioServiceImpl σ) (id : Int)
    (req : UpdateUsuarioRequest) (w : σ) :
    s.Update id req w
      = (match s.dao.FindByID id w with
         | (.error err, w1) => (.error err, w1)
         | (.ok usuario, w1) =>
           match s.dao.Update (req.applyTo usuario) w1 with
           | (some err, w2) => (.error err, w2)
           | (Option.none, w2) => (.ok (req.applyTo usuario).toResponse, w2)) :=
  rfl

/-- Field by field, what applying a track update request yields. -/
theorem trilha_applyTo_fields (req : UpdateTrilhaRequest) (t : Trilha) :
    req.applyTo t
      = { ID := t.ID,
          Nome := if req.Nome ≠ "" then req.Nome else t.Nome,
          Descricao := if req.Descricao ≠ "" then req.Descricao else t.Descricao,
          Nivel := if req.Nivel ≠ "" then req.Nivel else t.Nivel,
          CargaHoraria := if req.CargaHoraria ≠ 0 then req.CargaHoraria else t.CargaHoraria,
          FocoPrincipal :=
            if req.FocoPrincipal ≠ "" then req.FocoPrincipal else t.FocoPrincipal } := by
  unfold UpdateTrilhaRequest.applyTo
  by_cases h1 : req.Nome = "" <;> by_cases h2 : req.Descricao = "" <;>
    by_cases h3 : req.Nivel = "" <;> by_cases h4 : req.CargaHoraria = 0 <;>
    by_cases h5 : req.FocoPrincipal = "" <;> simp [h1, h2, h3, h4, h5]

/-- Field by field, what applying a user update request yields. -/
theorem usuario_applyTo_fields (req : UpdateUsuarioRequest) (u : Usuario) :
    req.applyTo u
      = { ID := u.ID,
          Nome := if req.Nome ≠ "" then req.Nome else u.Nome,
          Email := u.Email,
          AreaAtuacao := if req.AreaAtuacao ≠ "" then req.AreaAtuacao else u.AreaAtuacao,
          NivelCarreira :=
            if req.NivelCarreira ≠ "" then req.NivelCarreira else u.NivelCarreira,
          DataCadastro := u.DataCadastro } := by
  unfold UpdateUsuarioRequest.applyTo
  by_cases h1 : req.Nome = "" <;> by_cases h2 : req.AreaAtuacao = "" <;>
    by_cases h3 : req.NivelCarreira = "" <;> simp [h1, h2, h3]

/-- On a working round trip `trilhaDAOImpl.Update` of a record whose id is
stored succeeds and replaces every row of that id by the record. -/
theorem trilhaDAO_Update_present (r : Trilha) (w : World) (hhas : w.hasTrilha r.ID)
    (hf : w.faults w.calls = Fault.none) :
    trilhaDAOImpl.Update r w
      = (Option.none,
         { w with
           trilhas := w.trilhas.map (fun t => if t.ID = r.ID then r else t)
           calls := w.calls + 1 }) := by
  have hc : w.trilhas.countP (fun t => t.ID == r.ID) ≠ 0 := by
    obtain ⟨t, ht, hid⟩ := hhas
    exact Nat.pos_iff_ne_zero.mp (List.countP_pos_iff.mpr ⟨t, ht, by simpa using hid⟩)
  have hmap : w.trilhas.map (fun t =>
      if t.ID = r.ID then
        { t with Nome := r.Nome, Descricao := r.Descricao, Nivel := r.Nivel,
                 CargaHoraria := r.CargaHoraria, FocoPrincipal := r.FocoPrincipal }
      else t) = w.trilhas.map (fun t => if t.ID = r.ID then r else t) := by
    apply List.map_congr_left
    intro t _
    by_cases hid : t.ID = r.ID
    · simp only [hid, if_true]
    · simp only [hid, if_false]
  simp [trilhaDAOImpl.Update, World.exec, World.nextFault, hf, World.updateTrilha, hc, hmap,
    execOutcome]

/-- On a working round trip `usuarioDAOImpl.Update` of a record whose id is
stored succeeds and writes `Nome`, `AreaAtuacao` and `NivelCarreira` of the
record into every row of that id; no other column is written. -/
theorem usuarioDAO_Update_present (r : Usuario) (w : World) (hhas : w.hasUsuario r.ID)
    (hf : w.faults w.calls = Fault.none) :
    usuarioDAOImpl.Update r w
      = (Option.none,
         { w with
           usuarios := w.usuarios.map (fun u =>
             if u.ID = r.ID then
               { u with Nome := r.Nome, AreaAtuacao := r.AreaAtuacao,
                        NivelCarreira := r.NivelCarreira }
             else u)
           calls := w.calls + 1 }) := by
  have hc : w.usuarios.countP (fun u => u.ID == r.ID) ≠ 0 := by
    obtain ⟨u, hu, hid⟩ := hhas
    exact Nat.pos_iff_ne_zero.mp (List.countP_pos_iff.mpr ⟨u, hu, by simpa using hid⟩)
  simp [usuarioDAOImpl.Update, World.exec, World.nextFault, hf, World.updateUsuario, hc,
    execOutcome]

/-- C13: for a stored track and a database that answers, `Update` of the track
service succeeds; with `old` the stored record the service fetched, the
representation returned has the id unchanged and, for each of `Nome`,
`Descricao`, `Nivel`, `CargaHoraria` and `FocoPrincipal`, the value of the
request when that value is not empty (not 0 for the workload) and the value of
`old` otherwise; the rows of that id now hold exactly these values and nothing
else is changed; a request that carries only a workload of 100 returns `old`
with the workload replaced by 100. -/
theorem TrilhaService_Update_overlay (id : Int) (req : UpdateTrilhaRequest) (w : World)
    (ht : w.hasTrilha id) (hh : w.healthy 2) :
    ∃ old resp w1, old ∈ w.trilhas ∧ old.ID = id ∧
      (NewTrilhaService.FindByID id w).1 = .ok old.toResponse ∧
      NewTrilhaService.Update id req w = (.ok resp, w1) ∧
      resp.ID = id ∧
      resp.Nome = (if req.Nome ≠ "" then req.Nome else old.Nome) ∧
      resp.Descricao = (if req.Descricao ≠ "" then req.Descricao else old.Descricao) ∧
      resp.Nivel = (if req.Nivel ≠ "" then req.Nivel else old.Nivel) ∧
      resp.CargaHoraria
        = (if req.CargaHoraria ≠ 0 then req.CargaHoraria else old.CargaHoraria) ∧
      resp.FocoPrincipal
        = (if req.FocoPrincipal ≠ "" then req.FocoPrincipal else old.FocoPrincipal) ∧
      w1.trilhas = w.trilhas.map (fun t =>
        if t.ID = id then
          { ID := id, Nome := resp.Nome, Descricao := resp.Descricao, Nivel := resp.Nivel,
            CargaHoraria := resp.CargaHoraria, FocoPrincipal := resp.FocoPrincipal }
        else t) ∧
      w1.usuarios = w.usuarios ∧ w1.matriculas = w.matriculas ∧
      (req.Nome = "" → req.Descricao = "" → req.Nivel = "" → req.FocoPrincipal = "" →
        req.CargaHoraria = 100 → resp = { old.toResponse with CargaHoraria := 100 }) := by
  obtain ⟨old, rest, hsel, hmem, hid⟩ := trilha_filter_of_has id w ht
  have hf0 : w.faults w.calls = Fault.none := by simpa using healthy_at w 2 0 hh (by omega)
  have hf1 := healthy_at w 2 1 hh (by omega)
  have hfind := trilhaDAO_FindByID_first id w old rest hsel hf0
  have hhas : ({ w with calls := w.calls + 1 } : World).hasTrilha (req.applyTo old).ID := by
    rw [trilha_applyTo_fields]
    exact ⟨old, hmem, rfl⟩
  have hupd := trilhaDAO_Update_present (req.applyTo old) { w with calls := w.calls + 1 } hhas hf1
  have hrun : NewTrilhaService.Update id req w
      = (.ok (req.applyTo old).toResponse,
         { w with
           trilhas := w.trilhas.map (fun t =>
             if t.ID = (req.applyTo old).ID then req.applyTo old else t)
           calls := w.calls + 1 + 1 }) := by
    rw [trilhaService_Update_eq]
    simp only [NewTrilhaService, NewTrilhaDAO, hfind, hupd]
  refine ⟨old, _, _, hmem, hid, ?_, hrun, ?_, ?_, ?_, ?_, ?_, ?_, ?_, rfl, rfl, ?_⟩
  · simp only [trilhaServiceImpl.FindByID, NewTrilhaService, NewTrilhaDAO, hfind]
  · rw [trilha_applyTo_fields]
    exact hid
  · rw [trilha_applyTo_fields]
    rfl
  · rw [trilha_applyTo_fields]
    rfl
  · rw [trilha_applyTo_fields]
    rfl
  · rw [trilha_applyTo_fields]
    rfl
  · rw [trilha_applyTo_fields]
    rfl
  · rw [trilha_applyTo_fields]
    simp only [Trilha.toResponse, hid]
  · intro h1 h2 h3 h5 h4
    rw [trilha_applyTo_fields]
    simp [Trilha.toResponse, h1, h2, h3, h4, h5]

/-- Witness for C13: the track of the sample database gets a workload of 100. -/
theorem TrilhaService_Update_overlay_witness :
    (NewTrilhaService.Update 1
      { Nome := "", Descricao := "", Nivel := "", CargaHoraria := 100, FocoPrincipal := "" }
      sampleWorld).1
      = .ok { ID := 1, Nome := "Dados 101", Descricao := "", Nivel := "INICIANTE",
              CargaHoraria := 100, FocoPrincipal := "Dados" } ∧
    (NewTrilhaService.Update 1
      { Nome := "", Descricao := "", Nivel := "", CargaHoraria := 100, FocoPrincipal := "" }
      sampleWorld).2.trilhas
      = [{ ID := 1, Nome := "Dados 101", Descricao := "", Nivel := "INICIANTE",
           CargaHoraria := 100, FocoPrincipal := "Dados" }] ∧
    ∃ old resp w1, old ∈ sampleWorld.trilhas ∧ old.ID = 1 ∧
      (NewTrilhaService.FindByID 1 sampleWorld).1 = .ok old.toResponse ∧
      NewTrilhaService.Update 1
        { Nome := "", Descricao := "", Nivel := "", CargaHoraria := 100, FocoPrincipal := "" }
        sampleWorld = (.ok resp, w1) ∧
      resp.ID = 1 ∧ resp.Nome = old.Nome ∧ resp.Descricao = old.Descricao ∧
      resp.Nivel = old.Nivel ∧ resp.CargaHoraria = 100 ∧
      resp.FocoPrincipal = old.FocoPrincipal :=
  have h := TrilhaService_Update_overlay 1
    { Nome := "", Descricao := "", Nivel := "", CargaHoraria := 100, FocoPrincipal := "" }
    sampleWorld ⟨_, List.mem_cons_self _ _, rfl⟩ (fun _ _ => rfl)
  ⟨rfl, rfl, by
    obtain ⟨old, resp, w1, h1, h2, h3, h4, h5, h6, h7, h8, h9, h10, -⟩ := h
    exact ⟨old, resp, w1, h1, h2, h3, h4, h5, by simpa using h6, by simpa using h7,
      by simpa using h8, by simpa using h9, by simpa using h10⟩⟩

/-- C14: for a stored user and a database that answers, `Update` of the user
service succeeds; with `old` the stored record the service fetched, the
representation returned has, for each of `Nome`, `AreaAtuacao` and
`NivelCarreira`, the value of the request when that value is not the empty
string and the value of `old` otherwise, while `ID`, `Email` and `DataCadastro`
are those of `old`; in the table every row of that id gets the three values
written and keeps its id, email and registration time, and no other row or
table changes. -/
theorem UsuarioService_Update_overlay (id : Int) (req : UpdateUsuarioRequest) (w : World)
    (hu : w.hasUsuario id) (hh : w.healthy 2) :
    ∃ old resp w1, old ∈ w.usuarios ∧ old.ID = id ∧
      (NewUsuarioService.FindByID id w).1 = .ok old.toResponse ∧
      NewUsuarioService.Update id req w = (.ok resp, w1) ∧
      resp.ID = id ∧ resp.Email = old.Email ∧ resp.DataCadastro = old.DataCadastro ∧
      resp.Nome = (if req.Nome ≠ "" then req.Nome else old.Nome) ∧
      resp.AreaAtuacao = (if req.AreaAtuacao ≠ "" then req.AreaAtuacao else old.AreaAtuacao) ∧
      resp.NivelCarreira
        = (if req.NivelCarreira ≠ "" then req.NivelCarreira else old.NivelCarreira) ∧
      w1.usuarios = w.usuarios.map (fun u =>
        if u.ID = id then
          { ID := u.ID, Nome := resp.Nome, Email := u.Email, AreaAtuacao := resp.AreaAtuacao,
            NivelCarreira := resp.NivelCarreira, DataCadastro := u.DataCadastro }
        else u) ∧
      w1.usuarios.map (fun u => (u.ID, u.Email, u.DataCadastro))
        = w.usuarios.map (fun u => (u.ID, u.Email, u.DataCadastro)) ∧
      w1.trilhas = w.trilhas ∧ w1.matriculas = w.matriculas := by
  obtain ⟨old, rest, hsel, hmem, hid⟩ := usuario_filter_of_has id w hu
  have hf0 : w.faults w.calls = Fault.none := by simpa using healthy_at w 2 0 hh (by omega)
  have hf1 := healthy_at w 2 1 hh (by omega)
  have hfind := usuarioDAO_FindByID_first id w old rest hsel hf0
  have hhas : ({ w with calls := w.calls + 1 } : World).hasUsuario (req.applyTo old).ID := by
    rw [usuario_applyTo_fields]
    exact ⟨old, hmem, rfl⟩
  have hupd := usuarioDAO_Update_present (req.applyTo old) { w with calls := w.calls + 1 }
    hhas hf1
  have hrun : NewUsuarioService.Update id req w
      = (.ok (req.applyTo old).toResponse,
         { w with
           usuarios := w.usuarios.map (fun u =>
             if u.ID = (req.applyTo old).ID then
               { u with Nome := (req.applyTo old).Nome,
                        AreaAtuacao := (req.applyTo old).AreaAtuacao,
                        NivelCarreira := (req.applyTo old).NivelCarreira }
             else u)
           calls := w.calls + 1 + 1 }) := by
    rw [usuarioService_Update_eq]
    simp only [NewUsuarioService, NewUsuarioDAO, hfind, hupd]
  refine ⟨old, _, _, hmem, hid, ?_, hrun, ?_, ?_, ?_, ?_, ?_, ?_, ?_, ?_, rfl, rfl⟩
  · simp only [usuarioServiceImpl.FindByID, NewUsuarioService, NewUsuarioDAO, hfind]
  · rw [usuario_applyTo_fields]
    exact hid
  · rw [usuario_applyTo_fields]
    rfl
  · rw [usuario_applyTo_fields]
    rfl
  · rw [usuario_applyTo_fields]
    rfl
  · rw [usuario_applyTo_fields]
    rfl
  · rw [usuario_applyTo_fields]
    rfl
  · rw [usuario_applyTo_fields]
    simp only [Usuario.toResponse, hid]
  · simp only [List.map_map]
    apply List.map_congr_left
    intro u _
    by_cases h : u.ID = (req.applyTo old).ID <;> simp [h]

/-- Witness for C14: the user of the sample database gets a new career level;
name, area, email, id and registration time stay. -/
theorem UsuarioService_Update_overlay_witness :
    (NewUsuarioService.Update 1 { Nome := "", AreaAtuacao := "", NivelCarreira := "Senior" }
      sampleWorld).1
      = .ok { ID := 1, Nome := "Ana", Email := "ana@x.com", AreaAtuacao := "TI",
              NivelCarreira := "Senior", DataCadastro := 10 } ∧
    (NewUsuarioService.Update 1 { Nome := "", AreaAtuacao := "", NivelCarreira := "Senior" }
      sampleWorld).2.usuarios
      = [{ ID := 1, Nome := "Ana", Email := "ana@x.com", AreaAtuacao := "TI",
           NivelCarreira := "Senior", DataCadastro := 10 }] ∧
    ∃ old resp w1, old ∈ sampleWorld.usuarios ∧ old.ID = 1 ∧
      NewUsuarioService.Update 1 { Nome := "", AreaAtuacao := "", NivelCarreira := "Senior" }
        sampleWorld = (.ok resp, w1) ∧
      resp.ID = 1 ∧ resp.Email = old.Email ∧ resp.DataCadastro = old.DataCadastro ∧
      resp.Nome = old.Nome ∧ resp.AreaAtuacao = old.AreaAtuacao ∧
      resp.NivelCarreira = "Senior" :=
  have h := UsuarioService_Update_overlay 1
    { Nome := "", AreaAtuacao := "", NivelCarreira := "Senior" }
    sampleWorld ⟨_, List.mem_cons_self _ _, rfl⟩ (fun _ _ => rfl)
  ⟨rfl, rfl, by
    obtain ⟨old, resp, w1, h1, h2, -, h4, h5, h6, h7, h8, h9, h10, -⟩ := h
    exact ⟨old, resp, w1, h1, h2, h4, h5, h6, h7, by simpa using h8, by simpa using h9,
      by simpa using h10⟩⟩

/-! ## Typed errors and the error middleware -/

/-- C15: `StatusCode()` is 404 for every `ResourceNotFoundError`, 409 for every
`ConflictError` and 422 for every `BusinessRuleError`, whatever the fields. -/
theorem typed_errors_status_codes :
    (∀ resource id, (GoError.ResourceNotFoundError resource id).StatusCode = some 404) ∧
    (∀ msg, (GoError.ConflictError msg).StatusCode = some 409) ∧
    (∀ msg, (GoError.BusinessRuleError msg).StatusCode = some 422) :=
  ⟨fun _ _ => rfl, fun _ => rfl, fun _ => rfl⟩

/-- An error value that has a status code has a message: both belong to the
three typed errors. -/
theorem message_of_status_code (err : GoError) (code : Int) (hc : err.StatusCode = some code) :
    ∃ message, err.Message = some message := by
  cases err <;> simp [GoError.StatusCode, GoError.Message] at hc ⊢

/-- An error value without a status code has no message either. -/
theorem message_none_of_status_code_none (err : GoError) (hc : err.StatusCode = Option.none) :
    err.Message = Option.none := by
  cases err <;> simp [GoError.StatusCode, GoError.Message] at hc ⊢

/-- The binding of `POST /matriculas` accepts a body whose two ids are positive
and in the range of `int64`. -/
theorem ShouldBindJSON_positive (u t : Int) (hu : 0 < u) (ht : 0 < t)
    (hu2 : u < (2 : Int) ^ 63) (ht2 : t < (2 : Int) ^ 63) :
    ShouldBindJSON (.ok { usuario_id := some u, trilha_id := some t })
      = .ok { UsuarioID := u, TrilhaID := t } := by
  have h1 : -(2 : Int) ^ 63 ≤ u ∧ u < (2 : Int) ^ 63 := ⟨by omega, hu2⟩
  have h2 : -(2 : Int) ^ 63 ≤ t ∧ t < (2 : Int) ^ 63 := ⟨by omega, ht2⟩
  have h3 : u ≠ 0 := by omega
  have h4 : t ≠ 0 := by omega
  simp only [ShouldBindJSON, decodeInt64, validateID, if_pos h1, if_pos h2, if_neg h3, if_neg h4,
    if_neg (not_not.mpr hu), if_neg (not_not.mpr ht), List.append_nil]

/-- C16: when the first error the chain recorded has a status code (it
implements `CustomError`), the middleware writes that status code with the body
`{message, details}`, message being `Message()` and details `Error()` of that
error; with nothing written before, that is the status of the response.  On the
route `POST /matriculas`, a body with positive ids naming a user that is not
stored, or a stored user and a track that is not stored, is answered with 422
and the message of the business-rule error. -/
theorem ErrorHandlerMiddleware_custom_error :
    (∀ (σ : Type) (next : Context → σ → Context × σ) (c c1 : Context) (w w1 : σ)
        (err : GoError) (rest : List GoError) (code : Int),
        next c w = (c1, w1) → c1.Errors = err :: rest → err.StatusCode = some code →
        ∃ message, err.Message = some message ∧
          ErrorHandlerMiddleware next c w
            = (c1.JSON code (.errorResponse { Message := message, Details := err.Error }), w1) ∧
          (c1.written = [] →
            (ErrorHandlerMiddleware next c w).1.written
              = [(code, .errorResponse { Message := message, Details := err.Error })] ∧
            (ErrorHandlerMiddleware next c w).1.Status = code)) ∧
    (∀ (u t : Int) (w : World), 0 < u → 0 < t → u < (2 : Int) ^ 63 → t < (2 : Int) ^ 63 →
        ¬ w.hasUsuario u → w.healthy 1 →
        (postMatriculas (.ok { usuario_id := some u, trilha_id := some t }) w).1.written
          = [(422, .errorResponse
              { Message := "Usuário com ID " ++ fmtD u ++ " não encontrado.",
                Details := "Usuário com ID " ++ fmtD u ++ " não encontrado." })] ∧
        (postMatriculas (.ok { usuario_id := some u, trilha_id := some t }) w).1.Status = 422) ∧
    (∀ (u t : Int) (w : World), 0 < u → 0 < t → u < (2 : Int) ^ 63 → t < (2 : Int) ^ 63 →
        w.hasUsuario u → ¬ w.hasTrilha t → w.healthy 2 →
        (postMatriculas (.ok { usuario_id := some u, trilha_id := some t }) w).1.written
          = [(422, .errorResponse
              { Message := "Trilha com ID " ++ fmtD t ++ " não encontrada.",
                Details := "Trilha com ID " ++ fmtD t ++ " não encontrada." })] ∧
        (postMatriculas (.ok { usuario_id := some u, trilha_id := some t }) w).1.Status = 422) := by
  refine ⟨?_, ?_, ?_⟩
  · intro σ next c c1 w w1 err rest code hn he hc
    obtain ⟨message, hm⟩ := message_of_status_code err code hc
    have hrun : ErrorHandlerMiddleware next c w
        = (c1.JSON code (.errorResponse { Message := message, Details := err.Error }), w1) := by
      simp only [ErrorHandlerMiddleware, hn, he, hc, hm]
    refine ⟨message, hm, hrun, ?_⟩
    intro hw
    rw [hrun]
    simp [Context.JSON, Context.Status, hw]
  · intro u t w hu ht hu2 ht2 hno hh
    have hfind : NewMatriculaService.usuarioDAO.FindByID u w = _ :=
      usuarioDAO_FindByID_absent u w hno (healthy_head w 0 hh)
    have hrun : postMatriculas (.ok { usuario_id := some u, trilha_id := some t }) w
        = (Context.JSON (handleError Context.new (some (.BusinessRuleError
            ("Usuário com ID " ++ fmtD u ++ " não encontrado.")))) 422
            (.errorResponse
              { Message := "Usuário com ID " ++ fmtD u ++ " não encontrado.",
                Details := "Usuário com ID " ++ fmtD u ++ " não encontrado." }),
           { w with calls := w.calls + 1 }) := by
      simp [postMatriculas, ErrorHandlerMiddleware, MatricularUsuario,
        ShouldBindJSON_positive u t hu ht hu2 ht2, matriculaServiceImpl.Matricular, hfind,
        GoError.isResourceNotFound, handleError, Context.Error, Context.Abort, Context.new,
        GoError.StatusCode, GoError.Message, GoError.Error]
    rw [hrun]
    exact ⟨rfl, rfl⟩
  · intro u t w hu ht hu2 ht2 hhas hno hh
    obtain ⟨usr, hfindu⟩ := usuarioDAO_FindByID_found u w hhas (healthy_head w 1 hh)
    have hfindu2 : NewMatriculaService.usuarioDAO.FindByID u w = _ := hfindu
    have hf1 : ({ w with calls := w.calls + 1 } : World).faults
        ({ w with calls := w.calls + 1 } : World).calls = Fault.none :=
      healthy_at w 2 1 hh (by omega)
    have hfindt : NewMatriculaService.trilhaDAO.FindByID t { w with calls := w.calls + 1 } = _ :=
      trilhaDAO_FindByID_absent t { w with calls := w.calls + 1 } hno hf1
    have hrun : postMatriculas (.ok { usuario_id := some u, trilha_id := some t }) w
        = (Context.JSON (handleError Context.new (some (.BusinessRuleError
            ("Trilha com ID " ++ fmtD t ++ " não encontrada.")))) 422
            (.errorResponse
              { Message := "Trilha com ID " ++ fmtD t ++ " não encontrada.",
                Details := "Trilha com ID " ++ fmtD t ++ " não encontrada." }),
           { w with calls := w.calls + 1 + 1 }) := by
      simp [postMatriculas, ErrorHandlerMiddleware, MatricularUsuario,
        ShouldBindJSON_positive u t hu ht hu2 ht2, matriculaServiceImpl.Matricular, hfindu2,
        hfindt, GoError.isResourceNotFound, handleError, Context.Error, Context.Abort,
        Context.new, GoError.StatusCode, GoError.Message, GoError.Error]
    rw [hrun]
    exact ⟨rfl, rfl⟩

/-- Witness for C16: a conflict recorded by a handler is answered with 409, and
an enrollment of user 7, who is not stored, with 422. -/
theorem ErrorHandlerMiddleware_custom_error_witness :
    (serviceErrorResponse (.ConflictError "Email já cadastrado.")).written
      = [(409, .errorResponse
          { Message := "Email já cadastrado.", Details := "Email já cadastrado." })] ∧
    (postMatriculas (.ok { usuario_id := some 7, trilha_id := some 1 }) sampleWorld).1.Status
      = 422 ∧
    (postMatriculas (.ok { usuario_id := some 1, trilha_id := some 9 }) sampleWorld).1.Status
      = 422 :=
  ⟨by
    obtain ⟨message, hm, -, h⟩ := ErrorHandlerMiddleware_custom_error.1 Unit
      (fun c w => (handleError c (some (.ConflictError "Email já cadastrado.")), w))
      Context.new (handleError Context.new (some (.ConflictError "Email já cadastrado.")))
      () () (.ConflictError "Email já cadastrado.") [] 409 rfl rfl rfl
    simp only [GoError.Message, Option.some.injEq] at hm
    subst hm
    exact (h rfl).1,
   (ErrorHandlerMiddleware_custom_error.2.1 7 1 sampleWorld (by decide) (by decide)
      (by decide) (by decide)
      (by
        rintro ⟨x, hx, hid⟩
        simp only [sampleWorld, List.mem_singleton] at hx
        subst hx
        exact absurd hid (by decide))
      (fun _ _ => rfl)).2,
   (ErrorHandlerMiddleware_custom_error.2.2 1 9 sampleWorld (by decide) (by decide)
      (by decide) (by decide) ⟨_, List.mem_cons_self _ _, rfl⟩
      (by
        rintro ⟨x, hx, hid⟩
        simp only [sampleWorld, List.mem_singleton] at hx
        subst hx
        exact absurd hid (by decide))
      (fun _ _ => rfl)).2⟩

/-- Counterexample to C17 as stated: two driver failures, neither a typed error,
are answered with different bodies, and the `details` of the body is the text of
the error, driver text included. -/
theorem untyped_error_body_not_generic :
    (serviceErrorResponse
      (.wrapped "erro ao buscar usuário por ID" (.driver "pq: connection lost"))).written
      = [(500, .errorResponse
          { Message := "Ocorreu um erro interno no servidor.",
            Details := "erro ao buscar usuário por ID: pq: connection lost" })] ∧
    ¬ (∀ e1 e2 : GoError, e1.StatusCode = Option.none → e2.StatusCode = Option.none →
        (serviceErrorResponse e1).written = (serviceErrorResponse e2).written) := by
  refine ⟨by decide, ?_⟩
  intro h
  have := h (.driver "a") (.driver "b") rfl rfl
  revert this
  decide

/-- C17, amended: when the first error the chain recorded has no status code (it
is not one of the typed errors) and the status so far is not 400, the middleware
writes status 500 with the body `{message, details}` whose message is the fixed
text `Ocorreu um erro interno no servidor.` and whose details is `Error()` of
that error; for a service error handed to `handleError` this is the whole
response, and its status is 500. -/
theorem ErrorHandlerMiddleware_untyped_error {σ : Type} (next : Context → σ → Context × σ)
    (c c1 : Context) (w w1 : σ) (err : GoError) (rest : List GoError)
    (hn : next c w = (c1, w1)) (he : c1.Errors = err :: rest)
    (hc : err.StatusCode = Option.none) (hs : c1.Status ≠ 400) :
    ErrorHandlerMiddleware next c w
      = (c1.JSON 500 (.errorResponse
          { Message := "Ocorreu um erro interno no servidor.", Details := err.Error }), w1) ∧
    (serviceErrorResponse err).written
      = [(500, .errorResponse
          { Message := "Ocorreu um erro interno no servidor.", Details := err.Error })] ∧
    (serviceErrorResponse err).Status = 500 := by
  have hm := message_none_of_status_code_none err hc
  refine ⟨?_, ?_, ?_⟩
  · simp [ErrorHandlerMiddleware, hn, he, hc, hs]
  · simp [serviceErrorResponse, ErrorHandlerMiddleware, handleError, Context.Error,
      Context.Abort, Context.new, hc, Context.Status, Context.JSON]
  · simp [serviceErrorResponse, ErrorHandlerMiddleware, handleError, Context.Error,
      Context.Abort, Context.new, hc, Context.Status, Context.JSON]

/-- Witness for the amended C17: a failed track lookup on the enrollment route. -/
theorem ErrorHandlerMiddleware_untyped_error_witness :
    postMatriculas (.ok { usuario_id := some 1, trilha_id := some 1 }) (faultyWorld 1)
      = (Context.JSON (handleError Context.new (some
            (.wrapped "erro ao buscar trilha por ID" (.driver "pq: connection lost")))) 500
          (.errorResponse
            { Message := "Ocorreu um erro interno no servidor.",
              Details := "erro ao buscar trilha por ID: pq: connection lost" }),
         { faultyWorld 1 with calls := 2 }) :=
  (ErrorHandlerMiddleware_untyped_error
    (MatricularUsuario NewMatriculaService (.ok { usuario_id := some 1, trilha_id := some 1 }))
    Context.new
    (handleError Context.new (some
      (.wrapped "erro ao buscar trilha por ID" (.driver "pq: connection lost"))))
    (faultyWorld 1) { faultyWorld 1 with calls := 2 }
    (.wrapped "erro ao buscar trilha por ID" (.driver "pq: connection lost")) []
    rfl rfl rfl (by decide)).1

/-! ## Listing all records -/

/-- The rows of `SELECT .. FROM usuarios ORDER BY id` come in ascending id order. -/
theorem selectUsuarios_sorted (w : World) :
    w.selectUsuarios.Sorted (fun a b => a.ID ≤ b.ID) :=
  @List.sorted_insertionSort Usuario (fun a b => a.ID ≤ b.ID) _
    ⟨fun a b => le_total a.ID b.ID⟩ ⟨fun _ _ _ hab hbc => le_trans hab hbc⟩ _

/-- The rows of `SELECT .. FROM trilhas ORDER BY id` come in ascending id order. -/
theorem selectTrilhas_sorted (w : World) :
    w.selectTrilhas.Sorted (fun a b => a.ID ≤ b.ID) :=
  @List.sorted_insertionSort Trilha (fun a b => a.ID ≤ b.ID) _
    ⟨fun a b => le_total a.ID b.ID⟩ ⟨fun _ _ _ hab hbc => le_trans hab hbc⟩ _

/-- C18: on a database that answers, `FindAll` of the user service (resp. track
service) returns the list obtained from the rows of the store, one
representation per row with every field copied: it has the length of the
store's result and of the table, it is a permutation of the representations of
the stored records, it is in ascending id order, and it is the empty list, not
an error, when nothing is stored. -/
theorem FindAll_all_records (w : World) (hh : w.healthy 1) :
    (∃ rows l, NewUsuarioDAO.FindAll w = (.ok rows, { w with calls := w.calls + 1 }) ∧
      NewUsuarioService.FindAll w = (.ok l, { w with calls := w.calls + 1 }) ∧
      l = rows.map (fun u =>
        { ID := u.ID, Nome := u.Nome, Email := u.Email, AreaAtuacao := u.AreaAtuacao,
          NivelCarreira := u.NivelCarreira, DataCadastro := u.DataCadastro }) ∧
      l.length = rows.length ∧ l.length = w.usuarios.length ∧
      l.Perm (w.usuarios.map Usuario.toResponse) ∧
      l.Sorted (fun a b => a.ID ≤ b.ID) ∧
      (w.usuarios = [] → l = [])) ∧
    (∃ rows l, NewTrilhaDAO.FindAll w = (.ok rows, { w with calls := w.calls + 1 }) ∧
      NewTrilhaService.FindAll w = (.ok l, { w with calls := w.calls + 1 }) ∧
      l = rows.map (fun t =>
        { ID := t.ID, Nome := t.Nome, Descricao := t.Descricao, Nivel := t.Nivel,
          CargaHoraria := t.CargaHoraria, FocoPrincipal := t.FocoPrincipal }) ∧
      l.length = rows.length ∧ l.length = w.trilhas.length ∧
      l.Perm (w.trilhas.map Trilha.toResponse) ∧
      l.Sorted (fun a b => a.ID ≤ b.ID) ∧
      (w.trilhas = [] → l = [])) := by
  have hf : w.faults w.calls = Fault.none := healthy_head w 0 hh
  constructor
  · have hdao : NewUsuarioDAO.FindAll w
        = (.ok w.selectUsuarios, { w with calls := w.calls + 1 }) :=
      findRows_healthy w World.selectUsuarios _ _ _ hf
    have hperm : w.selectUsuarios.Perm w.usuarios := List.perm_insertionSort _ _
    refine ⟨_, _, hdao, ?_, rfl, ?_, ?_, ?_, ?_, ?_⟩
    · have hdao2 : NewUsuarioService.dao.FindAll w = _ := hdao
      simp only [usuarioServiceImpl.FindAll, hdao2]
      rfl
    · simp
    · simp [hperm.length_eq]
    · exact hperm.map _
    · rw [List.Sorted, List.pairwise_map]
      exact selectUsuarios_sorted w
    · intro hnil
      simp [World.selectUsuarios, hnil]
  · have hdao : NewTrilhaDAO.FindAll w
        = (.ok w.selectTrilhas, { w with calls := w.calls + 1 }) :=
      findRows_healthy w World.selectTrilhas _ _ _ hf
    have hperm : w.selectTrilhas.Perm w.trilhas := List.perm_insertionSort _ _
    refine ⟨_, _, hdao, ?_, rfl, ?_, ?_, ?_, ?_, ?_⟩
    · have hdao2 : NewTrilhaService.dao.FindAll w = _ := hdao
      simp only [trilhaServiceImpl.FindAll, hdao2]
      rfl
    · simp
    · simp [hperm.length_eq]
    · exact hperm.map _
    · rw [List.Sorted, List.pairwise_map]
      exact selectTrilhas_sorted w
    · intro hnil
      simp [World.selectTrilhas, hnil]

/-- Witness for C18: the two users of `enrolledWorld`, and no track at all on a
database whose `trilhas` table is empty. -/
theorem FindAll_all_records_witness :
    (NewUsuarioService.FindAll enrolledWorld).1
      = .ok [{ ID := 1, Nome := "Ana", Email := "ana@x.com", AreaAtuacao := "TI",
               NivelCarreira := "Pleno", DataCadastro := 10 },
             { ID := 2, Nome := "Bruno", Email := "bruno@x.com", AreaAtuacao := "",
               NivelCarreira := "", DataCadastro := 20 }] ∧
    (NewTrilhaService.FindAll { sampleWorld with trilhas := [] }).1 = .ok [] ∧
    ∃ rows l, NewUsuarioDAO.FindAll enrolledWorld
        = (.ok rows, { enrolledWorld with calls := enrolledWorld.calls + 1 }) ∧
      NewUsuarioService.FindAll enrolledWorld
        = (.ok l, { enrolledWorld with calls := enrolledWorld.calls + 1 }) ∧
      l.length = rows.length ∧ l.length = enrolledWorld.usuarios.length ∧
      l.Sorted (fun a b => a.ID ≤ b.ID) :=
  have h := (FindAll_all_records enrolledWorld (fun _ _ => rfl)).1
  ⟨rfl, rfl, by
    obtain ⟨rows, l, h1, h2, -, h4, h5, -, h7, -⟩ := h
    exact ⟨rows, l, h1, h2, h4, h5, h7⟩⟩

/-! ## The enrollment route: request validation -/

/-- The tags on an id field accept exactly the values above 0. -/
theorem validateID_eq_nil (field : String) (v : Int) : validateID field v = [] ↔ 0 < v := by
  unfold validateID
  by_cases h0 : v = 0
  · simp [h0]
  · by_cases hpos : 0 < v
    · simp [h0, hpos]
    · simp [h0, hpos]

/-- A decoded id is the integer of the body, or 0 when the key is absent. -/
theorem decodeInt64_ok (field : String) (v : Option Int) (n : Int)
    (h : decodeInt64 field v = .ok n) : (v = Option.none ∧ n = 0) ∨ v = some n := by
  cases v with
  | none =>
    simp only [decodeInt64, Except.ok.injEq] at h
    exact Or.inl ⟨rfl, h.symm⟩
  | some m =>
    simp only [decodeInt64] at h
    split at h
    · simp only [Except.ok.injEq] at h
      exact Or.inr (by rw [h])
    · simp at h

/-- A request that passes the binding comes from a body that decodes and holds,
under both keys, an integer above 0. -/
theorem ShouldBindJSON_ok (body : Except String MatricularJSON) (req : MatricularRequest)
    (h : ShouldBindJSON body = .ok req) :
    ∃ json, body = .ok json ∧ json.usuario_id = some req.UsuarioID ∧
      json.trilha_id = some req.TrilhaID ∧ 0 < req.UsuarioID ∧ 0 < req.TrilhaID := by
  cases body with
  | error text => simp [ShouldBindJSON] at h
  | ok json =>
    refine ⟨json, rfl, ?_⟩
    simp only [ShouldBindJSON] at h
    cases hdu : decodeInt64 "usuario_id" json.usuario_id with
    | error text => simp [hdu] at h
    | ok a =>
      cases hdt : decodeInt64 "trilha_id" json.trilha_id with
      | error text => simp [hdu, hdt] at h
      | ok b =>
        simp only [hdu, hdt] at h
        cases hl : validateID "UsuarioID" a ++ validateID "TrilhaID" b with
        | cons e es => simp [hl] at h
        | nil =>
          simp only [hl, Except.ok.injEq] at h
          subst h
          obtain ⟨hl1, hl2⟩ := List.append_eq_nil.mp hl
          have ha : 0 < a := (validateID_eq_nil _ a).mp hl1
          have hb : 0 < b := (validateID_eq_nil _ b).mp hl2
          refine ⟨?_, ?_, ha, hb⟩
          · rcases decodeInt64_ok _ _ _ hdu with ⟨-, h0⟩ | hs
            · omega
            · exact hs
          · rcases decodeInt64_ok _ _ _ hdt with ⟨-, h0⟩ | hs
            · omega
            · exact hs

/-- C19: for a body in which `usuario_id` or `trilha_id` is absent, zero or
negative, `MatricularUsuario` writes status 400 with the validation message and
returns the state it was given, whatever service it is wired with, so
`Matricular` is not called; through the middleware the response is that 400.
For any body at all, either the binding fails and the handler answers 400
without the service, or the binding yields a request whose two ids are above 0
and the state afterwards is the one `Matricular` leaves for these ids. -/
theorem MatricularUsuario_requires_positive_ids {σ : Type} (s : matriculaServiceImpl σ)
    (json : MatricularJSON) (c : Context) (w : σ)
    (hbad : (json.usuario_id = Option.none ∨ ∃ n, json.usuario_id = some n ∧ n ≤ 0) ∨
      (json.trilha_id = Option.none ∨ ∃ n, json.trilha_id = some n ∧ n ≤ 0)) :
    (∃ details,
      MatricularUsuario s (.ok json) c w
        = (c.JSON 400 (.errorResponse
            { Message := "Dados de entrada inválidos.", Details := details }), w) ∧
      ErrorHandlerMiddleware (MatricularUsuario s (.ok json)) Context.new w
        = ({ Errors := [],
             written := [(400, .errorResponse
               { Message := "Dados de entrada inválidos.", Details := details })],
             aborted := false }, w) ∧
      (ErrorHandlerMiddleware (MatricularUsuario s (.ok json)) Context.new w).1.Status = 400) ∧
    (∀ body : Except String MatricularJSON,
      (∃ text, ShouldBindJSON body = .error text ∧
        MatricularUsuario s body c w
          = (c.JSON 400 (.errorResponse
              { Message := "Dados de entrada inválidos.", Details := text }), w)) ∨
      (∃ req, ShouldBindJSON body = .ok req ∧ 0 < req.UsuarioID ∧ 0 < req.TrilhaID ∧
        (MatricularUsuario s body c w).2 = (s.Matricular req.UsuarioID req.TrilhaID w).2)) := by
  have hall : ∀ body : Except String MatricularJSON,
      (∃ text, ShouldBindJSON body = .error text ∧
        MatricularUsuario s body c w
          = (c.JSON 400 (.errorResponse
              { Message := "Dados de entrada inválidos.", Details := text }), w)) ∨
      (∃ req, ShouldBindJSON body = .ok req ∧ 0 < req.UsuarioID ∧ 0 < req.TrilhaID ∧
        (MatricularUsuario s body c w).2 = (s.Matricular req.UsuarioID req.TrilhaID w).2) := by
    intro body
    cases hb : ShouldBindJSON body with
    | error text =>
      left
      exact ⟨text, rfl, by simp only [MatricularUsuario, hb]⟩
    | ok req =>
      right
      obtain ⟨_, -, -, -, h1, h2⟩ := ShouldBindJSON_ok body req hb
      refine ⟨req, rfl, h1, h2, ?_⟩
      simp only [MatricularUsuario, hb]
      cases hm : s.Matricular req.UsuarioID req.TrilhaID w with
      | mk r w1 => cases r <;> rfl
  refine ⟨?_, hall⟩
  have hfail : ∃ text, ShouldBindJSON (.ok json) = .error text := by
    cases hb : ShouldBindJSON (.ok json) with
    | error text => exact ⟨text, rfl⟩
    | ok req =>
      exfalso
      obtain ⟨j, hj, hu, ht, h1, h2⟩ := ShouldBindJSON_ok _ req hb
      simp only [Except.ok.injEq] at hj
      subst hj
      rcases hbad with (hnone | ⟨n, hn, hle⟩) | (hnone | ⟨n, hn, hle⟩)
      · rw [hnone] at hu
        simp at hu
      · rw [hn] at hu
        simp only [Option.some.injEq] at hu
        omega
      · rw [hnone] at ht
        simp at ht
      · rw [hn] at ht
        simp only [Option.some.injEq] at ht
        omega
  obtain ⟨text, htext⟩ := hfail
  refine ⟨text, by simp only [MatricularUsuario, htext], ?_, ?_⟩
  · simp [ErrorHandlerMiddleware, MatricularUsuario, htext, Context.JSON, Context.new]
  · simp [ErrorHandlerMiddleware, MatricularUsuario, htext, Context.JSON, Context.new,
      Context.Status]

/-- Witness for C19: a body without `usuario_id`, on the wired service. -/
theorem MatricularUsuario_requires_positive_ids_witness :
    postMatriculas (.ok { usuario_id := Option.none, trilha_id := some 1 }) sampleWorld
      = ({ Errors := [],
           written := [(400, .errorResponse
             { Message := "Dados de entrada inválidos.",
               Details := fieldError "UsuarioID" "required" })],
           aborted := false }, sampleWorld) ∧
    ∃ details,
      MatricularUsuario NewMatriculaService
          (.ok { usuario_id := Option.none, trilha_id := some 1 }) Context.new sampleWorld
        = (Context.new.JSON 400 (.errorResponse
            { Message := "Dados de entrada inválidos.", Details := details }), sampleWorld) :=
  ⟨rfl,
   (MatricularUsuario_requires_positive_ids NewMatriculaService
      { usuario_id := Option.none, trilha_id := some 1 } Context.new sampleWorld
      (Or.inl (Or.inl rfl))).1.imp (fun _ h => h.1)⟩

/-! ## Enrolling twice -/

/-- With the user and the track stored and three working round trips,
`Matricular` appends one row with the next id of the sequence, the first clock
reading and the status `"ATIVA"`, and returns it. -/
theorem Matricular_healthy (usuarioID trilhaID : Int) (w : World)
    (hu : w.hasUsuario usuarioID) (ht : w.hasTrilha trilhaID) (hh : w.healthy 3) :
    NewMatriculaService.Matricular usuarioID trilhaID w
      = (.ok { ID := (w.matriculasSeq : Int) + 1, UsuarioID := usuarioID, TrilhaID := trilhaID,
               DataInscricao := w.clock w.ticks, Status := "ATIVA" },
         { w with
           matriculas := w.matriculas ++
             [{ ID := (w.matriculasSeq : Int) + 1, UsuarioID := usuarioID, TrilhaID := trilhaID,
                DataInscricao := w.clock w.ticks, Status := "ATIVA" }]
           matriculasSeq := w.matriculasSeq + 1
           calls := w.calls + 3
           ticks := w.ticks + 1 }) := by
  have hf0 : w.faults w.calls = Fault.none := by simpa using healthy_at w 3 0 hh (by omega)
  have hf1 := healthy_at w 3 1 hh (by omega)
  have hf2 := healthy_at w 3 2 hh (by omega)
  obtain ⟨usr, urest, husel, -, -⟩ := usuario_filter_of_has usuarioID w hu
  obtain ⟨trl, trest, htsel, -, -⟩ := trilha_filter_of_has trilhaID w ht
  have hfindu := usuarioDAO_FindByID_first usuarioID w usr urest husel hf0
  have hfindt := trilhaDAO_FindByID_first trilhaID { w with calls := w.calls + 1 } trl trest
    htsel hf1
  simp [matriculaServiceImpl.Matricular, NewMatriculaService, NewUsuarioDAO, NewTrilhaDAO,
    NewMatriculaDAO, hfindu, hfindt, matriculaDAOImpl.Create, World.timeNow,
    World.insertMatricula, World.nextFault, hf2]

/-- C20: for a stored user and a stored track and a database that answers, two
calls of `Matricular` with the same pair, one after the other, both succeed;
the two records returned have different ids, the same user and track and the
status `"ATIVA"`, and both are rows of `matriculas` afterwards, appended in
that order to what was stored before. -/
theorem Matricular_twice (usuarioID trilhaID : Int) (w : World)
    (hu : w.hasUsuario usuarioID) (ht : w.hasTrilha trilhaID) (hh : w.healthy 6) :
    ∃ m1 m2 w1 w2, NewMatriculaService.Matricular usuarioID trilhaID w = (.ok m1, w1) ∧
      NewMatriculaService.Matricular usuarioID trilhaID w1 = (.ok m2, w2) ∧
      m1.ID ≠ m2.ID ∧ m1 ≠ m2 ∧
      m1.UsuarioID = usuarioID ∧ m2.UsuarioID = usuarioID ∧
      m1.TrilhaID = trilhaID ∧ m2.TrilhaID = trilhaID ∧
      m1.Status = "ATIVA" ∧ m2.Status = "ATIVA" ∧
      w2.matriculas = w.matriculas ++ [m1, m2] := by
  have h1 := Matricular_healthy usuarioID trilhaID w hu ht
    (fun i hi => hh i (by omega))
  have hh2 := healthy_shift w
    { w with
      matriculas := w.matriculas ++
        [{ ID := (w.matriculasSeq : Int) + 1, UsuarioID := usuarioID, TrilhaID := trilhaID,
           DataInscricao := w.clock w.ticks, Status := "ATIVA" }]
      matriculasSeq := w.matriculasSeq + 1
      calls := w.calls + 3
      ticks := w.ticks + 1 } 3 3 hh rfl rfl
  have h2 := Matricular_healthy usuarioID trilhaID
    { w with
      matriculas := w.matriculas ++
        [{ ID := (w.matriculasSeq : Int) + 1, UsuarioID := usuarioID, TrilhaID := trilhaID,
           DataInscricao := w.clock w.ticks, Status := "ATIVA" }]
      matriculasSeq := w.matriculasSeq + 1
      calls := w.calls + 3
      ticks := w.ticks + 1 } hu ht hh2
  refine ⟨_, _, _, _, h1, h2, ?_, ?_, rfl, rfl, rfl, rfl, rfl, rfl, ?_⟩
  · simp
  · intro heq
    have := congrArg Matricula.ID heq
    simp at this
  · simp

/-- Witness for C20: user 1 enrolls twice in track 1 on the sample database. -/
theorem Matricular_twice_witness :
    (NewMatriculaService.Matricular 1 1
      (NewMatriculaService.Matricular 1 1 sampleWorld).2).2.matriculas
      = [{ ID := 1, UsuarioID := 1, TrilhaID := 1, DataInscricao := 100, Status := "ATIVA" },
         { ID := 2, UsuarioID := 1, TrilhaID := 1, DataInscricao := 101, Status := "ATIVA" }] ∧
    ∃ m1 m2 w1 w2, NewMatriculaService.Matricular 1 1 sampleWorld = (.ok m1, w1) ∧
      NewMatriculaService.Matricular 1 1 w1 = (.ok m2, w2) ∧
      m1.ID ≠ m2.ID ∧ m1 ≠ m2 ∧
      m1.UsuarioID = 1 ∧ m2.UsuarioID = 1 ∧ m1.TrilhaID = 1 ∧ m2.TrilhaID = 1 ∧
      m1.Status = "ATIVA" ∧ m2.Status = "ATIVA" ∧
      w2.matriculas = sampleWorld.matriculas ++ [m1, m2] :=
  ⟨rfl, Matricular_twice 1 1 sampleWorld ⟨_, List.mem_cons_self _ _, rfl⟩
    ⟨_, List.mem_cons_self _ _, rfl⟩ (fun _ _ => rfl)⟩

/-! ## What each round trip leaves behind -/

/-- A single-row SELECT changes nothing but the count of round trips. -/
theorem queryRow_state {α : Type} (w : World) (result : World → List α) :
    (w.queryRow result).2 = { w with calls := w.calls + 1 } := by
  unfold World.queryRow World.nextFault
  cases w.faults w.calls <;> rfl

/-- A multi-row finder changes nothing but the count of round trips. -/
theorem findRows_state {α : Type} (w : World) (result : World → List α)
    (t1 t2 t3 : String) :
    (w.findRows result t1 t2 t3).2 = { w with calls := w.calls + 1 } := by
  unfold World.findRows World.query World.nextFault
  cases w.faults w.calls with
  | scan i t =>
    by_cases hi : i < (result { w with calls := w.calls + 1 }).length
    · simp only [hi, if_true]
    · simp only [hi, if_false]
  | none => rfl
  | stmt t => rfl
  | iter i t => rfl
  | affected t => rfl

/-- An `Exec` leaves either the state with one more round trip counted, or the
effect of its statement on that state. -/
theorem exec_state (w : World) (effect : World → World × Nat) :
    (w.exec effect).2 = { w with calls := w.calls + 1 } ∨
    (w.exec effect).2 = (effect { w with calls := w.calls + 1 }).1 := by
  unfold World.exec World.nextFault
  cases w.faults w.calls
  · exact Or.inr rfl
  · exact Or.inl rfl
  · exact Or.inl rfl
  · exact Or.inl rfl
  · exact Or.inr rfl

theorem usuarioDAO_FindByID_state (id : Int) (w : World) :
    (usuarioDAOImpl.FindByID id w).2 = { w with calls := w.calls + 1 } := by
  have h := queryRow_state w (World.selectUsuarioByID id)
  unfold usuarioDAOImpl.FindByID
  cases hq : w.queryRow (World.selectUsuarioByID id) with
  | mk r w1 =>
    rw [hq] at h
    cases r with
    | error e =>
      simp only
      split <;> exact h
    | ok a => exact h

theorem trilhaDAO_FindByID_state (id : Int) (w : World) :
    (trilhaDAOImpl.FindByID id w).2 = { w with calls := w.calls + 1 } := by
  have h := queryRow_state w (World.selectTrilhaByID id)
  unfold trilhaDAOImpl.FindByID
  cases hq : w.queryRow (World.selectTrilhaByID id) with
  | mk r w1 =>
    rw [hq] at h
    cases r with
    | error e =>
      simp only
      split <;> exact h
    | ok a => exact h

theorem usuarioDAO_FindByEmail_state (email : String) (w : World) :
    (usuarioDAOImpl.FindByEmail email w).2 = { w with calls := w.calls + 1 } := by
  have h := queryRow_state w (World.selectUsuarioByEmail email)
  unfold usuarioDAOImpl.FindByEmail
  cases hq : w.queryRow (World.selectUsuarioByEmail email) with
  | mk r w1 =>
    rw [hq] at h
    cases r with
    | error e =>
      simp only
      split <;> exact h
    | ok a => exact h

/-! ## User store: what an insert failure becomes -/

/-- The insert into `usuarios` leaves the table as it was or appends one row,
and it appends only a row whose email no stored row holds. -/
theorem insertUsuario_usuarios (w : World) (nome email areaAtuacao nivelCarreira : String)
    (dataCadastro : Time) :
    (w.insertUsuario nome email areaAtuacao nivelCarreira dataCadastro).2.usuarios = w.usuarios ∨
    ∃ row, (w.insertUsuario nome email areaAtuacao nivelCarreira dataCadastro).2.usuarios
        = w.usuarios ++ [row] ∧ row.Email = email ∧ ∀ u ∈ w.usuarios, u.Email ≠ email := by
  unfold World.insertUsuario World.nextFault
  cases w.faults w.calls with
  | none =>
    simp only
    by_cases hany : (w.usuarios.any (fun u => u.Email == email)) = true
    · rw [if_pos hany]
      exact Or.inl rfl
    · rw [if_neg hany]
      refine Or.inr ⟨_, rfl, rfl, ?_⟩
      intro u hu hemail
      apply hany
      rw [List.any_eq_true]
      exact ⟨u, hu, by simpa using hemail⟩
  | stmt t => exact Or.inl rfl
  | scan i t => exact Or.inl rfl
  | iter i t => exact Or.inl rfl
  | affected t => exact Or.inl rfl

/-- The method `usuarioDAOImpl.Create` leaves the table as it was or appends one
row with the email of the record, which no stored row holds. -/
theorem usuarioDAO_Create_usuarios (usuario : Usuario) (w : World) :
    (usuarioDAOImpl.Create usuario w).2.usuarios = w.usuarios ∨
    ∃ row, (usuarioDAOImpl.Create usuario w).2.usuarios = w.usuarios ++ [row] ∧
      row.Email = usuario.Email ∧ ∀ u ∈ w.usuarios, u.Email ≠ usuario.Email := by
  have h := insertUsuario_usuarios { w with ticks := w.ticks + 1 } usuario.Nome usuario.Email
    usuario.AreaAtuacao usuario.NivelCarreira (w.clock w.ticks)
  unfold usuarioDAOImpl.Create World.timeNow
  simp only
  cases hi : World.insertUsuario { w with ticks := w.ticks + 1 } usuario.Nome usuario.Email
      usuario.AreaAtuacao usuario.NivelCarreira (w.clock w.ticks) with
  | mk r w2 =>
    rw [hi] at h
    cases r with
    | error e =>
      simp only
      split <;> exact h
    | ok p => exact h

/-- The method `Create` of the user service leaves the table as it was or
appends one row with the email of the request, which no stored row holds. -/
theorem usuarioService_Create_usuarios (req : CreateUsuarioRequest) (w : World) :
    (NewUsuarioService.Create req w).2.usuarios = w.usuarios ∨
    ∃ row, (NewUsuarioService.Create req w).2.usuarios = w.usuarios ++ [row] ∧
      row.Email = req.Email ∧ ∀ u ∈ w.usuarios, u.Email ≠ req.Email := by
  have hst := usuarioDAO_FindByEmail_state req.Email w
  simp only [usuarioServiceImpl.Create, NewUsuarioService, NewUsuarioDAO]
  cases hfe : usuarioDAOImpl.FindByEmail req.Email w with
  | mk r w1 =>
    rw [hfe] at hst
    simp only at hst
    subst hst
    cases r with
    | error e => exact Or.inl rfl
    | ok o =>
      cases o with
      | some u => exact Or.inl rfl
      | none =>
        simp only [World.timeNow]
        have hc := usuarioDAO_Create_usuarios
          { ID := 0, Nome := req.Nome, Email := req.Email, AreaAtuacao := req.AreaAtuacao,
            NivelCarreira := req.NivelCarreira, DataCadastro := w.clock w.ticks }
          { w with calls := w.calls + 1, ticks := w.ticks + 1 }
        cases hcr : usuarioDAOImpl.Create
            { ID := 0, Nome := req.Nome, Email := req.Email, AreaAtuacao := req.AreaAtuacao,
              NivelCarreira := req.NivelCarreira, DataCadastro := w.clock w.ticks }
            { w with calls := w.calls + 1, ticks := w.ticks + 1 } with
        | mk r2 w3 =>
          rw [hcr] at hc
          cases r2 <;> exact hc

/-- The method `usuarioDAOImpl.Update` never touches the email column. -/
theorem usuarioDAO_Update_emails (r : Usuario) (w : World) :
    (usuarioDAOImpl.Update r w).2.usuarios.map (fun u => u.Email)
      = w.usuarios.map (fun u => u.Email) := by
  unfold usuarioDAOImpl.Update
  simp only
  rcases exec_state w (World.updateUsuario r.ID r.Nome r.AreaAtuacao r.NivelCarreira) with h | h
  · rw [h]
  · rw [h]
    simp only [World.updateUsuario, List.map_map]
    apply List.map_congr_left
    intro u _
    by_cases hid : u.ID = r.ID <;> simp [hid]

/-- The method `Update` of the user service never touches the email column. -/
theorem usuarioService_Update_emails (id : Int) (req : UpdateUsuarioRequest) (w : World) :
    (NewUsuarioService.Update id req w).2.usuarios.map (fun u => u.Email)
      = w.usuarios.map (fun u => u.Email) := by
  have hst := usuarioDAO_FindByID_state id w
  rw [usuarioService_Update_eq]
  simp only [NewUsuarioService, NewUsuarioDAO]
  cases hf : usuarioDAOImpl.FindByID id w with
  | mk r w1 =>
    rw [hf] at hst
    simp only at hst
    subst hst
    cases r with
    | error e => rfl
    | ok old =>
      simp only
      have hu := usuarioDAO_Update_emails (req.applyTo old) { w with calls := w.calls + 1 }
      cases hup : usuarioDAOImpl.Update (req.applyTo old) { w with calls := w.calls + 1 } with
      | mk r2 w2 =>
        rw [hup] at hu
        cases r2 <;> exact hu

/-- The method `usuarioDAOImpl.Delete` leaves in the table a sublist of what was
stored. -/
theorem usuarioDAO_Delete_sublist (id : Int) (w : World) :
    (usuarioDAOImpl.Delete id w).2.usuarios.Sublist w.usuarios := by
  unfold usuarioDAOImpl.Delete
  simp only
  rcases exec_state w (World.deleteUsuario id) with h | h
  · rw [h]
  · rw [h]
    exact List.filter_sublist _

/-- C22: if no two stored users share an email, then none do after `Create`,
`Update` or `Delete` of the user service, with any request and any id, whether
the call succeeds or fails and whatever the database round trips do. -/
theorem UsuarioService_preserves_email_uniqueness (w : World) (hw : w.emailsUnique) :
    (∀ req, (NewUsuarioService.Create req w).2.emailsUnique) ∧
    (∀ id req, (NewUsuarioService.Update id req w).2.emailsUnique) ∧
    (∀ id, (NewUsuarioService.Delete id w).2.emailsUnique) := by
  refine ⟨?_, ?_, ?_⟩
  · intro req
    unfold World.emailsUnique at hw ⊢
    rcases usuarioService_Create_usuarios req w with h | ⟨row, h, hrow, hnew⟩
    · rw [h]
      exact hw
    · rw [h, List.map_append, List.nodup_append]
      refine ⟨hw, by simp, ?_⟩
      intro a ha hb
      simp only [List.map_cons, List.map_nil, List.mem_singleton] at hb
      obtain ⟨u, hu, hue⟩ := List.mem_map.mp ha
      exact hnew u hu (by rw [hue, hb, hrow])
  · intro id req
    unfold World.emailsUnique at hw ⊢
    rw [usuarioService_Update_emails]
    exact hw
  · intro id
    unfold World.emailsUnique at hw ⊢
    exact hw.sublist ((usuarioDAO_Delete_sublist id w).map _)

/-- Witness for C22: on the sample database a create with the stored email (it
fails), a create with a new email, an update and a delete. -/
theorem UsuarioService_preserves_email_uniqueness_witness :
    (NewUsuarioService.Create
      { Nome := "Ana B", Email := "ana@x.com", AreaAtuacao := "", NivelCarreira := "" }
      sampleWorld).2.emailsUnique ∧
    (NewUsuarioService.Create
      { Nome := "Bia", Email := "bia@x.com", AreaAtuacao := "", NivelCarreira := "" }
      sampleWorld).2.emailsUnique ∧
    (NewUsuarioService.Update 1 { Nome := "Ana C", AreaAtuacao := "", NivelCarreira := "" }
      sampleWorld).2.emailsUnique ∧
    (NewUsuarioService.Delete 1 sampleWorld).2.emailsUnique :=
  have hw : sampleWorld.emailsUnique := by
    simp [World.emailsUnique, sampleWorld]
  have h := UsuarioService_preserves_email_uniqueness sampleWorld hw
  ⟨h.1 _, h.1 _, h.2.1 _ _, h.2.2 _⟩

/-! ## Track store: well-formed rows -/

/-- Applying a request that passes the binding rules to a well-formed track
gives a well-formed track. -/
theorem applyTo_wellFormed (req : UpdateTrilhaRequest) (hv : req.valid) (old : Trilha)
    (ho : old.wellFormed) : (req.applyTo old).wellFormed := by
  rw [trilha_applyTo_fields]
  obtain ⟨-, hn, hc, -⟩ := hv
  constructor
  · show nivelOneOf (if req.Nivel ≠ "" then req.Nivel else old.Nivel)
    by_cases h : req.Nivel = ""
    · simp only [h, ne_eq, not_true_eq_false, if_false]
      exact ho.1
    · simp only [h, ne_eq, not_false_eq_true, if_true]
      exact hn.resolve_left h
  · show 0 < (if req.CargaHoraria ≠ 0 then req.CargaHoraria else old.CargaHoraria)
    by_cases h : req.CargaHoraria = 0
    · simp only [h, ne_eq, not_true_eq_false, if_false]
      exact ho.2
    · simp only [h, ne_eq, not_false_eq_true, if_true]
      exact hc.resolve_left h

/-- The method `trilhaDAOImpl.Create` with a well-formed record keeps every
stored track well formed, whether the insert works or not. -/
theorem trilhaDAO_Create_wellFormed (t0 : Trilha) (h0 : t0.wellFormed) (w : World)
    (hw : w.trilhasWellFormed) : (trilhaDAOImpl.Create t0 w).2.trilhasWellFormed := by
  unfold trilhaDAOImpl.Create World.insertTrilha World.nextFault
  cases w.faults w.calls with
  | none =>
    intro t ht
    simp only [List.mem_append, List.mem_singleton] at ht
    rcases ht with ht | ht
    · exact hw t ht
    · subst ht
      exact h0
  | stmt t => exact hw
  | scan i t => exact hw
  | iter i t => exact hw
  | affected t => exact hw

/-- The method `trilhaDAOImpl.Update` with a well-formed record keeps every
stored track well formed, whether the statement works or not. -/
theorem trilhaDAO_Update_wellFormed (r : Trilha) (hr : r.wellFormed) (w : World)
    (hw : w.trilhasWellFormed) : (trilhaDAOImpl.Update r w).2.trilhasWellFormed := by
  unfold trilhaDAOImpl.Update
  simp only
  rcases exec_state w (World.updateTrilha r.ID r.Nome r.Descricao r.Nivel r.CargaHoraria
    r.FocoPrincipal) with h | h
  · rw [h]
    exact hw
  · rw [h]
    intro t ht
    simp only [World.updateTrilha, List.mem_map] at ht
    obtain ⟨t0, ht0, hmap⟩ := ht
    by_cases hid : t0.ID = r.ID
    · simp only [hid, if_true] at hmap
      subst hmap
      exact hr
    · simp only [hid, if_false] at hmap
      subst hmap
      exact hw t0 ht0

/-- C23: if every stored track has its level among `INICIANTE`, `INTERMEDIARIO`,
`AVANCADO` and a workload above 0, then so has every stored track after `Create`
of the track service with a request that passes the binding rules of
`CreateTrilhaRequest`, and after `Update` with any id and a request that passes
the binding rules of `UpdateTrilhaRequest`, whether the call succeeds or fails. -/
theorem TrilhaService_preserves_well_formed (w : World) (hw : w.trilhasWellFormed) :
    (∀ req : CreateTrilhaRequest, req.valid →
      (NewTrilhaService.Create req w).2.trilhasWellFormed) ∧
    (∀ (id : Int) (req : UpdateTrilhaRequest), req.valid →
      (NewTrilhaService.Update id req w).2.trilhasWellFormed) := by
  constructor
  · intro req hv
    have h0 : Trilha.wellFormed
        { ID := 0, Nome := req.Nome, Descricao := req.Descricao, Nivel := req.Nivel,
          CargaHoraria := req.CargaHoraria, FocoPrincipal := req.FocoPrincipal } :=
      ⟨hv.2.1.2, hv.2.2.1.2⟩
    have hc := trilhaDAO_Create_wellFormed _ h0 w hw
    simp only [trilhaServiceImpl.Create, NewTrilhaService, NewTrilhaDAO]
    cases hcr : trilhaDAOImpl.Create
        { ID := 0, Nome := req.Nome, Descricao := req.Descricao, Nivel := req.Nivel,
          CargaHoraria := req.CargaHoraria, FocoPrincipal := req.FocoPrincipal } w with
    | mk r w1 =>
      rw [hcr] at hc
      cases r <;> exact hc
  · intro id req hv
    have hst := trilhaDAO_FindByID_state id w
    rw [trilhaService_Update_eq]
    simp only [NewTrilhaService, NewTrilhaDAO]
    cases hf : trilhaDAOImpl.FindByID id w with
    | mk r w1 =>
      obtain hmem : ∀ old, r = .ok old → old ∈ w.trilhas := by
        intro old hr
        subst hr
        exact (trilhaDAO_FindByID_ok id w w1 old hf).2.1
      rw [hf] at hst
      simp only at hst
      subst hst
      cases r with
      | error e => exact hw
      | ok old =>
        simp only
        have hu := trilhaDAO_Update_wellFormed (req.applyTo old)
          (applyTo_wellFormed req hv old (hw old (hmem old rfl)))
          { w with calls := w.calls + 1 } hw
        cases hup : trilhaDAOImpl.Update (req.applyTo old) { w with calls := w.calls + 1 } with
        | mk r2 w2 =>
          rw [hup] at hu
          cases r2 <;> exact hu

/-- Witness for C23: on the sample database, a valid create and a valid update
that changes the level. -/
theorem TrilhaService_preserves_well_formed_witness :
    (NewTrilhaService.Create
      { Nome := "Python", Descricao := "Bases", Nivel := "AVANCADO", CargaHoraria := 60,
        FocoPrincipal := "Dados" } sampleWorld).2.trilhasWellFormed ∧
    (NewTrilhaService.Update 1
      { Nome := "", Descricao := "", Nivel := "INTERMEDIARIO", CargaHoraria := 0,
        FocoPrincipal := "" } sampleWorld).2.trilhasWellFormed ∧
    (NewTrilhaService.Update 1
      { Nome := "", Descricao := "", Nivel := "INTERMEDIARIO", CargaHoraria := 0,
        FocoPrincipal := "" } sampleWorld).2.trilhas
      = [{ ID := 1, Nome := "Dados 101", Descricao := "", Nivel := "INTERMEDIARIO",
           CargaHoraria := 10, FocoPrincipal := "Dados" }] :=
  have hw : sampleWorld.trilhasWellFormed := by
    intro t ht
    simp only [sampleWorld, List.mem_singleton] at ht
    subst ht
    exact ⟨Or.inl rfl, by decide⟩
  have h := TrilhaService_preserves_well_formed sampleWorld hw
  ⟨h.1 _ ⟨⟨by decide, by decide, by decide⟩, ⟨by decide, Or.inr (Or.inr rfl)⟩,
      ⟨by decide, by decide⟩, by decide⟩,
   h.2 1 _ ⟨Or.inl rfl, Or.inr (Or.inr (Or.inl rfl)), Or.inl rfl, by decide⟩,
   rfl⟩

/-! ## Enrollment store: rows are written once, as active -/

/-- The method `matriculaDAOImpl.Create` leaves the table as it was or appends
one row with the user and track of the record and the status `"ATIVA"`. -/
theorem matriculaDAO_Create_matriculas (m0 : Matricula) (w : World) :
    (matriculaDAOImpl.Create m0 w).2.matriculas = w.matriculas ∨
    ∃ row, (matriculaDAOImpl.Create m0 w).2.matriculas = w.matriculas ++ [row] ∧
      row.Status = "ATIVA" ∧ row.UsuarioID = m0.UsuarioID ∧ row.TrilhaID = m0.TrilhaID := by
  cases hf : w.faults w.calls with
  | none =>
    right
    refine ⟨{ ID := (w.matriculasSeq : Int) + 1, UsuarioID := m0.UsuarioID,
              TrilhaID := m0.TrilhaID, DataInscricao := w.clock w.ticks, Status := "ATIVA" },
      ?_, rfl, rfl, rfl⟩
    simp [matriculaDAOImpl.Create, World.timeNow, World.insertMatricula, World.nextFault, hf]
  | stmt t =>
    left
    simp [matriculaDAOImpl.Create, World.timeNow, World.insertMatricula, World.nextFault, hf]
  | scan i t =>
    left
    simp [matriculaDAOImpl.Create, World.timeNow, World.insertMatricula, World.nextFault, hf]
  | iter i t =>
    left
    simp [matriculaDAOImpl.Create, World.timeNow, World.insertMatricula, World.nextFault, hf]
  | affected t =>
    left
    simp [matriculaDAOImpl.Create, World.timeNow, World.insertMatricula, World.nextFault, hf]

/-- The method `Matricular` leaves the table as it was or appends one row with
the user and track of the call and the status `"ATIVA"`. -/
theorem Matricular_matriculas (usuarioID trilhaID : Int) (w : World) :
    (NewMatriculaService.Matricular usuarioID trilhaID w).2.matriculas = w.matriculas ∨
    ∃ row, (NewMatriculaService.Matricular usuarioID trilhaID w).2.matriculas
        = w.matriculas ++ [row] ∧
      row.Status = "ATIVA" ∧ row.UsuarioID = usuarioID ∧ row.TrilhaID = trilhaID := by
  have hsu := usuarioDAO_FindByID_state usuarioID w
  simp only [matriculaServiceImpl.Matricular, NewMatriculaService, NewUsuarioDAO, NewTrilhaDAO,
    NewMatriculaDAO]
  cases hu : usuarioDAOImpl.FindByID usuarioID w with
  | mk r1 w1 =>
    rw [hu] at hsu
    simp only at hsu
    subst hsu
    cases r1 with
    | error e =>
      simp only
      split <;> exact Or.inl rfl
    | ok usr =>
      simp only
      have hst := trilhaDAO_FindByID_state trilhaID { w with calls := w.calls + 1 }
      cases ht : trilhaDAOImpl.FindByID trilhaID { w with calls := w.calls + 1 } with
      | mk r2 w2 =>
        rw [ht] at hst
        simp only at hst
        subst hst
        cases r2 with
        | error e =>
          simp only
          split <;> exact Or.inl rfl
        | ok trl =>
          simp only
          have hc := matriculaDAO_Create_matriculas
            { ID := 0, UsuarioID := usuarioID, TrilhaID := trilhaID, DataInscricao := 0,
              Status := "ATIVA" } { w with calls := w.calls + 1 + 1 }
          cases hcr : matriculaDAOImpl.Create
              { ID := 0, UsuarioID := usuarioID, TrilhaID := trilhaID, DataInscricao := 0,
                Status := "ATIVA" } { w with calls := w.calls + 1 + 1 } with
          | mk r3 w3 =>
            rw [hcr] at hc
            cases r3 <;> exact hc

/-- The method `GetMatriculasByUsuario` leaves the table as it was. -/
theorem GetMatriculasByUsuario_matriculas (usuarioID : Int) (w : World) :
    (NewMatriculaService.GetMatriculasByUsuario usuarioID w).2.matriculas = w.matriculas := by
  have hsu := usuarioDAO_FindByID_state usuarioID w
  simp only [matriculaServiceImpl.GetMatriculasByUsuario, NewMatriculaService, NewUsuarioDAO,
    NewMatriculaDAO]
  cases hu : usuarioDAOImpl.FindByID usuarioID w with
  | mk r1 w1 =>
    rw [hu] at hsu
    simp only at hsu
    subst hsu
    cases r1 with
    | error e =>
      simp only
      split <;> rfl
    | ok usr =>
      simp only [matriculaDAOImpl.FindByUsuarioID, findRows_state]

/-- C24: whatever record is passed to `matriculaDAOImpl.Create`, also one with
another `Status`, the call leaves `matriculas` as it was or appends one row
whose status is `"ATIVA"`; `FindByUsuarioID`, `Matricular` and
`GetMatriculasByUsuario` keep every stored row in place (the table before is a
prefix of the table after, for the two finders it is the table after); and the
record a successful `Matricular` returns is the row it appended, status
`"ATIVA"` included. -/
theorem matriculas_written_once_as_ativa (w : World) :
    (∀ m0 : Matricula,
      (matriculaDAOImpl.Create m0 w).2.matriculas = w.matriculas ∨
      ∃ row, (matriculaDAOImpl.Create m0 w).2.matriculas = w.matriculas ++ [row] ∧
        row.Status = "ATIVA" ∧ row.UsuarioID = m0.UsuarioID ∧ row.TrilhaID = m0.TrilhaID) ∧
    (∀ (m0 m : Matricula) (w1 : World), matriculaDAOImpl.Create m0 w = (.ok m, w1) →
      ∃ row, w1.matriculas = w.matriculas ++ [row] ∧ row.Status = "ATIVA" ∧
        row.ID = m.ID ∧ row.DataInscricao = m.DataInscricao ∧ m.Status = m0.Status) ∧
    (∀ usuarioID, (matriculaDAOImpl.FindByUsuarioID usuarioID w).2.matriculas = w.matriculas) ∧
    (∀ usuarioID trilhaID,
      w.matriculas <+: (NewMatriculaService.Matricular usuarioID trilhaID w).2.matriculas) ∧
    (∀ usuarioID,
      (NewMatriculaService.GetMatriculasByUsuario usuarioID w).2.matriculas = w.matriculas) ∧
    (∀ (usuarioID trilhaID : Int) (m : Matricula) (w1 : World),
      NewMatriculaService.Matricular usuarioID trilhaID w = (.ok m, w1) →
      w1.matriculas = w.matriculas ++ [m] ∧ m.Status = "ATIVA") := by
  refine ⟨fun m0 => matriculaDAO_Create_matriculas m0 w, ?_, ?_, ?_,
    fun u => GetMatriculasByUsuario_matriculas u w, ?_⟩
  · intro m0 m w1 h
    obtain ⟨hm, hw1⟩ := matriculaDAO_Create_ok m0 m w w1 h
    subst hm hw1
    exact ⟨_, rfl, rfl, rfl, rfl, rfl⟩
  · intro u
    simp only [matriculaDAOImpl.FindByUsuarioID, findRows_state]
  · intro u t
    rcases Matricular_matriculas u t w with h | ⟨row, h, -⟩
    · rw [h]
    · rw [h]
      exact List.prefix_append _ _
  · intro u t m w1 h
    obtain ⟨usr, trl, -, -, hc⟩ := Matricular_ok u t w w1 m h
    obtain ⟨hm, hw1⟩ := matriculaDAO_Create_ok _ m _ w1 hc
    subst hm hw1
    exact ⟨rfl, rfl⟩

/-- Witness for C24: a record with status `"CANCELADA"` handed to the store is
written as `"ATIVA"`, and an enrollment on `enrolledWorld` keeps the three rows
stored before. -/
theorem matriculas_written_once_as_ativa_witness :
    (matriculaDAOImpl.Create
      { ID := 0, UsuarioID := 1, TrilhaID := 1, DataInscricao := 0, Status := "CANCELADA" }
      sampleWorld).2.matriculas
      = [{ ID := 1, UsuarioID := 1, TrilhaID := 1, DataInscricao := 100, Status := "ATIVA" }] ∧
    (NewMatriculaService.Matricular 2 1 enrolledWorld).2.matriculas
      = enrolledWorld.matriculas ++
        [{ ID := 4, UsuarioID := 2, TrilhaID := 1, DataInscricao := 100, Status := "ATIVA" }] ∧
    enrolledWorld.matriculas <+: (NewMatriculaService.Matricular 2 1 enrolledWorld).2.matriculas ∧
    ∃ row, (NewMatriculaService.Matricular 2 1 enrolledWorld).2.matriculas
        = enrolledWorld.matriculas ++ [row] ∧ row.Status = "ATIVA" :=
  have h := matriculas_written_once_as_ativa enrolledWorld
  ⟨rfl, rfl, h.2.2.2.1 2 1,
   ⟨{ ID := 4, UsuarioID := 2, TrilhaID := 1, DataInscricao := 100, Status := "ATIVA" },
    (h.2.2.2.2.2 2 1 _ _ rfl).1, (h.2.2.2.2.2 2 1 _ _ rfl).2⟩⟩

/-! ## Enrollment workflow: nothing is written when a check fails -/

/-- C25: when the user lookup returns any error, `Matricular` returns an error
and the state the lookup left, and it does so for every track store and
enrollment store the service could be wired with, so neither the track lookup
nor `Create` is invoked; when the user is found and the track lookup returns any
error, `Matricular` returns an error and the state that lookup left, for every
enrollment store, so `Create` is not invoked.  On the wired service the stored
enrollments and their id sequence are then unchanged, and with both ids missing
on a database that answers the error is the user one, after a single round
trip. -/
theorem Matricular_atomic {σ : Type} (s : matriculaServiceImpl σ) (usuarioID trilhaID : Int)
    (w : σ) :
    (∀ e w1, s.usuarioDAO.FindByID usuarioID w = (.error e, w1) →
      (s.Matricular usuarioID trilhaID w).2 = w1 ∧
      (∃ e1, (s.Matricular usuarioID trilhaID w).1 = .error e1) ∧
      (∀ s1 : matriculaServiceImpl σ, s1.usuarioDAO = s.usuarioDAO →
        s1.Matricular usuarioID trilhaID w = s.Matricular usuarioID trilhaID w)) ∧
    (∀ usuario e w1 w2, s.usuarioDAO.FindByID usuarioID w = (.ok usuario, w1) →
      s.trilhaDAO.FindByID trilhaID w1 = (.error e, w2) →
      (s.Matricular usuarioID trilhaID w).2 = w2 ∧
      (∃ e1, (s.Matricular usuarioID trilhaID w).1 = .error e1) ∧
      (∀ s1 : matriculaServiceImpl σ, s1.usuarioDAO = s.usuarioDAO →
        s1.trilhaDAO = s.trilhaDAO →
        s1.Matricular usuarioID trilhaID w = s.Matricular usuarioID trilhaID w)) ∧
    (∀ wd : World,
      ((∃ e w1, NewUsuarioDAO.FindByID usuarioID wd = (.error e, w1)) ∨
        (∃ usuario e w1 w2, NewUsuarioDAO.FindByID usuarioID wd = (.ok usuario, w1) ∧
          NewTrilhaDAO.FindByID trilhaID w1 = (.error e, w2))) →
      (NewMatriculaService.Matricular usuarioID trilhaID wd).2.matriculas = wd.matriculas ∧
      (NewMatriculaService.Matricular usuarioID trilhaID wd).2.matriculasSeq
        = wd.matriculasSeq) ∧
    (∀ wd : World, ¬ wd.hasUsuario usuarioID → ¬ wd.hasTrilha trilhaID → wd.healthy 1 →
      NewMatriculaService.Matricular usuarioID trilhaID wd
        = (.error (.BusinessRuleError
            ("Usuário com ID " ++ fmtD usuarioID ++ " não encontrado.")),
           { wd with calls := wd.calls + 1 })) := by
  have huser : ∀ (s0 : matriculaServiceImpl σ) e w1,
      s0.usuarioDAO.FindByID usuarioID w = (.error e, w1) →
      s0.Matricular usuarioID trilhaID w
        = (.error (if e.isResourceNotFound then
            .BusinessRuleError ("Usuário com ID " ++ fmtD usuarioID ++ " não encontrado.")
            else e), w1) := by
    intro s0 e w1 h
    simp only [matriculaServiceImpl.Matricular, h]
    split <;> rfl
  have htrack : ∀ (s0 : matriculaServiceImpl σ) usuario e w1 w2,
      s0.usuarioDAO.FindByID usuarioID w = (.ok usuario, w1) →
      s0.trilhaDAO.FindByID trilhaID w1 = (.error e, w2) →
      s0.Matricular usuarioID trilhaID w
        = (.error (if e.isResourceNotFound then
            .BusinessRuleError ("Trilha com ID " ++ fmtD trilhaID ++ " não encontrada.")
            else e), w2) := by
    intro s0 usuario e w1 w2 h1 h2
    simp only [matriculaServiceImpl.Matricular, h1, h2]
    split <;> rfl
  refine ⟨?_, ?_, ?_, ?_⟩
  · intro e w1 h
    refine ⟨by rw [huser s e w1 h], ⟨_, by rw [huser s e w1 h]⟩, ?_⟩
    intro s1 hs1
    rw [huser s e w1 h, huser s1 e w1 (by rw [hs1]; exact h)]
  · intro usuario e w1 w2 h1 h2
    refine ⟨by rw [htrack s usuario e w1 w2 h1 h2],
      ⟨_, by rw [htrack s usuario e w1 w2 h1 h2]⟩, ?_⟩
    intro s1 hs1 hs2
    rw [htrack s usuario e w1 w2 h1 h2,
      htrack s1 usuario e w1 w2 (by rw [hs1]; exact h1) (by rw [hs2]; exact h2)]
  · intro wd hfail
    rcases Matricular_matriculas usuarioID trilhaID wd with hsame | ⟨row, happ, -⟩
    · refine ⟨hsame, ?_⟩
      rcases hfail with ⟨e, w1, h⟩ | ⟨usuario, e, w1, w2, h1, h2⟩
      · have hst := usuarioDAO_FindByID_state usuarioID wd
        have h0 : usuarioDAOImpl.FindByID usuarioID wd = (.error e, w1) := h
        rw [h0] at hst
        simp only at hst
        subst hst
        have hrun : NewMatriculaService.Matricular usuarioID trilhaID wd
            = (.error (if e.isResourceNotFound then
                .BusinessRuleError ("Usuário com ID " ++ fmtD usuarioID ++ " não encontrado.")
                else e), { wd with calls := wd.calls + 1 }) := by
          have h3 : NewMatriculaService.usuarioDAO.FindByID usuarioID wd = _ := h
          simp only [matriculaServiceImpl.Matricular, h3]
          split <;> rfl
        rw [hrun]
      · have hst := usuarioDAO_FindByID_state usuarioID wd
        have h0 : usuarioDAOImpl.FindByID usuarioID wd = (.ok usuario, w1) := h1
        rw [h0] at hst
        simp only at hst
        subst hst
        have hst2 := trilhaDAO_FindByID_state trilhaID { wd with calls := wd.calls + 1 }
        have h4 : trilhaDAOImpl.FindByID trilhaID { wd with calls := wd.calls + 1 }
            = (.error e, w2) := h2
        rw [h4] at hst2
        simp only at hst2
        subst hst2
        have hrun : NewMatriculaService.Matricular usuarioID trilhaID wd
            = (.error (if e.isResourceNotFound then
                .BusinessRuleError ("Trilha com ID " ++ fmtD trilhaID ++ " não encontrada.")
                else e), { wd with calls := wd.calls + 1 + 1 }) := by
          have h3 : NewMatriculaService.usuarioDAO.FindByID usuarioID wd = _ := h1
          have h5 : NewMatriculaService.trilhaDAO.FindByID trilhaID
              { wd with calls := wd.calls + 1 } = _ := h2
          simp only [matriculaServiceImpl.Matricular, h3, h5]
          split <;> rfl
        rw [hrun]
    · exfalso
      have hlen := congrArg List.length happ
      rcases hfail with ⟨e, w1, h⟩ | ⟨usuario, e, w1, w2, h1, h2⟩
      · have h3 : NewMatriculaService.usuarioDAO.FindByID usuarioID wd = _ := h
        have hst := usuarioDAO_FindByID_state usuarioID wd
        have h0 : usuarioDAOImpl.FindByID usuarioID wd = (.error e, w1) := h
        rw [h0] at hst
        simp only at hst
        subst hst
        have hrun : (NewMatriculaService.Matricular usuarioID trilhaID wd).2
            = { wd with calls := wd.calls + 1 } := by
          simp only [matriculaServiceImpl.Matricular, h3]
          split <;> rfl
        rw [hrun] at hlen
        simp at hlen
      · have h3 : NewMatriculaService.usuarioDAO.FindByID usuarioID wd = _ := h1
        have hst := usuarioDAO_FindByID_state usuarioID wd
        have h0 : usuarioDAOImpl.FindByID usuarioID wd = (.ok usuario, w1) := h1
        rw [h0] at hst
        simp only at hst
        subst hst
        have h5 : NewMatriculaService.trilhaDAO.FindByID trilhaID
            { wd with calls := wd.calls + 1 } = _ := h2
        have hst2 := trilhaDAO_FindByID_state trilhaID { wd with calls := wd.calls + 1 }
        have h4 : trilhaDAOImpl.FindByID trilhaID { wd with calls := wd.calls + 1 }
            = (.error e, w2) := h2
        rw [h4] at hst2
        simp only at hst2
        subst hst2
        have hrun : (NewMatriculaService.Matricular usuarioID trilhaID wd).2
            = { wd with calls := wd.calls + 1 + 1 } := by
          simp only [matriculaServiceImpl.Matricular, h3, h5]
          split <;> rfl
        rw [hrun] at hlen
        simp at hlen
  · intro wd hnu _ hh
    have hfind : NewMatriculaService.usuarioDAO.FindByID usuarioID wd = _ :=
      usuarioDAO_FindByID_absent usuarioID wd hnu (healthy_head wd 0 hh)
    simp [matriculaServiceImpl.Matricular, hfind, GoError.isResourceNotFound]

/-- Witness for C25: on the sample database, user 7 and track 9 are both missing
and the error is the user one after one round trip; with user 1 stored and the
track lookup failing, no enrollment is written. -/
theorem Matricular_atomic_witness :
    NewMatriculaService.Matricular 7 9 sampleWorld
      = (.error (.BusinessRuleError ("Usuário com ID " ++ fmtD 7 ++ " não encontrado.")),
         { sampleWorld with calls := sampleWorld.calls + 1 }) ∧
    (NewMatriculaService.Matricular 1 1 (faultyWorld 1)).2.matriculas
      = (faultyWorld 1).matriculas :=
  ⟨(Matricular_atomic NewMatriculaService 7 9 sampleWorld).2.2.2 sampleWorld
      (by
        rintro ⟨x, hx, hid⟩
        simp only [sampleWorld, List.mem_singleton] at hx
        subst hx
        exact absurd hid (by decide))
      (by
        rintro ⟨x, hx, hid⟩
        simp only [sampleWorld, List.mem_singleton] at hx
        subst hx
        exact absurd hid (by decide))
      (fun _ _ => rfl),
   ((Matricular_atomic NewMatriculaService 1 1 sampleWorld).2.2.1 (faultyWorld 1)
      (Or.inr ⟨_, _, _, _, rfl, rfl⟩)).1⟩

/-! ## Update, fetch, update again -/

/-- Selecting after a row-wise rewrite that keeps the selection key is
rewriting after selecting. -/
theorem filter_map_preserving {α : Type} (l : List α) (p : α → Bool) (f : α → α)
    (hp : ∀ a, p (f a) = p a) : (l.map f).filter p = (l.filter p).map f := by
  induction l with
  | nil => rfl
  | cons a as ih =>
    simp only [List.map_cons, List.filter_cons, hp a]
    by_cases h : p a = true
    · simp only [h, if_true, List.map_cons, ih]
    · simp only [h, if_false, ih]
      rfl

/-- Rewriting every row twice with a rewrite that repeats itself is rewriting
once. -/
theorem map_idempotent {α : Type} (l : List α) (f : α → α) (hf : ∀ a, f (f a) = f a) :
    (l.map f).map f = l.map f := by
  rw [List.map_map]
  apply List.map_congr_left
  intro a _
  exact hf a

/-- Applying a track update request twice is applying it once. -/
theorem trilha_applyTo_idempotent (req : UpdateTrilhaRequest) (t : Trilha) :
    req.applyTo (req.applyTo t) = req.applyTo t := by
  rw [trilha_applyTo_fields req (req.applyTo t), trilha_applyTo_fields req t]
  by_cases h1 : req.Nome = "" <;> by_cases h2 : req.Descricao = "" <;>
    by_cases h3 : req.Nivel = "" <;> by_cases h4 : req.CargaHoraria = 0 <;>
    by_cases h5 : req.FocoPrincipal = "" <;> simp [h1, h2, h3, h4, h5]

/-- Applying a user update request twice is applying it once. -/
theorem usuario_applyTo_idempotent (req : UpdateUsuarioRequest) (u : Usuario) :
    req.applyTo (req.applyTo u) = req.applyTo u := by
  rw [usuario_applyTo_fields req (req.applyTo u), usuario_applyTo_fields req u]
  by_cases h1 : req.Nome = "" <;> by_cases h2 : req.AreaAtuacao = "" <;>
    by_cases h3 : req.NivelCarreira = "" <;> simp [h1, h2, h3]

/-- With two working round trips, `Update` of the track service on an id whose
first stored row is `old` returns `old` with the request applied and writes it
into every row of that id. -/
theorem TrilhaService_Update_healthy (id : Int) (req : UpdateTrilhaRequest) (w : World)
    (old : Trilha) (rest : List Trilha)
    (hsel : w.trilhas.filter (fun x => x.ID == id) = old :: rest)
    (hf0 : w.faults w.calls = Fault.none) (hf1 : w.faults (w.calls + 1) = Fault.none) :
    NewTrilhaService.Update id req w
      = (.ok (req.applyTo old).toResponse,
         { w with
           trilhas := w.trilhas.map (fun t => if t.ID = id then req.applyTo old else t)
           calls := w.calls + 2 }) := by
  have hmem : old ∈ w.trilhas.filter (fun x => x.ID == id) := by
    rw [hsel]
    exact List.mem_cons_self _ _
  simp only [List.mem_filter, beq_iff_eq] at hmem
  have hrid : (req.applyTo old).ID = id := by
    rw [trilha_applyTo_fields]
    exact hmem.2
  have hfind := trilhaDAO_FindByID_first id w old rest hsel hf0
  have hhas : ({ w with calls := w.calls + 1 } : World).hasTrilha (req.applyTo old).ID :=
    ⟨old, hmem.1, by rw [hrid]; exact hmem.2⟩
  have hupd := trilhaDAO_Update_present (req.applyTo old) { w with calls := w.calls + 1 } hhas hf1
  rw [trilhaService_Update_eq]
  simp only [NewTrilhaService, NewTrilhaDAO, hfind, hupd, hrid]

/-- With two working round trips, `Update` of the user service on an id whose
first stored row is `old` returns `old` with the request applied and writes the
three updatable columns into every row of that id. -/
theorem UsuarioService_Update_healthy (id : Int) (req : UpdateUsuarioRequest) (w : World)
    (old : Usuario) (rest : List Usuario)
    (hsel : w.usuarios.filter (fun x => x.ID == id) = old :: rest)
    (hf0 : w.faults w.calls = Fault.none) (hf1 : w.faults (w.calls + 1) = Fault.none) :
    NewUsuarioService.Update id req w
      = (.ok (req.applyTo old).toResponse,
         { w with
           usuarios := w.usuarios.map (fun u =>
             if u.ID = id then
               { u with Nome := (req.applyTo old).Nome,
                        AreaAtuacao := (req.applyTo old).AreaAtuacao,
                        NivelCarreira := (req.applyTo old).NivelCarreira }
             else u)
           calls := w.calls + 2 }) := by
  have hmem : old ∈ w.usuarios.filter (fun x => x.ID == id) := by
    rw [hsel]
    exact List.mem_cons_self _ _
  simp only [List.mem_filter, beq_iff_eq] at hmem
  have hrid : (req.applyTo old).ID = id := by
    rw [usuario_applyTo_fields]
    exact hmem.2
  have hfind := usuarioDAO_FindByID_first id w old rest hsel hf0
  have hhas : ({ w with calls := w.calls + 1 } : World).hasUsuario (req.applyTo old).ID :=
    ⟨old, hmem.1, by rw [hrid]; exact hmem.2⟩
  have hupd := usuarioDAO_Update_present (req.applyTo old) { w with calls := w.calls + 1 }
    hhas hf1
  rw [usuarioService_Update_eq]
  simp only [NewUsuarioService, NewUsuarioDAO, hfind, hupd, hrid]

/-- Writing the three updatable columns of the updated record into the record
fetched gives the updated record: id, email and registration time were kept. -/
theorem usuario_applyTo_keep (req : UpdateUsuarioRequest) (old : Usuario) :
    ({ old with Nome := (req.applyTo old).Nome, AreaAtuacao := (req.applyTo old).AreaAtuacao,
                NivelCarreira := (req.applyTo old).NivelCarreira } : Usuario)
      = req.applyTo old := by
  rw [usuario_applyTo_fields]

/-- C26: for a stored track (resp. user), any update request and a database that
answers five round trips, `Update` succeeds, `FindByID` on the same id run
next returns the representation `Update` returned, and `Update` with the same
request run after that returns the same representation again and leaves the
table exactly as the first `Update` left it. -/
theorem Update_idempotent_and_consistent (id : Int) (w : World) (hh : w.healthy 5) :
    (∀ req : UpdateTrilhaRequest, w.hasTrilha id →
      ∃ resp w1 w2 w3, NewTrilhaService.Update id req w = (.ok resp, w1) ∧
        NewTrilhaService.FindByID id w1 = (.ok resp, w2) ∧
        NewTrilhaService.Update id req w2 = (.ok resp, w3) ∧
        w3.trilhas = w1.trilhas ∧ w2.trilhas = w1.trilhas) ∧
    (∀ req : UpdateUsuarioRequest, w.hasUsuario id →
      ∃ resp w1 w2 w3, NewUsuarioService.Update id req w = (.ok resp, w1) ∧
        NewUsuarioService.FindByID id w1 = (.ok resp, w2) ∧
        NewUsuarioService.Update id req w2 = (.ok resp, w3) ∧
        w3.usuarios = w1.usuarios ∧ w2.usuarios = w1.usuarios) := by
  have hf0 : w.faults w.calls = Fault.none := by simpa using healthy_at w 5 0 hh (by omega)
  have hf1 : w.faults (w.calls + 1) = Fault.none := healthy_at w 5 1 hh (by omega)
  have hf2 : w.faults (w.calls + 2) = Fault.none := healthy_at w 5 2 hh (by omega)
  have hf3 : w.faults (w.calls + 2 + 1) = Fault.none := healthy_at w 5 3 hh (by omega)
  have hf4 : w.faults (w.calls + 2 + 1 + 1) = Fault.none := healthy_at w 5 4 hh (by omega)
  constructor
  · intro req ht
    obtain ⟨old, rest, hsel, hmem, hid⟩ := trilha_filter_of_has id w ht
    have hrid : (req.applyTo old).ID = id := by
      rw [trilha_applyTo_fields]
      exact hid
    have hp : ∀ a : Trilha,
        ((if a.ID = id then req.applyTo old else a).ID == id) = (a.ID == id) := by
      intro a
      by_cases ha : a.ID = id
      · simp [ha, hrid]
      · simp [ha]
    have hsel1 : (w.trilhas.map (fun t => if t.ID = id then req.applyTo old else t)).filter
        (fun x => x.ID == id)
        = req.applyTo old :: rest.map (fun t => if t.ID = id then req.applyTo old else t) := by
      rw [filter_map_preserving w.trilhas (fun x : Trilha => x.ID == id)
        (fun t => if t.ID = id then req.applyTo old else t) hp, hsel]
      simp [hid]
    have h1 := TrilhaService_Update_healthy id req w old rest hsel hf0 hf1
    have hfind := trilhaDAO_FindByID_first id
      { w with
        trilhas := w.trilhas.map (fun t => if t.ID = id then req.applyTo old else t)
        calls := w.calls + 2 } (req.applyTo old) _ hsel1 hf2
    have h3 := TrilhaService_Update_healthy id req
      { w with
        trilhas := w.trilhas.map (fun t => if t.ID = id then req.applyTo old else t)
        calls := w.calls + 2 + 1 } (req.applyTo old) _ hsel1 hf3 hf4
    rw [trilha_applyTo_idempotent] at h3
    refine ⟨_, _, _, _, h1, ?_, h3, ?_, rfl⟩
    · simp only [trilhaServiceImpl.FindByID, NewTrilhaService, NewTrilhaDAO, hfind]
    · apply map_idempotent
      intro a
      by_cases ha : a.ID = id
      · simp [ha, hrid]
      · simp [ha]
  · intro req hu
    obtain ⟨old, rest, hsel, hmem, hid⟩ := usuario_filter_of_has id w hu
    have hp : ∀ a : Usuario,
        ((if a.ID = id then
            { a with Nome := (req.applyTo old).Nome,
                     AreaAtuacao := (req.applyTo old).AreaAtuacao,
                     NivelCarreira := (req.applyTo old).NivelCarreira }
          else a).ID == id) = (a.ID == id) := by
      intro a
      by_cases ha : a.ID = id
      · simp [ha]
      · simp [ha]
    have hsel1 : (w.usuarios.map (fun u =>
          if u.ID = id then
            { u with Nome := (req.applyTo old).Nome,
                     AreaAtuacao := (req.applyTo old).AreaAtuacao,
                     NivelCarreira := (req.applyTo old).NivelCarreira }
          else u)).filter (fun x => x.ID == id)
        = req.applyTo old :: rest.map (fun u =>
          if u.ID = id then
            { u with Nome := (req.applyTo old).Nome,
                     AreaAtuacao := (req.applyTo old).AreaAtuacao,
                     NivelCarreira := (req.applyTo old).NivelCarreira }
          else u) := by
      rw [filter_map_preserving w.usuarios (fun x : Usuario => x.ID == id)
        (fun u =>
          if u.ID = id then
            { u with Nome := (req.applyTo old).Nome,
                     AreaAtuacao := (req.applyTo old).AreaAtuacao,
                     NivelCarreira := (req.applyTo old).NivelCarreira }
          else u) hp, hsel]
      simp only [List.map_cons, hid, if_true]
      congr 1
      rw [← hid]
      exact usuario_applyTo_keep req old
    have h1 := UsuarioService_Update_healthy id req w old rest hsel hf0 hf1
    have hfind := usuarioDAO_FindByID_first id
      { w with
        usuarios := w.usuarios.map (fun u =>
          if u.ID = id then
            { u with Nome := (req.applyTo old).Nome,
                     AreaAtuacao := (req.applyTo old).AreaAtuacao,
                     NivelCarreira := (req.applyTo old).NivelCarreira }
          else u)
        calls := w.calls + 2 } (req.applyTo old) _ hsel1 hf2
    have h3 := UsuarioService_Update_healthy id req
      { w with
        usuarios := w.usuarios.map (fun u =>
          if u.ID = id then
            { u with Nome := (req.applyTo old).Nome,
                     AreaAtuacao := (req.applyTo old).AreaAtuacao,
                     NivelCarreira := (req.applyTo old).NivelCarreira }
          else u)
        calls := w.calls + 2 + 1 } (req.applyTo old) _ hsel1 hf3 hf4
    rw [usuario_applyTo_idempotent] at h3
    refine ⟨_, _, _, _, h1, ?_, h3, ?_, rfl⟩
    · simp only [usuarioServiceImpl.FindByID, NewUsuarioService, NewUsuarioDAO, hfind]
    · apply map_idempotent
      intro a
      by_cases ha : a.ID = id
      · simp [ha]
      · simp [ha]

/-- Witness for C26: the track and the user of the sample database, updated,
fetched and updated again. -/
theorem Update_idempotent_and_consistent_witness :
    (NewTrilhaService.Update 1
      { Nome := "", Descricao := "Intro", Nivel := "", CargaHoraria := 100,
        FocoPrincipal := "" } sampleWorld).1
      = .ok { ID := 1, Nome := "Dados 101", Descricao := "Intro", Nivel := "INICIANTE",
              CargaHoraria := 100, FocoPrincipal := "Dados" } ∧
    (∃ resp w1 w2 w3,
      NewTrilhaService.Update 1
        { Nome := "", Descricao := "Intro", Nivel := "", CargaHoraria := 100,
          FocoPrincipal := "" } sampleWorld = (.ok resp, w1) ∧
      NewTrilhaService.FindByID 1 w1 = (.ok resp, w2) ∧
      NewTrilhaService.Update 1
        { Nome := "", Descricao := "Intro", Nivel := "", CargaHoraria := 100,
          FocoPrincipal := "" } w2 = (.ok resp, w3) ∧
      w3.trilhas = w1.trilhas ∧ w2.trilhas = w1.trilhas) ∧
    (∃ resp w1 w2 w3,
      NewUsuarioService.Update 1 { Nome := "Ana C", AreaAtuacao := "", NivelCarreira := "" }
        sampleWorld = (.ok resp, w1) ∧
      NewUsuarioService.FindByID 1 w1 = (.ok resp, w2) ∧
      NewUsuarioService.Update 1 { Nome := "Ana C", AreaAtuacao := "", NivelCarreira := "" }
        w2 = (.ok resp, w3) ∧
      w3.usuarios = w1.usuarios ∧ w2.usuarios = w1.usuarios) :=
  have h := Update_idempotent_and_consistent 1 sampleWorld (fun _ _ => rfl)
  ⟨rfl, h.1 _ ⟨_, List.mem_cons_self _ _, rfl⟩, h.2 _ ⟨_, List.mem_cons_self _ _, rfl⟩⟩

end Upskilling
